import Mathlib

/-!
fbink_nif: the marshalling core of the FBInk bridge.

A shallow embedding of `c_src/fbink_nif.c`: host terms, the `erl_nif` readers the
bridge calls, the typed accessors `get_bool` / `get_int` / `get_uint` / `get_double`,
the forward and reverse marshallers, the result encoders, the dump resources and the
bridged operations of the function table, followed by the properties proved about them.

Machine integers are `Int` with the native range made explicit at every reader and
cast. A native `double` is kept by its exact value: host floats are always finite, so
each one is a rational number, and widening a 32-bit `int` to `double` is exact.
-/

set_option autoImplicit false

namespace FbinkNif

/-! ## Host terms -/

/-- The value of a native `double` (host floats are finite). -/
abbrev Double := ℚ

/-- Host terms as seen through `ERL_NIF_TERM`: atoms, integers of any magnitude,
floats, binaries, list cells (`nil` / `cons`, so improper lists exist too), tuples,
maps (entries in lookup order) and resource handles. -/
inductive Term where
  | atom (name : String)
  | int (v : Int)
  | float (v : Double)
  | binary (bytes : List Nat)
  | nil
  | cons (hd tl : Term)
  | tuple (elems : List Term)
  | map (entries : List (Term × Term))
  | resource (handle : Nat)

mutual
/-- Structural equality of terms. -/
def Term.beq : Term → Term → Bool
  | .atom a, .atom b => a == b
  | .int a, .int b => a == b
  | .float a, .float b => a == b
  | .binary a, .binary b => a == b
  | .nil, .nil => true
  | .cons a b, .cons c d => Term.beq a c && Term.beq b d
  | .tuple a, .tuple b => Term.beqList a b
  | .map a, .map b => Term.beqPairs a b
  | .resource a, .resource b => a == b
  | _, _ => false
/-- Structural equality of term sequences. -/
def Term.beqList : List Term → List Term → Bool
  | [], [] => true
  | a :: r, b :: s => Term.beq a b && Term.beqList r s
  | _, _ => false
/-- Structural equality of map entry sequences. -/
def Term.beqPairs : List (Term × Term) → List (Term × Term) → Bool
  | [], [] => true
  | (k, v) :: r, (k2, v2) :: r2 => Term.beq k k2 && Term.beq v v2 && Term.beqPairs r r2
  | _, _ => false
end

mutual
theorem Term.eq_of_beq : ∀ a b : Term, Term.beq a b = true → a = b
  | .atom a, .atom b, h => by simp [Term.beq] at h; rw [h]
  | .int a, .int b, h => by simp [Term.beq] at h; rw [h]
  | .float a, .float b, h => by simp [Term.beq] at h; rw [h]
  | .binary a, .binary b, h => by simp [Term.beq] at h; rw [h]
  | .nil, .nil, _ => rfl
  | .cons a b, .cons c d, h => by
      simp [Term.beq] at h
      rw [Term.eq_of_beq a c h.1, Term.eq_of_beq b d h.2]
  | .tuple a, .tuple b, h => by
      simp [Term.beq] at h
      rw [Term.eq_of_beqList a b h]
  | .map a, .map b, h => by
      simp [Term.beq] at h
      rw [Term.eq_of_beqPairs a b h]
  | .resource a, .resource b, h => by simp [Term.beq] at h; rw [h]
  | .atom _, .int _, h | .atom _, .float _, h | .atom _, .binary _, h | .atom _, .nil, h
  | .atom _, .cons _ _, h | .atom _, .tuple _, h | .atom _, .map _, h
  | .atom _, .resource _, h => by simp [Term.beq] at h
  | .int _, .atom _, h | .int _, .float _, h | .int _, .binary _, h | .int _, .nil, h
  | .int _, .cons _ _, h | .int _, .tuple _, h | .int _, .map _, h
  | .int _, .resource _, h => by simp [Term.beq] at h
  | .float _, .atom _, h | .float _, .int _, h | .float _, .binary _, h | .float _, .nil, h
  | .float _, .cons _ _, h | .float _, .tuple _, h | .float _, .map _, h
  | .float _, .resource _, h => by simp [Term.beq] at h
  | .binary _, .atom _, h | .binary _, .int _, h | .binary _, .float _, h | .binary _, .nil, h
  | .binary _, .cons _ _, h | .binary _, .tuple _, h | .binary _, .map _, h
  | .binary _, .resource _, h => by simp [Term.beq] at h
  | .nil, .atom _, h | .nil, .int _, h | .nil, .float _, h | .nil, .binary _, h
  | .nil, .cons _ _, h | .nil, .tuple _, h | .nil, .map _, h
  | .nil, .resource _, h => by simp [Term.beq] at h
  | .cons _ _, .atom _, h | .cons _ _, .int _, h | .cons _ _, .float _, h
  | .cons _ _, .binary _, h | .cons _ _, .nil, h | .cons _ _, .tuple _, h
  | .cons _ _, .map _, h | .cons _ _, .resource _, h => by simp [Term.beq] at h
  | .tuple _, .atom _, h | .tuple _, .int _, h | .tuple _, .float _, h | .tuple _, .binary _, h
  | .tuple _, .nil, h | .tuple _, .cons _ _, h | .tuple _, .map _, h
  | .tuple _, .resource _, h => by simp [Term.beq] at h
  | .map _, .atom _, h | .map _, .int _, h | .map _, .float _, h | .map _, .binary _, h
  | .map _, .nil, h | .map _, .cons _ _, h | .map _, .tuple _, h
  | .map _, .resource _, h => by simp [Term.beq] at h
  | .resource _, .atom _, h | .resource _, .int _, h | .resource _, .float _, h
  | .resource _, .binary _, h | .resource _, .nil, h | .resource _, .cons _ _, h
  | .resource _, .tuple _, h | .resource _, .map _, h => by simp [Term.beq] at h
theorem Term.eq_of_beqList : ∀ a b : List Term, Term.beqList a b = true → a = b
  | [], [], _ => rfl
  | a :: r, b :: s, h => by
      simp [Term.beqList] at h
      rw [Term.eq_of_beq a b h.1, Term.eq_of_beqList r s h.2]
  | [], _ :: _, h | _ :: _, [], h => by simp [Term.beqList] at h
theorem Term.eq_of_beqPairs :
    ∀ a b : List (Term × Term), Term.beqPairs a b = true → a = b
  | [], [], _ => rfl
  | (k, v) :: r, (k2, v2) :: r2, h => by
      simp [Term.beqPairs] at h
      rw [Term.eq_of_beq k k2 h.1.1, Term.eq_of_beq v v2 h.1.2, Term.eq_of_beqPairs r r2 h.2]
  | [], _ :: _, h | _ :: _, [], h => by simp [Term.beqPairs] at h
end

mutual
theorem Term.beq_self : ∀ a : Term, Term.beq a a = true
  | .atom _ | .int _ | .float _ | .binary _ | .nil | .resource _ => by simp [Term.beq]
  | .cons a b => by simp [Term.beq, Term.beq_self a, Term.beq_self b]
  | .tuple a => by simp [Term.beq, Term.beqList_self a]
  | .map a => by simp [Term.beq, Term.beqPairs_self a]
theorem Term.beqList_self : ∀ a : List Term, Term.beqList a a = true
  | [] => by simp [Term.beqList]
  | a :: r => by simp [Term.beqList, Term.beq_self a, Term.beqList_self r]
theorem Term.beqPairs_self : ∀ a : List (Term × Term), Term.beqPairs a a = true
  | [] => by simp [Term.beqPairs]
  | (k, v) :: r => by
      simp [Term.beqPairs, Term.beq_self k, Term.beq_self v, Term.beqPairs_self r]
end

instance : DecidableEq Term := fun a b =>
  if h : Term.beq a b = true then isTrue (Term.eq_of_beq a b h)
  else isFalse (fun e => h (e ▸ Term.beq_self a))

/-! ## Native integer ranges and casts -/

/-- Smallest value of the native `int` (32 bits). -/
def INT_MIN : Int := -2147483648

/-- Largest value of the native `int` (32 bits). -/
def INT_MAX : Int := 2147483647

/-- Largest value of the native `unsigned int` (32 bits). -/
def UINT_MAX : Int := 4294967295

/-- Conversion to an unsigned integer type of `bits` bits: reduction modulo `2^bits`. -/
def cast_unsigned (bits : Nat) (v : Int) : Int := v % 2 ^ bits

/-- Conversion to a signed two's-complement integer type of `bits` bits. -/
def cast_signed (bits : Nat) (v : Int) : Int :=
  (v + 2 ^ (bits - 1)) % 2 ^ bits - 2 ^ (bits - 1)

/-- The cast `(short int)`. -/
def cast_short (v : Int) : Int := cast_signed 16 v

/-- The cast `(unsigned short int)`. -/
def cast_ushort (v : Int) : Int := cast_unsigned 16 v

/-- The cast `(uint8_t)`. -/
def cast_uint8 (v : Int) : Int := cast_unsigned 8 v

/-! ## The `erl_nif` readers used by the bridge -/

/-- `enif_get_int`: succeeds exactly on an integer term that fits the native `int`. -/
def enif_get_int : Term → Option Int
  | .int v => if INT_MIN ≤ v ∧ v ≤ INT_MAX then some v else none
  | _ => none

/-- `enif_get_uint`: succeeds exactly on an integer term that fits the native
`unsigned int`. -/
def enif_get_uint : Term → Option Int
  | .int v => if 0 ≤ v ∧ v ≤ UINT_MAX then some v else none
  | _ => none

/-- `enif_get_double`: succeeds exactly on a float term. -/
def enif_get_double : Term → Option Double
  | .float v => some v
  | _ => none

/-- `enif_get_atom` with Latin-1 encoding into a buffer of `size` bytes: the atom's
characters when the term is an atom of at most `size - 1` Latin-1 characters, failure
(a return of 0) otherwise. -/
def enif_get_atom (term : Term) (size : Nat) : Option (List Char) :=
  match term with
  | .atom name =>
    if name.length + 1 ≤ size ∧ name.toList.all (fun c => decide (c.toNat < 256)) then
      some name.toList
    else none
  | _ => none

/-- `enif_get_map_value`: the value stored under `key`; fails when the term is not a
map or has no such key. -/
def enif_get_map_value (map key : Term) : Option Term :=
  match map with
  | .map entries => entries.lookup key
  | _ => none

/-- The C string held in a buffer: the characters before the first NUL. -/
def c_string (buf : List Char) : List Nat :=
  (buf.map Char.toNat).takeWhile (fun c => decide (c ≠ 0))

/-- `strcmp`: zero exactly when the two C strings are equal, otherwise the sign of the
lexicographic comparison of their bytes. -/
def strcmp (a b : List Char) : Int :=
  if c_string a = c_string b then 0
  else if c_string a < c_string b then -1 else 1

/-! ## Typed field accessors -/

/-- `get_bool` (fbink_nif.c:190). -/
def get_bool (map key : Term) (default_val : Bool) : Bool :=
  match enif_get_map_value map key with
  | none => default_val
  | some val =>
    match enif_get_atom val 8 with
    | some buf => strcmp buf "true".toList == 0
    | none =>
      match enif_get_int val with
      | some ival => ival != 0
      | none => default_val

/-- `get_int` (fbink_nif.c:207). -/
def get_int (map key : Term) (default_val : Int) : Int :=
  match enif_get_map_value map key with
  | none => default_val
  | some val =>
    match enif_get_int val with
    | some ival => ival
    | none => default_val

/-- `get_uint` (fbink_nif.c:219). -/
def get_uint (map key : Term) (default_val : Int) : Int :=
  match enif_get_map_value map key with
  | none => default_val
  | some val =>
    match enif_get_uint val with
    | some uval => uval
    | none =>
      match enif_get_int val with
      | some ival => if ival ≥ 0 then cast_unsigned 32 ival else default_val
      | none => default_val

/-- `get_double` (fbink_nif.c:234). -/
def get_double (map key : Term) (default_val : Double) : Double :=
  match enif_get_map_value map key with
  | none => default_val
  | some val =>
    match enif_get_double val with
    | some dval => dval
    | none =>
      match enif_get_int val with
      | some ival => (ival : Double)
      | none => default_val

/-! ## Result encoding -/

/-- The cached atom `ok`. -/
def atom_ok : Term := .atom "ok"

/-- The cached atom `error`. -/
def atom_error : Term := .atom "error"

/-- `enif_make_int`. -/
def enif_make_int (i : Int) : Term := .int i

/-- `enif_make_tuple2`. -/
def enif_make_tuple2 (e1 e2 : Term) : Term := .tuple [e1, e2]

/-- `make_ok` (fbink_nif.c:484). -/
def make_ok (value : Term) : Term := enif_make_tuple2 atom_ok value

/-- `make_error_int` (fbink_nif.c:488). -/
def make_error_int (code : Int) : Term := enif_make_tuple2 atom_error (enif_make_int code)

/-- `make_ok_or_error` (fbink_nif.c:496). -/
def make_ok_or_error (rv : Int) : Term :=
  if rv ≥ 0 then enif_make_tuple2 atom_ok (enif_make_int rv)
  else make_error_int rv

/-! ## Cached atoms (created once in `load`) -/

def atom_row : Term := .atom "row"
def atom_col : Term := .atom "col"
def atom_fontmult : Term := .atom "fontmult"
def atom_fontname : Term := .atom "fontname"
def atom_is_inverted : Term := .atom "is_inverted"
def atom_is_flashing : Term := .atom "is_flashing"
def atom_is_cleared : Term := .atom "is_cleared"
def atom_is_centered : Term := .atom "is_centered"
def atom_hoffset : Term := .atom "hoffset"
def atom_voffset : Term := .atom "voffset"
def atom_is_halfway : Term := .atom "is_halfway"
def atom_is_padded : Term := .atom "is_padded"
def atom_is_rpadded : Term := .atom "is_rpadded"
def atom_fg_color : Term := .atom "fg_color"
def atom_bg_color : Term := .atom "bg_color"
def atom_is_overlay : Term := .atom "is_overlay"
def atom_is_bgless : Term := .atom "is_bgless"
def atom_is_fgless : Term := .atom "is_fgless"
def atom_no_viewport : Term := .atom "no_viewport"
def atom_is_verbose : Term := .atom "is_verbose"
def atom_is_quiet : Term := .atom "is_quiet"
def atom_ignore_alpha : Term := .atom "ignore_alpha"
def atom_halign : Term := .atom "halign"
def atom_valign : Term := .atom "valign"
def atom_scaled_width : Term := .atom "scaled_width"
def atom_scaled_height : Term := .atom "scaled_height"
def atom_wfm_mode : Term := .atom "wfm_mode"
def atom_dithering_mode : Term := .atom "dithering_mode"
def atom_sw_dithering : Term := .atom "sw_dithering"
def atom_cfa_mode : Term := .atom "cfa_mode"
def atom_is_nightmode : Term := .atom "is_nightmode"
def atom_no_refresh : Term := .atom "no_refresh"
def atom_no_merge : Term := .atom "no_merge"
def atom_is_animated : Term := .atom "is_animated"
def atom_saturation_boost : Term := .atom "saturation_boost"
def atom_to_syslog : Term := .atom "to_syslog"
def atom_margins : Term := .atom "margins"
def atom_top : Term := .atom "top"
def atom_bottom : Term := .atom "bottom"
def atom_left : Term := .atom "left"
def atom_right : Term := .atom "right"
def atom_style : Term := .atom "style"
def atom_size_pt : Term := .atom "size_pt"
def atom_size_px : Term := .atom "size_px"
def atom_padding : Term := .atom "padding"
def atom_is_formatted : Term := .atom "is_formatted"
def atom_compute_only : Term := .atom "compute_only"
def atom_no_truncation : Term := .atom "no_truncation"

/-! ## Native records -/

/-- The declarations of `fbink.h` the marshallers depend on. The header is not part of
the bridge's sources, so they are parameters of the embedding: the width in bits of
each index typedef (transported as a plain unsigned integer), the constant
`FNT_REGULAR`, and the narrowing conversion from `double` to `float`. -/
structure FBInkTypes where
  FONT_INDEX_T : Nat
  FONT_STYLE_T : Nat
  FG_COLOR_INDEX_T : Nat
  BG_COLOR_INDEX_T : Nat
  ALIGN_INDEX_T : Nat
  WFM_MODE_INDEX_T : Nat
  HW_DITHER_INDEX_T : Nat
  CFA_MODE_INDEX_T : Nat
  PADDING_INDEX_T : Nat
  FNT_REGULAR : Int
  cast_float : Double → Double

/-- One instance of the header, used to evaluate the marshallers on concrete mappings:
every index typedef is 8 bits wide (`uint8_t`), `FNT_REGULAR` is 0, and the narrowing
to `float` is the identity, which is what it is on every value a `float` can hold. -/
def fbink_h : FBInkTypes where
  FONT_INDEX_T := 8
  FONT_STYLE_T := 8
  FG_COLOR_INDEX_T := 8
  BG_COLOR_INDEX_T := 8
  ALIGN_INDEX_T := 8
  WFM_MODE_INDEX_T := 8
  HW_DITHER_INDEX_T := 8
  CFA_MODE_INDEX_T := 8
  PADDING_INDEX_T := 8
  FNT_REGULAR := 0
  cast_float := fun d => d

/-- Native record `FBInkConfig`: the fields the bridge fills in. -/
structure FBInkConfig where
  row : Int
  col : Int
  fontmult : Int
  fontname : Int
  is_inverted : Bool
  is_flashing : Bool
  is_cleared : Bool
  is_centered : Bool
  hoffset : Int
  voffset : Int
  is_halfway : Bool
  is_padded : Bool
  is_rpadded : Bool
  fg_color : Int
  bg_color : Int
  is_overlay : Bool
  is_bgless : Bool
  is_fgless : Bool
  no_viewport : Bool
  is_verbose : Bool
  is_quiet : Bool
  ignore_alpha : Bool
  halign : Int
  valign : Int
  scaled_width : Int
  scaled_height : Int
  wfm_mode : Int
  dithering_mode : Int
  sw_dithering : Bool
  cfa_mode : Int
  is_nightmode : Bool
  no_refresh : Bool
  no_merge : Bool
  is_animated : Bool
  saturation_boost : Int
  to_syslog : Bool
  deriving DecidableEq

/-- The record after `memset(cfg, 0, sizeof(FBInkConfig))`. -/
def FBInkConfig.zeroed : FBInkConfig where
  row := 0
  col := 0
  fontmult := 0
  fontname := 0
  is_inverted := false
  is_flashing := false
  is_cleared := false
  is_centered := false
  hoffset := 0
  voffset := 0
  is_halfway := false
  is_padded := false
  is_rpadded := false
  fg_color := 0
  bg_color := 0
  is_overlay := false
  is_bgless := false
  is_fgless := false
  no_viewport := false
  is_verbose := false
  is_quiet := false
  ignore_alpha := false
  halign := 0
  valign := 0
  scaled_width := 0
  scaled_height := 0
  wfm_mode := 0
  dithering_mode := 0
  sw_dithering := false
  cfa_mode := 0
  is_nightmode := false
  no_refresh := false
  no_merge := false
  is_animated := false
  saturation_boost := 0
  to_syslog := false

/-- `map_to_fbink_config` (fbink_nif.c:249): zero the record, then fill each field
from the mapping through the accessor and the cast the source uses. -/
def map_to_fbink_config (T : FBInkTypes) (map : Term) : FBInkConfig :=
  let cfg := FBInkConfig.zeroed
  { cfg with
    row := cast_short (get_int map atom_row 0),
    col := cast_short (get_int map atom_col 0),
    fontmult := cast_uint8 (get_uint map atom_fontmult 0),
    fontname := cast_unsigned T.FONT_INDEX_T (get_uint map atom_fontname 0),
    is_inverted := get_bool map atom_is_inverted false,
    is_flashing := get_bool map atom_is_flashing false,
    is_cleared := get_bool map atom_is_cleared false,
    is_centered := get_bool map atom_is_centered false,
    hoffset := cast_short (get_int map atom_hoffset 0),
    voffset := cast_short (get_int map atom_voffset 0),
    is_halfway := get_bool map atom_is_halfway false,
    is_padded := get_bool map atom_is_padded false,
    is_rpadded := get_bool map atom_is_rpadded false,
    fg_color := cast_unsigned T.FG_COLOR_INDEX_T (get_uint map atom_fg_color 0),
    bg_color := cast_unsigned T.BG_COLOR_INDEX_T (get_uint map atom_bg_color 0),
    is_overlay := get_bool map atom_is_overlay false,
    is_bgless := get_bool map atom_is_bgless false,
    is_fgless := get_bool map atom_is_fgless false,
    no_viewport := get_bool map atom_no_viewport false,
    is_verbose := get_bool map atom_is_verbose false,
    is_quiet := get_bool map atom_is_quiet false,
    ignore_alpha := get_bool map atom_ignore_alpha false,
    halign := cast_unsigned T.ALIGN_INDEX_T (get_uint map atom_halign 0),
    valign := cast_unsigned T.ALIGN_INDEX_T (get_uint map atom_valign 0),
    scaled_width := cast_short (get_int map atom_scaled_width 0),
    scaled_height := cast_short (get_int map atom_scaled_height 0),
    wfm_mode := cast_unsigned T.WFM_MODE_INDEX_T (get_uint map atom_wfm_mode 0),
    dithering_mode := cast_unsigned T.HW_DITHER_INDEX_T (get_uint map atom_dithering_mode 0),
    sw_dithering := get_bool map atom_sw_dithering false,
    cfa_mode := cast_unsigned T.CFA_MODE_INDEX_T (get_uint map atom_cfa_mode 0),
    is_nightmode := get_bool map atom_is_nightmode false,
    no_refresh := get_bool map atom_no_refresh false,
    no_merge := get_bool map atom_no_merge false,
    is_animated := get_bool map atom_is_animated false,
    saturation_boost := cast_uint8 (get_uint map atom_saturation_boost 0),
    to_syslog := get_bool map atom_to_syslog false }

/-- The 36 keys `map_to_fbink_config` reads. -/
def config_keys : List Term :=
  [atom_row, atom_col, atom_fontmult, atom_fontname,
   atom_is_inverted, atom_is_flashing, atom_is_cleared, atom_is_centered,
   atom_hoffset, atom_voffset, atom_is_halfway, atom_is_padded,
   atom_is_rpadded, atom_fg_color, atom_bg_color, atom_is_overlay,
   atom_is_bgless, atom_is_fgless, atom_no_viewport, atom_is_verbose,
   atom_is_quiet, atom_ignore_alpha, atom_halign, atom_valign,
   atom_scaled_width, atom_scaled_height, atom_wfm_mode, atom_dithering_mode,
   atom_sw_dithering, atom_cfa_mode, atom_is_nightmode, atom_no_refresh,
   atom_no_merge, atom_is_animated, atom_saturation_boost, atom_to_syslog]

/-- The nested `margins` record of `FBInkOTConfig`. -/
structure FBInkOTMargins where
  top : Int
  bottom : Int
  left : Int
  right : Int
  deriving DecidableEq

/-- Native record `FBInkOTConfig`: the fields the bridge fills in. -/
structure FBInkOTConfig where
  margins : FBInkOTMargins
  style : Int
  size_pt : Double
  size_px : Int
  is_centered : Bool
  padding : Int
  is_formatted : Bool
  compute_only : Bool
  no_truncation : Bool
  deriving DecidableEq

/-- The record after `memset(cfg, 0, sizeof(FBInkOTConfig))`. -/
def FBInkOTConfig.zeroed : FBInkOTConfig where
  margins := { top := 0, bottom := 0, left := 0, right := 0 }
  style := 0
  size_pt := 0
  size_px := 0
  is_centered := false
  padding := 0
  is_formatted := false
  compute_only := false
  no_truncation := false

/-- `map_to_fbink_ot_config` (fbink_nif.c:294): zero the record, read the margins from
the term under `margins` when there is one, then fill the flat fields. -/
def map_to_fbink_ot_config (T : FBInkTypes) (map : Term) : FBInkOTConfig :=
  let cfg := FBInkOTConfig.zeroed
  let cfg :=
    match enif_get_map_value map atom_margins with
    | some margins_val =>
      { cfg with
        margins :=
          { top := cast_short (get_int margins_val atom_top 0),
            bottom := cast_short (get_int margins_val atom_bottom 0),
            left := cast_short (get_int margins_val atom_left 0),
            right := cast_short (get_int margins_val atom_right 0) } }
    | none => cfg
  { cfg with
    style := cast_unsigned T.FONT_STYLE_T (get_int map atom_style T.FNT_REGULAR),
    size_pt := T.cast_float (get_double map atom_size_pt 0),
    size_px := cast_ushort (get_uint map atom_size_px 0),
    is_centered := get_bool map atom_is_centered false,
    padding := cast_unsigned T.PADDING_INDEX_T (get_uint map atom_padding 0),
    is_formatted := get_bool map atom_is_formatted false,
    compute_only := get_bool map atom_compute_only false,
    no_truncation := get_bool map atom_no_truncation false }

/-! ## Map construction -/

/-- Entries of a map after storing `value` under `key`: an existing entry for the key
is replaced, otherwise a new entry is added. -/
def map_put (key value : Term) : List (Term × Term) → List (Term × Term)
  | [] => [(key, value)]
  | (k, v) :: rest =>
    if k = key then (key, value) :: rest else (k, v) :: map_put key value rest

/-- `enif_make_map_put`: fails when `map_in` is not a map, otherwise the map with
`value` stored under `key`. -/
def enif_make_map_put (map_in key value : Term) : Option Term :=
  match map_in with
  | .map entries => some (.map (map_put key value entries))
  | _ => none

/-- A key has no entry among the entries of a map. -/
def key_absent (key : Term) (entries : List (Term × Term)) : Prop :=
  ∀ value, (key, value) ∉ entries

/-! ## Term construction -/

/-- The cached atom `nil`. -/
def atom_nil : Term := .atom "nil"

/-- The cached atom `true`. -/
def atom_true : Term := .atom "true"

/-- The cached atom `false`. -/
def atom_false : Term := .atom "false"

/-- The cached atom `undefined`. -/
def atom_undefined : Term := .atom "undefined"

/-- `enif_make_uint`: the integer term for a native `unsigned int` value. -/
def enif_make_uint (i : Int) : Term := .int i

/-- `enif_make_long`: the integer term for a native `long` value. -/
def enif_make_long (i : Int) : Term := .int i

/-- `enif_make_uint64`: the integer term for a native 64-bit unsigned value. -/
def enif_make_uint64 (i : Nat) : Term := .int i

/-- The proper list holding the given terms in order. -/
def list_term : List Term → Term
  | [] => .nil
  | t :: rest => .cons t (list_term rest)

/-- `enif_make_list_from_array`: the list of the first `cnt` terms of the array. -/
def enif_make_list_from_array (arr : List Term) (cnt : Nat) : Term :=
  list_term (arr.take cnt)

/-- The bytes of a NUL-terminated native string: those before the first zero byte. -/
def c_bytes (mem : List Nat) : List Nat :=
  mem.takeWhile (fun c => decide (c ≠ 0))

/-- `enif_make_string` with Latin-1 encoding: the list of the character codes of the
native string. The empty string gives the empty list. -/
def enif_make_string (str : List Nat) : Term :=
  list_term ((c_bytes str).map (fun c => Term.int c))

/-- `make_atom` (fbink_nif.c:178): the atom of that name, whether or not it existed. -/
def make_atom (name : String) : Term := .atom name

/-- `make_error_string` (fbink_nif.c:492). -/
def make_error_string (reason : String) : Term :=
  enif_make_tuple2 atom_error (make_atom reason)

/-- `enif_make_new_map`. -/
def enif_make_new_map : Term := .map []

/-- The statement `enif_make_map_put(env, map, key, value, &map)` as the source writes
it, without looking at the result: `map` is replaced on success and keeps its value
when the call fails. -/
def map_put_stmt (map key value : Term) : Term :=
  match enif_make_map_put map key value with
  | some map_out => map_out
  | none => map

/-! ## Rectangles -/

def atom_width : Term := .atom "width"
def atom_height : Term := .atom "height"

/-- Native record `FBInkRect`. -/
structure FBInkRect where
  left : Int
  top : Int
  width : Int
  height : Int
  deriving DecidableEq

/-- The record after `memset(rect, 0, sizeof(FBInkRect))`. -/
def FBInkRect.zeroed : FBInkRect where
  left := 0
  top := 0
  width := 0
  height := 0

/-- `map_to_fbink_rect` (fbink_nif.c:320). -/
def map_to_fbink_rect (map : Term) : FBInkRect :=
  let rect := FBInkRect.zeroed
  { rect with
    left := cast_ushort (get_uint map atom_left 0),
    top := cast_ushort (get_uint map atom_top 0),
    width := cast_ushort (get_uint map atom_width 0),
    height := cast_ushort (get_uint map atom_height 0) }

/-- `fbink_rect_to_map` (fbink_nif.c:332). -/
def fbink_rect_to_map (rect : FBInkRect) : Term :=
  let map := enif_make_new_map
  let map := map_put_stmt map atom_left (enif_make_uint rect.left)
  let map := map_put_stmt map atom_top (enif_make_uint rect.top)
  let map := map_put_stmt map atom_width (enif_make_uint rect.width)
  let map := map_put_stmt map atom_height (enif_make_uint rect.height)
  map

/-! ## State snapshot -/

def atom_user_hz : Term := .atom "user_hz"
def atom_font_name : Term := .atom "font_name"
def atom_view_width : Term := .atom "view_width"
def atom_view_height : Term := .atom "view_height"
def atom_screen_width : Term := .atom "screen_width"
def atom_screen_height : Term := .atom "screen_height"
def atom_scanline_stride : Term := .atom "scanline_stride"
def atom_bpp : Term := .atom "bpp"
def atom_inverted_grayscale : Term := .atom "inverted_grayscale"
def atom_device_name : Term := .atom "device_name"
def atom_device_codename : Term := .atom "device_codename"
def atom_device_platform : Term := .atom "device_platform"
def atom_device_id : Term := .atom "device_id"
def atom_pen_fg_color : Term := .atom "pen_fg_color"
def atom_pen_bg_color : Term := .atom "pen_bg_color"
def atom_screen_dpi : Term := .atom "screen_dpi"
def atom_font_w : Term := .atom "font_w"
def atom_font_h : Term := .atom "font_h"
def atom_max_cols : Term := .atom "max_cols"
def atom_max_rows : Term := .atom "max_rows"
def atom_view_hori_origin : Term := .atom "view_hori_origin"
def atom_view_vert_origin : Term := .atom "view_vert_origin"
def atom_view_vert_offset : Term := .atom "view_vert_offset"
def atom_fontsize_mult : Term := .atom "fontsize_mult"
def atom_glyph_width : Term := .atom "glyph_width"
def atom_glyph_height : Term := .atom "glyph_height"
def atom_is_perfect_fit : Term := .atom "is_perfect_fit"
def atom_is_mtk : Term := .atom "is_mtk"
def atom_is_sunxi : Term := .atom "is_sunxi"
def atom_sunxi_has_fbdamage : Term := .atom "sunxi_has_fbdamage"
def atom_sunxi_force_rota : Term := .atom "sunxi_force_rota"
def atom_is_kindle_legacy : Term := .atom "is_kindle_legacy"
def atom_is_kobo_non_mt : Term := .atom "is_kobo_non_mt"
def atom_unreliable_wait_for : Term := .atom "unreliable_wait_for"
def atom_can_wake_epdc : Term := .atom "can_wake_epdc"
def atom_ntx_boot_rota : Term := .atom "ntx_boot_rota"
def atom_ntx_rota_quirk : Term := .atom "ntx_rota_quirk"
def atom_rotation_map : Term := .atom "rotation_map"
def atom_touch_swap_axes : Term := .atom "touch_swap_axes"
def atom_touch_mirror_x : Term := .atom "touch_mirror_x"
def atom_touch_mirror_y : Term := .atom "touch_mirror_y"
def atom_is_ntx_quirky_landscape : Term := .atom "is_ntx_quirky_landscape"
def atom_current_rota : Term := .atom "current_rota"
def atom_can_rotate : Term := .atom "can_rotate"
def atom_can_hw_invert : Term := .atom "can_hw_invert"
def atom_has_eclipse_wfm : Term := .atom "has_eclipse_wfm"
def atom_has_color_panel : Term := .atom "has_color_panel"
def atom_pixel_format : Term := .atom "pixel_format"
def atom_can_wait_for_submission : Term := .atom "can_wait_for_submission"

/-- Native record `FBInkState`: the fields the bridge reads. A flag is kept as the truth
value the source tests, a character array as its bytes, and `font_name` as the bytes
it points to, or nothing for the null pointer. -/
structure FBInkState where
  user_hz : Int
  font_name : Option (List Nat)
  view_width : Int
  view_height : Int
  screen_width : Int
  screen_height : Int
  scanline_stride : Int
  bpp : Int
  inverted_grayscale : Bool
  device_name : List Nat
  device_codename : List Nat
  device_platform : List Nat
  device_id : Int
  pen_fg_color : Int
  pen_bg_color : Int
  screen_dpi : Int
  font_w : Int
  font_h : Int
  max_cols : Int
  max_rows : Int
  view_hori_origin : Int
  view_vert_origin : Int
  view_vert_offset : Int
  fontsize_mult : Int
  glyph_width : Int
  glyph_height : Int
  is_perfect_fit : Bool
  is_mtk : Bool
  is_sunxi : Bool
  sunxi_has_fbdamage : Bool
  sunxi_force_rota : Int
  is_kindle_legacy : Bool
  is_kobo_non_mt : Bool
  unreliable_wait_for : Bool
  can_wake_epdc : Bool
  ntx_boot_rota : Int
  ntx_rota_quirk : Int
  rotation_map : Fin 4 → Int
  touch_swap_axes : Bool
  touch_mirror_x : Bool
  touch_mirror_y : Bool
  is_ntx_quirky_landscape : Bool
  current_rota : Int
  can_rotate : Bool
  can_hw_invert : Bool
  has_eclipse_wfm : Bool
  has_color_panel : Bool
  pixel_format : Int
  can_wait_for_submission : Bool

/-- `fbink_state_to_map` (fbink_nif.c:345). -/
def fbink_state_to_map (state : FBInkState) : Term :=
  let map := enif_make_new_map
  let map := map_put_stmt map atom_user_hz (enif_make_long state.user_hz)
  let map := map_put_stmt map atom_font_name
    (match state.font_name with
     | some font_name => enif_make_string font_name
     | none => atom_nil)
  let map := map_put_stmt map atom_view_width (enif_make_uint state.view_width)
  let map := map_put_stmt map atom_view_height (enif_make_uint state.view_height)
  let map := map_put_stmt map atom_screen_width (enif_make_uint state.screen_width)
  let map := map_put_stmt map atom_screen_height (enif_make_uint state.screen_height)
  let map := map_put_stmt map atom_scanline_stride (enif_make_uint state.scanline_stride)
  let map := map_put_stmt map atom_bpp (enif_make_uint state.bpp)
  let map := map_put_stmt map atom_inverted_grayscale (if state.inverted_grayscale then atom_true else atom_false)
  let map := map_put_stmt map atom_device_name (enif_make_string state.device_name)
  let map := map_put_stmt map atom_device_codename (enif_make_string state.device_codename)
  let map := map_put_stmt map atom_device_platform (enif_make_string state.device_platform)
  let map := map_put_stmt map atom_device_id (enif_make_uint state.device_id)
  let map := map_put_stmt map atom_pen_fg_color (enif_make_uint state.pen_fg_color)
  let map := map_put_stmt map atom_pen_bg_color (enif_make_uint state.pen_bg_color)
  let map := map_put_stmt map atom_screen_dpi (enif_make_uint state.screen_dpi)
  let map := map_put_stmt map atom_font_w (enif_make_uint state.font_w)
  let map := map_put_stmt map atom_font_h (enif_make_uint state.font_h)
  let map := map_put_stmt map atom_max_cols (enif_make_uint state.max_cols)
  let map := map_put_stmt map atom_max_rows (enif_make_uint state.max_rows)
  let map := map_put_stmt map atom_view_hori_origin (enif_make_uint state.view_hori_origin)
  let map := map_put_stmt map atom_view_vert_origin (enif_make_uint state.view_vert_origin)
  let map := map_put_stmt map atom_view_vert_offset (enif_make_uint state.view_vert_offset)
  let map := map_put_stmt map atom_fontsize_mult (enif_make_uint state.fontsize_mult)
  let map := map_put_stmt map atom_glyph_width (enif_make_uint state.glyph_width)
  let map := map_put_stmt map atom_glyph_height (enif_make_uint state.glyph_height)
  let map := map_put_stmt map atom_is_perfect_fit (if state.is_perfect_fit then atom_true else atom_false)
  let map := map_put_stmt map atom_is_mtk (if state.is_mtk then atom_true else atom_false)
  let map := map_put_stmt map atom_is_sunxi (if state.is_sunxi then atom_true else atom_false)
  let map := map_put_stmt map atom_sunxi_has_fbdamage (if state.sunxi_has_fbdamage then atom_true else atom_false)
  let map := map_put_stmt map atom_sunxi_force_rota (enif_make_int state.sunxi_force_rota)
  let map := map_put_stmt map atom_is_kindle_legacy (if state.is_kindle_legacy then atom_true else atom_false)
  let map := map_put_stmt map atom_is_kobo_non_mt (if state.is_kobo_non_mt then atom_true else atom_false)
  let map := map_put_stmt map atom_unreliable_wait_for (if state.unreliable_wait_for then atom_true else atom_false)
  let map := map_put_stmt map atom_can_wake_epdc (if state.can_wake_epdc then atom_true else atom_false)
  let map := map_put_stmt map atom_ntx_boot_rota (enif_make_uint state.ntx_boot_rota)
  let map := map_put_stmt map atom_ntx_rota_quirk (enif_make_uint state.ntx_rota_quirk)
  let rota_arr := List.ofFn (fun i : Fin 4 => enif_make_uint (state.rotation_map i))
  let map := map_put_stmt map atom_rotation_map (enif_make_list_from_array rota_arr 4)
  let map := map_put_stmt map atom_touch_swap_axes (if state.touch_swap_axes then atom_true else atom_false)
  let map := map_put_stmt map atom_touch_mirror_x (if state.touch_mirror_x then atom_true else atom_false)
  let map := map_put_stmt map atom_touch_mirror_y (if state.touch_mirror_y then atom_true else atom_false)
  let map := map_put_stmt map atom_is_ntx_quirky_landscape (if state.is_ntx_quirky_landscape then atom_true else atom_false)
  let map := map_put_stmt map atom_current_rota (enif_make_uint state.current_rota)
  let map := map_put_stmt map atom_can_rotate (if state.can_rotate then atom_true else atom_false)
  let map := map_put_stmt map atom_can_hw_invert (if state.can_hw_invert then atom_true else atom_false)
  let map := map_put_stmt map atom_has_eclipse_wfm (if state.has_eclipse_wfm then atom_true else atom_false)
  let map := map_put_stmt map atom_has_color_panel (if state.has_color_panel then atom_true else atom_false)
  let map := map_put_stmt map atom_pixel_format (enif_make_uint state.pixel_format)
  let map := map_put_stmt map atom_can_wait_for_submission (if state.can_wait_for_submission then atom_true else atom_false)
  map

/-- A state snapshot used to evaluate `fbink_state_to_map`. -/
def sample_state : FBInkState where
  user_hz := 0
  font_name := some [86, 71, 65]
  view_width := 1072
  view_height := 1448
  screen_width := 0
  screen_height := 0
  scanline_stride := 0
  bpp := 0
  inverted_grayscale := false
  device_name := [75, 111, 98, 111, 0]
  device_codename := [75, 111, 98, 111, 0]
  device_platform := [75, 111, 98, 111, 0]
  device_id := 0
  pen_fg_color := 0
  pen_bg_color := 0
  screen_dpi := 0
  font_w := 0
  font_h := 0
  max_cols := 0
  max_rows := 0
  view_hori_origin := 0
  view_vert_origin := 0
  view_vert_offset := 0
  fontsize_mult := 0
  glyph_width := 0
  glyph_height := 0
  is_perfect_fit := false
  is_mtk := false
  is_sunxi := false
  sunxi_has_fbdamage := false
  sunxi_force_rota := 0
  is_kindle_legacy := false
  is_kobo_non_mt := false
  unreliable_wait_for := false
  can_wake_epdc := false
  ntx_boot_rota := 0
  ntx_rota_quirk := 0
  rotation_map := fun i => 3 - i.val
  touch_swap_axes := false
  touch_mirror_x := false
  touch_mirror_y := false
  is_ntx_quirky_landscape := false
  current_rota := 0
  can_rotate := false
  can_hw_invert := false
  has_eclipse_wfm := false
  has_color_panel := false
  pixel_format := 0
  can_wait_for_submission := false

/-! ## Further native records -/

def atom_computed_lines : Term := .atom "computed_lines"
def atom_rendered_lines : Term := .atom "rendered_lines"
def atom_bbox : Term := .atom "bbox"
def atom_truncated : Term := .atom "truncated"
def atom_data : Term := .atom "data"
def atom_stride : Term := .atom "stride"
def atom_size : Term := .atom "size"
def atom_area : Term := .atom "area"
def atom_clip : Term := .atom "clip"
def atom_rota : Term := .atom "rota"
def atom_is_full : Term := .atom "is_full"
def atom_type : Term := .atom "type"
def atom_fd : Term := .atom "fd"
def atom_matched : Term := .atom "matched"
def atom_name : Term := .atom "name"
def atom_path : Term := .atom "path"

/-- The `bbox` member of `FBInkOTFit`. -/
structure FBInkOTFitBox where
  width : Int
  height : Int
  deriving DecidableEq

/-- Native record `FBInkOTFit`: the fields the bridge reads. -/
structure FBInkOTFit where
  computed_lines : Int
  rendered_lines : Int
  bbox : FBInkOTFitBox
  truncated : Bool
  deriving DecidableEq

/-- `fbink_ot_fit_to_map` (fbink_nif.c:461). -/
def fbink_ot_fit_to_map (fit : FBInkOTFit) : Term :=
  let map := enif_make_new_map
  let map := map_put_stmt map atom_computed_lines (enif_make_uint fit.computed_lines)
  let map := map_put_stmt map atom_rendered_lines (enif_make_uint fit.rendered_lines)
  let bbox := enif_make_new_map
  let bbox := map_put_stmt bbox atom_width (enif_make_uint fit.bbox.width)
  let bbox := map_put_stmt bbox atom_height (enif_make_uint fit.bbox.height)
  let map := map_put_stmt map atom_bbox bbox
  let map := map_put_stmt map atom_truncated (if fit.truncated then atom_true else atom_false)
  map

/-- Native record `FBInkDump`: the fields the bridge reads. The payload pointer `data`
is nothing for the null pointer and otherwise the bytes of the buffer it points to;
`stride` and `size` are `size_t` values. -/
structure FBInkDump where
  data : Option (List Nat)
  stride : Nat
  size : Nat
  area : FBInkRect
  clip : FBInkRect
  rota : Int
  bpp : Int
  is_full : Bool
  deriving DecidableEq

/-- The record after `memset(&res->dump, 0, sizeof(FBInkDump))`. -/
def FBInkDump.zeroed : FBInkDump where
  data := none
  stride := 0
  size := 0
  area := FBInkRect.zeroed
  clip := FBInkRect.zeroed
  rota := 0
  bpp := 0
  is_full := false

/-- The resource object `DumpResource` (fbink_nif.c:164). -/
structure DumpResource where
  dump : FBInkDump
  deriving DecidableEq

/-- The live resources of type `dump_resource_type`, by handle. A handle with no entry
is not a resource of this type. -/
abbrev Heap := Nat → Option DumpResource

/-- Native record `FBInkInputDevice`: the fields the bridge reads. -/
structure FBInkInputDevice where
  type : Int
  fd : Int
  matched : Bool
  name : List Nat
  path : List Nat
  deriving DecidableEq

/-! ## Further `erl_nif` functions -/

/-- `enif_make_tuple3`. -/
def enif_make_tuple3 (e1 e2 e3 : Term) : Term := .tuple [e1, e2, e3]

/-- `enif_make_tuple4`. -/
def enif_make_tuple4 (e1 e2 e3 e4 : Term) : Term := .tuple [e1, e2, e3, e4]

/-- `enif_is_atom`. -/
def enif_is_atom : Term → Bool
  | .atom _ => true
  | _ => false

/-- `enif_inspect_binary`: the bytes of a binary term; fails on any other term. -/
def enif_inspect_binary : Term → Option (List Nat)
  | .binary bytes => some bytes
  | _ => none

/-- `enif_inspect_iolist_as_binary`: the bytes of a binary or of an iolist, flattened in
order. An iolist is a list cell chain whose heads are bytes (0..255), binaries or
iolists and whose final tail is the empty list or a binary. -/
def enif_inspect_iolist_as_binary : Term → Option (List Nat)
  | .binary bytes => some bytes
  | .nil => some []
  | .cons hd tl =>
    match (match hd with
           | .int v => if 0 ≤ v ∧ v ≤ 255 then some [v.toNat] else none
           | _ => enif_inspect_iolist_as_binary hd),
          enif_inspect_iolist_as_binary tl with
    | some head_bytes, some tail_bytes => some (head_bytes ++ tail_bytes)
    | _, _ => none
  | _ => none

/-- The loop of `enif_get_string`: `written` holds the bytes stored so far. Gives the
return value and the contents of the buffer up to and including the NUL. -/
def enif_get_string_loop (size : Nat) : Term → List Nat → Int × List Nat
  | .nil, written => (written.length + 1, written ++ [0])
  | .cons (.int v) tl, written =>
    if 0 ≤ v ∧ v ≤ 255 then
      if written.length + 1 ≥ size then (-(size : Int), written ++ [0])
      else enif_get_string_loop size tl (written ++ [v.toNat])
    else (0, written ++ [0])
  | _, written => (0, written ++ [0])

/-- `enif_get_string` with Latin-1 encoding into a buffer of `size` bytes. The return
value is the number of bytes written, NUL included, when the term is a list of bytes
that fits; `-size` when the list was truncated to fit; and 0 when the term is not a
list of bytes. The second component is what was written to the buffer. -/
def enif_get_string (list : Term) (size : Nat) : Int × List Nat :=
  if size < 1 then (0, []) else enif_get_string_loop size list []

/-- `enif_get_list_length`: the length of a proper list; fails on any other term. -/
def enif_get_list_length : Term → Option Nat
  | .nil => some 0
  | .cons _ tl =>
    match enif_get_list_length tl with
    | some n => some (n + 1)
    | none => none
  | _ => none

/-- `enif_get_list_cell`: head and tail of a non-empty list. -/
def enif_get_list_cell : Term → Option (Term × Term)
  | .cons hd tl => some (hd, tl)
  | _ => none

/-- `enif_get_resource` for `dump_resource_type`: the resource object behind a handle
term of that type. -/
def enif_get_resource (heap : Heap) : Term → Option (Nat × DumpResource)
  | .resource handle =>
    match heap handle with
    | some res => some (handle, res)
    | none => none
  | _ => none

/-! ## Calls into the native library -/

/-- An argument as passed to a native entry point. Output-only pointers are left out.
`bytes` is a buffer whose content is recorded in full. `c_str` is a path handed over as
a bare `const char *`, without a length: the entry point receives the NUL-terminated
string that starts at the pointer, recorded as its bytes before the first NUL. -/
inductive NativeArg where
  | int (v : Int)
  | bool (b : Bool)
  | bytes (buf : List Nat)
  | c_str (chars : List Nat)
  | config (cfg : FBInkConfig)
  | ot_config (cfg : FBInkOTConfig)
  | rect (r : FBInkRect)
  | rect_ptr (r : Option FBInkRect)
  | rects (rs : List FBInkRect)
  | dump (d : FBInkDump)
  deriving DecidableEq

/-- One invocation of a native entry point, with its arguments in order. -/
structure NativeCall where
  entry : String
  args : List NativeArg
  deriving DecidableEq

/-- What the world outside the bridge answers during one bridged call: the results the
native library produces (each entry point reads the members that are its outputs) and
whether the allocator succeeds. -/
structure Native where
  rv : Int
  version : List Nat
  target : Int
  features : Int
  last_marker : Int
  quirky : Bool
  state : FBInkState
  last_rect : FBInkRect
  fit : FBInkOTFit
  dump : FBInkDump
  pixel_r : Int
  pixel_g : Int
  pixel_b : Int
  pixel_a : Int
  px : Int
  canonical : Int
  native_rota : Int
  devices : Option (List FBInkInputDevice)
  device : Option FBInkInputDevice
  alloc_ok : Bool
  new_resource : Option Nat

/-- What a bridged call hands back to the VM: the bad-argument exception of
`enif_make_badarg`, a term, or no return at all when the source dereferences a null
pointer. -/
inductive NifReturn where
  | badarg
  | term (t : Term)
  | crash
  deriving DecidableEq

/-- The outcome of a bridged call: what is returned, and the native entry points that
were invoked, in order. -/
structure NifRun where
  ret : NifReturn
  calls : List NativeCall
  deriving DecidableEq

/-- `return enif_make_badarg(env)` before any native call. -/
def enif_make_badarg : NifRun := { ret := .badarg, calls := [] }

/-- Modelled from the spec: the native release `fbink_free_dump_data`, which is not
part of the bridge's sources. It frees the payload and clears the pointer and the size
if and only if the pointer is present; a record without payload is left as it is. -/
def fbink_free_dump_data (dump : FBInkDump) : FBInkDump :=
  match dump.data with
  | some _ => { dump with data := none, size := 0 }
  | none => dump

/-- `dump_resource_dtor` (fbink_nif.c:168): the finalizer hands the record to the native
release. Gives the resource object after the call and the native call made. -/
def dump_resource_dtor (obj : DumpResource) : DumpResource × List NativeCall :=
  let res := obj
  ({ res with dump := fbink_free_dump_data res.dump },
    [{ entry := "fbink_free_dump_data", args := [.dump res.dump] }])

/-! ## Bridged operations

Each `nif_…` function below is the function of that name in the source. Its result
records what is returned to the VM and which native entry points were invoked with
which arguments. The answers of the native library and of the allocator are taken
from `E`. -/

/-- The cast `(uint16_t)`. -/
def cast_uint16 (v : Int) : Int := cast_unsigned 16 v

/-- Conversions to further typedefs of `fbink.h`, which is not part of the bridge's
sources: each member is the conversion the cast of that name performs on a native
integer. -/
structure FBInkCallTypes where
  SUNXI_FORCE_ROTA_INDEX_T : Int → Int
  MTK_SWIPE_DIRECTION_INDEX_T : Int → Int
  MTK_HALFTONE_MODE_INDEX_T : Int → Int
  INPUT_DEVICE_TYPE_T : Int → Int
  INPUT_SETTINGS_TYPE_T : Int → Int

/-- One instance of these conversions, used to evaluate the bridged operations: a
signed 8-bit rotation index, unsigned 8-bit swipe and halftone indices, unsigned 32-bit
input masks. -/
def fbink_call_h : FBInkCallTypes where
  SUNXI_FORCE_ROTA_INDEX_T := cast_signed 8
  MTK_SWIPE_DIRECTION_INDEX_T := cast_uint8
  MTK_HALFTONE_MODE_INDEX_T := cast_uint8
  INPUT_DEVICE_TYPE_T := cast_unsigned 32
  INPUT_SETTINGS_TYPE_T := cast_unsigned 32

/-- `nif_fbink_version` (fbink_nif.c:507). -/
def nif_fbink_version (E : Native) : NifRun :=
  let ver := E.version
  { ret := .term (enif_make_string ver),
    calls := [{ entry := "fbink_version", args := [] }] }

/-- `nif_fbink_target` (fbink_nif.c:518). -/
def nif_fbink_target (E : Native) : NifRun :=
  { ret := .term (enif_make_uint (cast_unsigned 32 E.target)),
    calls := [{ entry := "fbink_target", args := [] }] }

/-- `nif_fbink_features` (fbink_nif.c:528). -/
def nif_fbink_features (E : Native) : NifRun :=
  { ret := .term (enif_make_uint E.features),
    calls := [{ entry := "fbink_features", args := [] }] }

/-- `nif_fbink_open` (fbink_nif.c:538). -/
def nif_fbink_open (E : Native) : NifRun :=
  let fd := E.rv
  if fd < 0 then
    { ret := .term (make_error_int fd), calls := [{ entry := "fbink_open", args := [] }] }
  else
    { ret := .term (make_ok (enif_make_int fd)),
      calls := [{ entry := "fbink_open", args := [] }] }

/-- `nif_fbink_close` (fbink_nif.c:552). -/
def nif_fbink_close (E : Native) (a0 : Term) : NifRun :=
  match enif_get_int a0 with
  | some fbfd =>
    let rv := E.rv
    { ret := .term (make_ok_or_error rv),
      calls := [{ entry := "fbink_close",
                  args := [.int fbfd] }] }
  | _ => enif_make_badarg

/-- `nif_fbink_init` (fbink_nif.c:567). -/
def nif_fbink_init (T : FBInkTypes) (E : Native) (a0 a1 : Term) : NifRun :=
  match enif_get_int a0 with
  | some fbfd =>
    let cfg := map_to_fbink_config T a1
    let rv := E.rv
    { ret := .term (make_ok_or_error rv),
      calls := [{ entry := "fbink_init",
                  args := [.int fbfd, .config cfg] }] }
  | _ => enif_make_badarg

/-- `nif_fbink_reinit` (fbink_nif.c:585). -/
def nif_fbink_reinit (T : FBInkTypes) (E : Native) (a0 a1 : Term) : NifRun :=
  match enif_get_int a0 with
  | some fbfd =>
    let cfg := map_to_fbink_config T a1
    let rv := E.rv
    { ret := .term (make_ok_or_error rv),
      calls := [{ entry := "fbink_reinit",
                  args := [.int fbfd, .config cfg] }] }
  | _ => enif_make_badarg

/-- `nif_fbink_get_state` (fbink_nif.c:603). -/
def nif_fbink_get_state (T : FBInkTypes) (E : Native) (a0 : Term) : NifRun :=
  let cfg := map_to_fbink_config T a0
  let state := E.state
  { ret := .term (fbink_state_to_map state),
    calls := [{ entry := "fbink_get_state", args := [.config cfg] }] }

/-- `nif_fbink_state_dump` (fbink_nif.c:620). -/
def nif_fbink_state_dump (T : FBInkTypes) (a0 : Term) : NifRun :=
  let cfg := map_to_fbink_config T a0
  { ret := .term atom_ok,
    calls := [{ entry := "fbink_state_dump", args := [.config cfg] }] }

/-- `nif_fbink_get_last_rect` (fbink_nif.c:634). -/
def nif_fbink_get_last_rect (E : Native) (a0 : Term) : NifRun :=
  match enif_get_int a0 with
  | some rotated =>
    let rect := E.last_rect
    { ret := .term (fbink_rect_to_map rect),
      calls := [{ entry := "fbink_get_last_rect", args := [.bool (rotated != 0)] }] }
  | none => enif_make_badarg

/-- `nif_fbink_get_last_marker` (fbink_nif.c:649). -/
def nif_fbink_get_last_marker (E : Native) : NifRun :=
  { ret := .term (enif_make_uint E.last_marker),
    calls := [{ entry := "fbink_get_last_marker", args := [] }] }

/-- `nif_fbink_update_verbosity` (fbink_nif.c:659). -/
def nif_fbink_update_verbosity (T : FBInkTypes) (a0 : Term) : NifRun :=
  let cfg := map_to_fbink_config T a0
  { ret := .term atom_ok,
    calls := [{ entry := "fbink_update_verbosity", args := [.config cfg] }] }

/-- `nif_fbink_update_pen_colors` (fbink_nif.c:672). -/
def nif_fbink_update_pen_colors (T : FBInkTypes) (E : Native) (a0 : Term) : NifRun :=
  let cfg := map_to_fbink_config T a0
  let rv := E.rv
  { ret := .term (make_ok_or_error rv),
    calls := [{ entry := "fbink_update_pen_colors",
                args := [.config cfg] }] }

/-- `nif_fbink_set_fg_pen_gray` (fbink_nif.c:685). -/
def nif_fbink_set_fg_pen_gray (E : Native) (a0 a1 a2 : Term) : NifRun :=
  match enif_get_uint a0, enif_get_int a1, enif_get_int a2 with
  | some y, some quantize, some update =>
    let rv := E.rv
    { ret := .term (make_ok_or_error rv),
      calls := [{ entry := "fbink_set_fg_pen_gray",
                  args := [.int (cast_uint8 y), .bool (quantize != 0), .bool (update != 0)] }] }
  | _, _, _ => enif_make_badarg

/-- `nif_fbink_set_bg_pen_gray` (fbink_nif.c:703). -/
def nif_fbink_set_bg_pen_gray (E : Native) (a0 a1 a2 : Term) : NifRun :=
  match enif_get_uint a0, enif_get_int a1, enif_get_int a2 with
  | some y, some quantize, some update =>
    let rv := E.rv
    { ret := .term (make_ok_or_error rv),
      calls := [{ entry := "fbink_set_bg_pen_gray",
                  args := [.int (cast_uint8 y), .bool (quantize != 0), .bool (update != 0)] }] }
  | _, _, _ => enif_make_badarg

/-- `nif_fbink_set_fg_pen_rgba` (fbink_nif.c:721). -/
def nif_fbink_set_fg_pen_rgba (E : Native) (a0 a1 a2 a3 a4 a5 : Term) : NifRun :=
  match enif_get_uint a0, enif_get_uint a1, enif_get_uint a2, enif_get_uint a3, enif_get_int a4,
    enif_get_int a5 with
  | some r, some g, some b, some a, some quantize, some update =>
    let rv := E.rv
    { ret := .term (make_ok_or_error rv),
      calls := [{ entry := "fbink_set_fg_pen_rgba",
                  args := [.int (cast_uint8 r), .int (cast_uint8 g), .int (cast_uint8 b),
                    .int (cast_uint8 a), .bool (quantize != 0), .bool (update != 0)] }] }
  | _, _, _, _, _, _ => enif_make_badarg

/-- `nif_fbink_set_bg_pen_rgba` (fbink_nif.c:743). -/
def nif_fbink_set_bg_pen_rgba (E : Native) (a0 a1 a2 a3 a4 a5 : Term) : NifRun :=
  match enif_get_uint a0, enif_get_uint a1, enif_get_uint a2, enif_get_uint a3, enif_get_int a4,
    enif_get_int a5 with
  | some r, some g, some b, some a, some quantize, some update =>
    let rv := E.rv
    { ret := .term (make_ok_or_error rv),
      calls := [{ entry := "fbink_set_bg_pen_rgba",
                  args := [.int (cast_uint8 r), .int (cast_uint8 g), .int (cast_uint8 b),
                    .int (cast_uint8 a), .bool (quantize != 0), .bool (update != 0)] }] }
  | _, _, _, _, _, _ => enif_make_badarg

/-- `nif_fbink_print` (fbink_nif.c:765). The scratch buffer `str` holds the bytes of
the text followed by a NUL. -/
def nif_fbink_print (T : FBInkTypes) (E : Native) (a0 a1 a2 : Term) : NifRun :=
  match enif_get_int a0 with
  | none => enif_make_badarg
  | some fbfd =>
    match enif_inspect_iolist_as_binary a1 with
    | none => enif_make_badarg
    | some bin =>
      if ¬ E.alloc_ok then { ret := .term (make_error_string "enomem"), calls := [] }
      else
        let str := bin ++ [0]
        let cfg := map_to_fbink_config T a2
        let rv := E.rv
        { ret := .term (make_ok_or_error rv),
          calls := [{ entry := "fbink_print", args := [.int fbfd, .bytes str, .config cfg] }] }

/-- `nif_fbink_add_ot_font` (fbink_nif.c:795). The buffer `filename` is given by the
bytes written to it, up to and including the NUL. The native entry point gets the
pointer alone, so what it receives is the string that ends at the buffer's first NUL. -/
def nif_fbink_add_ot_font (T : FBInkTypes) (E : Native) (a0 a1 : Term) : NifRun :=
  let got := enif_get_string a0 4096
  let filename : Option (List Nat) :=
    if got.1 ≤ 0 then
      match enif_inspect_iolist_as_binary a0 with
      | none => none
      | some bin => if bin.length ≥ 4096 then none else some (bin ++ [0])
    else some got.2
  match filename with
  | none => enif_make_badarg
  | some filename =>
    match enif_get_int a1 with
    | none => enif_make_badarg
    | some style =>
      let rv := E.rv
      { ret := .term (make_ok_or_error rv),
        calls := [{ entry := "fbink_add_ot_font",
                    args := [.c_str (c_bytes filename),
                      .int (cast_unsigned T.FONT_STYLE_T style)] }] }

/-- `nif_fbink_free_ot_fonts` (fbink_nif.c:819). -/
def nif_fbink_free_ot_fonts (E : Native) : NifRun :=
  let rv := E.rv
  { ret := .term (make_ok_or_error rv),
    calls := [{ entry := "fbink_free_ot_fonts",
                args := [] }] }

/-- `nif_fbink_print_ot` (fbink_nif.c:830). -/
def nif_fbink_print_ot (T : FBInkTypes) (E : Native) (a0 a1 a2 a3 : Term) : NifRun :=
  match enif_get_int a0 with
  | none => enif_make_badarg
  | some fbfd =>
    match enif_inspect_iolist_as_binary a1 with
    | none => enif_make_badarg
    | some bin =>
      if ¬ E.alloc_ok then { ret := .term (make_error_string "enomem"), calls := [] }
      else
        let str := bin ++ [0]
        let ot_cfg := map_to_fbink_ot_config T a2
        let cfg := map_to_fbink_config T a3
        let fit := E.fit
        let rv := E.rv
        let call : NativeCall :=
          { entry := "fbink_print_ot",
            args := [.int fbfd, .bytes str, .ot_config ot_cfg, .config cfg] }
        if rv < 0 then { ret := .term (make_error_int rv), calls := [call] }
        else
          let fit_map := fbink_ot_fit_to_map fit
          { ret := .term (enif_make_tuple3 atom_ok (enif_make_int rv) fit_map),
            calls := [call] }

/-- `nif_fbink_print_progress_bar` (fbink_nif.c:870). -/
def nif_fbink_print_progress_bar (T : FBInkTypes) (E : Native) (a0 a1 a2 : Term) : NifRun :=
  match enif_get_int a0, enif_get_uint a1 with
  | some fbfd, some percentage =>
    let cfg := map_to_fbink_config T a2
    let rv := E.rv
    { ret := .term (make_ok_or_error rv),
      calls := [{ entry := "fbink_print_progress_bar",
                  args := [.int fbfd, .int (cast_uint8 percentage), .config cfg] }] }
  | _, _ => enif_make_badarg

/-- `nif_fbink_print_activity_bar` (fbink_nif.c:890). -/
def nif_fbink_print_activity_bar (T : FBInkTypes) (E : Native) (a0 a1 a2 : Term) : NifRun :=
  match enif_get_int a0, enif_get_uint a1 with
  | some fbfd, some progress =>
    let cfg := map_to_fbink_config T a2
    let rv := E.rv
    { ret := .term (make_ok_or_error rv),
      calls := [{ entry := "fbink_print_activity_bar",
                  args := [.int fbfd, .int (cast_uint8 progress), .config cfg] }] }
  | _, _ => enif_make_badarg

/-- `nif_fbink_print_image` (fbink_nif.c:910). The native entry point gets `filename`
as a pointer alone and receives the string that ends at the buffer's first NUL. -/
def nif_fbink_print_image (T : FBInkTypes) (E : Native) (a0 a1 a2 a3 a4 : Term) : NifRun :=
  match enif_get_int a0 with
  | none => enif_make_badarg
  | some fbfd =>
    let got := enif_get_string a1 4096
    let filename : Option (List Nat) :=
      if got.1 ≤ 0 then
        match enif_inspect_iolist_as_binary a1 with
        | none => none
        | some bin => if bin.length ≥ 4096 then none else some (bin ++ [0])
      else some got.2
    match filename with
    | none => enif_make_badarg
    | some filename =>
      match enif_get_int a2, enif_get_int a3 with
      | some x_off, some y_off =>
        let cfg := map_to_fbink_config T a4
        let rv := E.rv
        { ret := .term (make_ok_or_error rv),
          calls := [{ entry := "fbink_print_image",
                      args := [.int fbfd, .c_str (c_bytes filename),
                        .int (cast_short x_off), .int (cast_short y_off),
                        .config cfg] }] }
      | _, _ => enif_make_badarg

/-- `nif_fbink_print_raw_data` (fbink_nif.c:942). -/
def nif_fbink_print_raw_data (T : FBInkTypes) (E : Native)
    (a0 a1 a2 a3 a4 a5 a6 : Term) : NifRun :=
  match enif_get_int a0 with
  | none => enif_make_badarg
  | some fbfd =>
    match enif_inspect_binary a1 with
    | none => enif_make_badarg
    | some bin =>
      match enif_get_int a2, enif_get_int a3 with
      | some w, some h =>
        match enif_get_int a4, enif_get_int a5 with
        | some x_off, some y_off =>
          let cfg := map_to_fbink_config T a6
          let rv := E.rv
          { ret := .term (make_ok_or_error rv),
            calls := [{ entry := "fbink_print_raw_data",
                        args := [.int fbfd, .bytes bin, .int w, .int h, .int bin.length,
                          .int (cast_short x_off), .int (cast_short y_off), .config cfg] }] }
        | _, _ => enif_make_badarg
      | _, _ => enif_make_badarg

/-- `nif_fbink_cls` (fbink_nif.c:975). -/
def nif_fbink_cls (T : FBInkTypes) (E : Native) (a0 a1 a2 a3 : Term) : NifRun :=
  match enif_get_int a0 with
  | none => enif_make_badarg
  | some fbfd =>
    let cfg := map_to_fbink_config T a1
    let rect_ptr : Option FBInkRect :=
      if ¬ enif_is_atom a2 then some (map_to_fbink_rect a2) else none
    match enif_get_int a3 with
    | none => enif_make_badarg
    | some no_rota =>
      let rv := E.rv
      { ret := .term (make_ok_or_error rv),
        calls := [{ entry := "fbink_cls",
                    args := [.int fbfd, .config cfg, .rect_ptr rect_ptr,
                      .bool (no_rota != 0)] }] }

/-- `nif_fbink_grid_clear` (fbink_nif.c:1005). -/
def nif_fbink_grid_clear (T : FBInkTypes) (E : Native) (a0 a1 a2 a3 : Term) : NifRun :=
  match enif_get_int a0, enif_get_uint a1, enif_get_uint a2 with
  | some fbfd, some cols, some rows =>
    let cfg := map_to_fbink_config T a3
    let rv := E.rv
    { ret := .term (make_ok_or_error rv),
      calls := [{ entry := "fbink_grid_clear",
                  args := [.int fbfd, .int (cast_ushort cols), .int (cast_ushort rows),
                    .config cfg] }] }
  | _, _, _ => enif_make_badarg

/-- `nif_fbink_refresh` (fbink_nif.c:1027). -/
def nif_fbink_refresh (T : FBInkTypes) (E : Native) (a0 a1 a2 a3 a4 a5 : Term) : NifRun :=
  match enif_get_int a0, enif_get_uint a1, enif_get_uint a2, enif_get_uint a3, enif_get_uint a4 with
  | some fbfd, some top, some left, some width, some height =>
    let cfg := map_to_fbink_config T a5
    let rv := E.rv
    { ret := .term (make_ok_or_error rv),
      calls := [{ entry := "fbink_refresh",
                  args := [.int fbfd, .int top, .int left, .int width, .int height,
                    .config cfg] }] }
  | _, _, _, _, _ => enif_make_badarg

/-- `nif_fbink_refresh_rect` (fbink_nif.c:1050). -/
def nif_fbink_refresh_rect (T : FBInkTypes) (E : Native) (a0 a1 a2 : Term) : NifRun :=
  match enif_get_int a0 with
  | none => enif_make_badarg
  | some fbfd =>
    let rect := map_to_fbink_rect a1
    let cfg := map_to_fbink_config T a2
    let rv := E.rv
    { ret := .term (make_ok_or_error rv),
      calls := [{ entry := "fbink_refresh_rect",
                  args := [.int fbfd, .rect rect, .config cfg] }] }

/-- `nif_fbink_grid_refresh` (fbink_nif.c:1071). -/
def nif_fbink_grid_refresh (T : FBInkTypes) (E : Native) (a0 a1 a2 a3 : Term) : NifRun :=
  match enif_get_int a0, enif_get_uint a1, enif_get_uint a2 with
  | some fbfd, some cols, some rows =>
    let cfg := map_to_fbink_config T a3
    let rv := E.rv
    { ret := .term (make_ok_or_error rv),
      calls := [{ entry := "fbink_grid_refresh",
                  args := [.int fbfd, .int (cast_ushort cols), .int (cast_ushort rows),
                    .config cfg] }] }
  | _, _, _ => enif_make_badarg

/-- `nif_fbink_wait_for_submission` (fbink_nif.c:1093). -/
def nif_fbink_wait_for_submission (E : Native) (a0 a1 : Term) : NifRun :=
  match enif_get_int a0, enif_get_uint a1 with
  | some fbfd, some marker =>
    let rv := E.rv
    { ret := .term (make_ok_or_error rv),
      calls := [{ entry := "fbink_wait_for_submission",
                  args := [.int fbfd, .int marker] }] }
  | _, _ => enif_make_badarg

/-- `nif_fbink_wait_for_complete` (fbink_nif.c:1110). -/
def nif_fbink_wait_for_complete (E : Native) (a0 a1 : Term) : NifRun :=
  match enif_get_int a0, enif_get_uint a1 with
  | some fbfd, some marker =>
    let rv := E.rv
    { ret := .term (make_ok_or_error rv),
      calls := [{ entry := "fbink_wait_for_complete",
                  args := [.int fbfd, .int marker] }] }
  | _, _ => enif_make_badarg

/-- `nif_fbink_wait_for_any_complete` (fbink_nif.c:1127). -/
def nif_fbink_wait_for_any_complete (E : Native) (a0 : Term) : NifRun :=
  match enif_get_int a0 with
  | some fbfd =>
    let rv := E.rv
    { ret := .term (make_ok_or_error rv),
      calls := [{ entry := "fbink_wait_for_any_complete",
                  args := [.int fbfd] }] }
  | _ => enif_make_badarg

/-- `nif_fbink_dump` (fbink_nif.c:1142). -/
def nif_fbink_dump (E : Native) (heap : Heap) (a0 : Term) : NifRun × Heap :=
  match enif_get_int a0 with
  | none => (enif_make_badarg, heap)
  | some fbfd =>
    match E.new_resource with
    | none => ({ ret := .term (make_error_string "enomem"), calls := [] }, heap)
    | some handle =>
      let res : DumpResource := { dump := FBInkDump.zeroed }
      let call : NativeCall :=
        { entry := "fbink_dump", args := [.int fbfd, .dump res.dump] }
      let res := { res with dump := E.dump }
      let rv := E.rv
      if rv < 0 then
        ({ ret := .term (make_error_int rv), calls := call :: (dump_resource_dtor res).2 },
          heap)
      else
        let res_term := Term.resource handle
        ({ ret := .term (make_ok res_term), calls := [call] },
          Function.update heap handle (some res))

/-- `nif_fbink_region_dump` (fbink_nif.c:1168). -/
def nif_fbink_region_dump (T : FBInkTypes) (E : Native) (heap : Heap)
    (a0 a1 a2 a3 a4 a5 : Term) : NifRun × Heap :=
  match enif_get_int a0, enif_get_int a1, enif_get_int a2, enif_get_uint a3,
    enif_get_uint a4 with
  | some fbfd, some x_off, some y_off, some w, some h =>
    let cfg := map_to_fbink_config T a5
    match E.new_resource with
    | none => ({ ret := .term (make_error_string "enomem"), calls := [] }, heap)
    | some handle =>
      let res : DumpResource := { dump := FBInkDump.zeroed }
      let call : NativeCall :=
        { entry := "fbink_region_dump",
          args := [.int fbfd, .int (cast_short x_off), .int (cast_short y_off),
            .int (cast_ushort w), .int (cast_ushort h), .config cfg,
            .dump res.dump] }
      let res := { res with dump := E.dump }
      let rv := E.rv
      if rv < 0 then
        ({ ret := .term (make_error_int rv), calls := call :: (dump_resource_dtor res).2 },
          heap)
      else
        let res_term := Term.resource handle
        ({ ret := .term (make_ok res_term), calls := [call] },
          Function.update heap handle (some res))
  | _, _, _, _, _ => (enif_make_badarg, heap)

/-- `nif_fbink_rect_dump` (fbink_nif.c:1205). -/
def nif_fbink_rect_dump (E : Native) (heap : Heap) (a0 a1 : Term) : NifRun × Heap :=
  match enif_get_int a0 with
  | none => (enif_make_badarg, heap)
  | some fbfd =>
    let rect := map_to_fbink_rect a1
    match E.new_resource with
    | none => ({ ret := .term (make_error_string "enomem"), calls := [] }, heap)
    | some handle =>
      let res : DumpResource := { dump := FBInkDump.zeroed }
      let call : NativeCall :=
        { entry := "fbink_rect_dump",
          args := [.int fbfd, .rect rect, .dump res.dump] }
      let res := { res with dump := E.dump }
      let rv := E.rv
      if rv < 0 then
        ({ ret := .term (make_error_int rv), calls := call :: (dump_resource_dtor res).2 },
          heap)
      else
        let res_term := Term.resource handle
        ({ ret := .term (make_ok res_term), calls := [call] },
          Function.update heap handle (some res))

/-- `nif_fbink_restore` (fbink_nif.c:1234). -/
def nif_fbink_restore (T : FBInkTypes) (E : Native) (heap : Heap) (a0 a1 a2 : Term) :
    NifRun × Heap :=
  match enif_get_int a0 with
  | none => (enif_make_badarg, heap)
  | some fbfd =>
    let cfg := map_to_fbink_config T a1
    match enif_get_resource heap a2 with
    | none => (enif_make_badarg, heap)
    | some (_, res) =>
      let rv := E.rv
      ({ ret := .term (make_ok_or_error rv),
         calls := [{ entry := "fbink_restore",
                     args := [.int fbfd, .config cfg, .dump res.dump] }] }, heap)

/-- `nif_fbink_free_dump_data` (fbink_nif.c:1256). The status the native release
returns is not looked at. -/
def nif_fbink_free_dump_data (heap : Heap) (a0 : Term) : NifRun × Heap :=
  match enif_get_resource heap a0 with
  | none => (enif_make_badarg, heap)
  | some (handle, res) =>
    ({ ret := .term atom_ok,
       calls := [{ entry := "fbink_free_dump_data", args := [.dump res.dump] }] },
      Function.update heap handle (some { res with dump := fbink_free_dump_data res.dump }))

/-- `nif_fbink_get_dump_data` (fbink_nif.c:1271). The new binary receives the first
`size` bytes of the payload. -/
def nif_fbink_get_dump_data (heap : Heap) (a0 : Term) : NifRun × Heap :=
  match enif_get_resource heap a0 with
  | none => (enif_make_badarg, heap)
  | some (_, res) =>
    match res.dump.data with
    | none => ({ ret := .term (make_error_string "no_data"), calls := [] }, heap)
    | some data =>
      if res.dump.size = 0 then
        ({ ret := .term (make_error_string "no_data"), calls := [] }, heap)
      else
        let map := enif_make_new_map
        let data_bin := Term.binary (data.take res.dump.size)
        let map := map_put_stmt map atom_data data_bin
        let map := map_put_stmt map atom_stride (enif_make_uint64 res.dump.stride)
        let map := map_put_stmt map atom_size (enif_make_uint64 res.dump.size)
        let map := map_put_stmt map atom_area (fbink_rect_to_map res.dump.area)
        let map := map_put_stmt map atom_clip (fbink_rect_to_map res.dump.clip)
        let map := map_put_stmt map atom_rota (enif_make_uint res.dump.rota)
        let map := map_put_stmt map atom_bpp (enif_make_uint res.dump.bpp)
        let map := map_put_stmt map atom_is_full
          (if res.dump.is_full then atom_true else atom_false)
        ({ ret := .term (make_ok map), calls := [] }, heap)

/-- `nif_fbink_invert_screen` (fbink_nif.c:1311). -/
def nif_fbink_invert_screen (T : FBInkTypes) (E : Native) (a0 a1 : Term) : NifRun :=
  match enif_get_int a0 with
  | some fbfd =>
    let cfg := map_to_fbink_config T a1
    let rv := E.rv
    { ret := .term (make_ok_or_error rv),
      calls := [{ entry := "fbink_invert_screen",
                  args := [.int fbfd, .config cfg] }] }
  | _ => enif_make_badarg

/-- `nif_fbink_invert_rect` (fbink_nif.c:1329). -/
def nif_fbink_invert_rect (E : Native) (a0 a1 a2 : Term) : NifRun :=
  match enif_get_int a0 with
  | none => enif_make_badarg
  | some fbfd =>
    let rect := map_to_fbink_rect a1
    match enif_get_int a2 with
    | none => enif_make_badarg
    | some no_rota =>
      let rv := E.rv
      { ret := .term (make_ok_or_error rv),
        calls := [{ entry := "fbink_invert_rect",
                    args := [.int fbfd, .rect rect, .bool (no_rota != 0)] }] }

/-- `nif_fbink_rota_native_to_canonical` (fbink_nif.c:1351). -/
def nif_fbink_rota_native_to_canonical (E : Native) (a0 : Term) : NifRun :=
  match enif_get_uint a0 with
  | none => enif_make_badarg
  | some rotate =>
    let canonical := cast_uint8 E.canonical
    { ret := .term (enif_make_uint canonical),
      calls := [{ entry := "fbink_rota_native_to_canonical", args := [.int rotate] }] }

/-- `nif_fbink_rota_canonical_to_native` (fbink_nif.c:1366). -/
def nif_fbink_rota_canonical_to_native (E : Native) (a0 : Term) : NifRun :=
  match enif_get_uint a0 with
  | none => enif_make_badarg
  | some rotate =>
    let native := cast_unsigned 32 E.native_rota
    { ret := .term (enif_make_uint native),
      calls := [{ entry := "fbink_rota_canonical_to_native",
                  args := [.int (cast_uint8 rotate)] }] }

/-- `nif_fbink_set_fb_info` (fbink_nif.c:1381). -/
def nif_fbink_set_fb_info (T : FBInkTypes) (E : Native) (a0 a1 a2 a3 a4 : Term) : NifRun :=
  match enif_get_int a0, enif_get_uint a1, enif_get_uint a2, enif_get_uint a3 with
  | some fbfd, some rota, some bpp_val, some grayscale =>
    let cfg := map_to_fbink_config T a4
    let rv := E.rv
    { ret := .term (make_ok_or_error rv),
      calls := [{ entry := "fbink_set_fb_info",
                  args := [.int fbfd, .int rota, .int (cast_uint8 bpp_val),
                    .int (cast_uint8 grayscale), .config cfg] }] }
  | _, _, _, _ => enif_make_badarg

/-- `nif_fbink_fill_rect_gray` (fbink_nif.c:1403). -/
def nif_fbink_fill_rect_gray (T : FBInkTypes) (E : Native) (a0 a1 a2 a3 a4 : Term) :
    NifRun :=
  match enif_get_int a0 with
  | none => enif_make_badarg
  | some fbfd =>
    let cfg := map_to_fbink_config T a1
    let rect := map_to_fbink_rect a2
    match enif_get_int a3, enif_get_uint a4 with
    | some no_rota, some y =>
      let rv := E.rv
      { ret := .term (make_ok_or_error rv),
        calls := [{ entry := "fbink_fill_rect_gray",
                    args := [.int fbfd, .config cfg, .rect rect, .bool (no_rota != 0),
                      .int (cast_uint8 y)] }] }
    | _, _ => enif_make_badarg

/-- `nif_fbink_fill_rect_rgba` (fbink_nif.c:1430). -/
def nif_fbink_fill_rect_rgba (T : FBInkTypes) (E : Native)
    (a0 a1 a2 a3 a4 a5 a6 a7 : Term) : NifRun :=
  match enif_get_int a0 with
  | none => enif_make_badarg
  | some fbfd =>
    let cfg := map_to_fbink_config T a1
    let rect := map_to_fbink_rect a2
    match enif_get_int a3, enif_get_uint a4, enif_get_uint a5, enif_get_uint a6,
      enif_get_uint a7 with
    | some no_rota, some r, some g, some b, some a =>
      let rv := E.rv
      { ret := .term (make_ok_or_error rv),
        calls := [{ entry := "fbink_fill_rect_rgba",
                    args := [.int fbfd, .config cfg, .rect rect, .bool (no_rota != 0),
                      .int (cast_uint8 r), .int (cast_uint8 g), .int (cast_uint8 b),
                      .int (cast_uint8 a)] }] }
    | _, _, _, _, _ => enif_make_badarg

/-- `nif_fbink_put_pixel_gray` (fbink_nif.c:1461). -/
def nif_fbink_put_pixel_gray (E : Native) (a0 a1 a2 a3 : Term) : NifRun :=
  match enif_get_int a0, enif_get_uint a1, enif_get_uint a2, enif_get_uint a3 with
  | some fbfd, some x, some y, some v =>
    let rv := E.rv
    { ret := .term (make_ok_or_error rv),
      calls := [{ entry := "fbink_put_pixel_gray",
                  args := [.int fbfd, .int (cast_uint16 x), .int (cast_uint16 y),
                    .int (cast_uint8 v)] }] }
  | _, _, _, _ => enif_make_badarg

/-- `nif_fbink_put_pixel_rgba` (fbink_nif.c:1480). -/
def nif_fbink_put_pixel_rgba (E : Native) (a0 a1 a2 a3 a4 a5 a6 : Term) : NifRun :=
  match enif_get_int a0, enif_get_uint a1, enif_get_uint a2, enif_get_uint a3, enif_get_uint a4,
    enif_get_uint a5, enif_get_uint a6 with
  | some fbfd, some x, some y, some r, some g, some b, some a =>
    let rv := E.rv
    { ret := .term (make_ok_or_error rv),
      calls := [{ entry := "fbink_put_pixel_rgba",
                  args := [.int fbfd, .int (cast_uint16 x), .int (cast_uint16 y),
                    .int (cast_uint8 r), .int (cast_uint8 g), .int (cast_uint8 b),
                    .int (cast_uint8 a)] }] }
  | _, _, _, _, _, _, _ => enif_make_badarg

/-- `nif_fbink_get_pixel` (fbink_nif.c:1503). -/
def nif_fbink_get_pixel (E : Native) (a0 a1 a2 : Term) : NifRun :=
  match enif_get_int a0, enif_get_uint a1, enif_get_uint a2 with
  | some fbfd, some x, some y =>
    let r := cast_uint8 E.pixel_r
    let g := cast_uint8 E.pixel_g
    let b := cast_uint8 E.pixel_b
    let a := cast_uint8 E.pixel_a
    let rv := E.rv
    let call : NativeCall :=
      { entry := "fbink_get_pixel",
        args := [.int fbfd, .int (cast_uint16 x), .int (cast_uint16 y)] }
    if rv < 0 then { ret := .term (make_error_int rv), calls := [call] }
    else
      let result := enif_make_tuple4 (enif_make_uint r) (enif_make_uint g)
        (enif_make_uint b) (enif_make_uint a)
      { ret := .term (make_ok result), calls := [call] }
  | _, _, _ => enif_make_badarg

/-- `nif_fbink_wakeup_epdc` (fbink_nif.c:1530). -/
def nif_fbink_wakeup_epdc (E : Native) : NifRun :=
  let rv := E.rv
  { ret := .term (make_ok_or_error rv),
    calls := [{ entry := "fbink_wakeup_epdc",
                args := [] }] }

/-- `nif_fbink_sunxi_toggle_ntx_pen_mode` (fbink_nif.c:1541). -/
def nif_fbink_sunxi_toggle_ntx_pen_mode (E : Native) (a0 a1 : Term) : NifRun :=
  match enif_get_int a0, enif_get_int a1 with
  | some fbfd, some toggle =>
    let rv := E.rv
    { ret := .term (make_ok_or_error rv),
      calls := [{ entry := "fbink_sunxi_toggle_ntx_pen_mode",
                  args := [.int fbfd, .bool (toggle != 0)] }] }
  | _, _ => enif_make_badarg

/-- `nif_fbink_sunxi_ntx_enforce_rota` (fbink_nif.c:1557). -/
def nif_fbink_sunxi_ntx_enforce_rota (T : FBInkTypes) (X : FBInkCallTypes) (E : Native)
    (a0 a1 a2 : Term) : NifRun :=
  match enif_get_int a0, enif_get_int a1 with
  | some fbfd, some mode =>
    let cfg := map_to_fbink_config T a2
    let rv := E.rv
    { ret := .term (make_ok_or_error rv),
      calls := [{ entry := "fbink_sunxi_ntx_enforce_rota",
                  args := [.int fbfd, .int (X.SUNXI_FORCE_ROTA_INDEX_T mode), .config cfg] }] }
  | _, _ => enif_make_badarg

/-- `nif_fbink_mtk_set_swipe_data` (fbink_nif.c:1576). -/
def nif_fbink_mtk_set_swipe_data (X : FBInkCallTypes) (E : Native) (a0 a1 : Term) : NifRun :=
  match enif_get_int a0, enif_get_uint a1 with
  | some direction, some steps =>
    let rv := E.rv
    { ret := .term (make_ok_or_error rv),
      calls := [{ entry := "fbink_mtk_set_swipe_data",
                  args := [.int (X.MTK_SWIPE_DIRECTION_INDEX_T direction),
                    .int (cast_uint8 steps)] }] }
  | _, _ => enif_make_badarg

/-- `nif_fbink_mtk_set_halftone` (fbink_nif.c:1593). The loop over the first two list
elements is written out for `i = 0` and `i = 1`. -/
def nif_fbink_mtk_set_halftone (X : FBInkCallTypes) (E : Native) (a0 a1 a2 : Term) :
    NifRun :=
  match enif_get_int a0 with
  | none => enif_make_badarg
  | some fbfd =>
    let exclude_regions : List FBInkRect := [FBInkRect.zeroed, FBInkRect.zeroed]
    let list := a1
    let exclude_regions : List FBInkRect :=
      match enif_get_list_length list with
      | none => exclude_regions
      | some list_len =>
        if list_len > 0 then
          match enif_get_list_cell list with
          | none => exclude_regions
          | some (head, tail) =>
            let region0 := map_to_fbink_rect head
            if 1 < list_len then
              match enif_get_list_cell tail with
              | none => [region0, FBInkRect.zeroed]
              | some (head1, _) => [region0, map_to_fbink_rect head1]
            else [region0, FBInkRect.zeroed]
        else exclude_regions
    match enif_get_int a2 with
    | none => enif_make_badarg
    | some halftone_size =>
      let rv := E.rv
      { ret := .term (make_ok_or_error rv),
        calls := [{ entry := "fbink_mtk_set_halftone",
                    args := [.int fbfd, .rects exclude_regions,
                      .int (X.MTK_HALFTONE_MODE_INDEX_T halftone_size)] }] }

/-- `nif_fbink_mtk_toggle_auto_reagl` (fbink_nif.c:1628). -/
def nif_fbink_mtk_toggle_auto_reagl (E : Native) (a0 a1 : Term) : NifRun :=
  match enif_get_int a0, enif_get_int a1 with
  | some fbfd, some toggle =>
    let rv := E.rv
    { ret := .term (make_ok_or_error rv),
      calls := [{ entry := "fbink_mtk_toggle_auto_reagl",
                  args := [.int fbfd, .bool (toggle != 0)] }] }
  | _, _ => enif_make_badarg

/-- `nif_fbink_mtk_toggle_pen_mode` (fbink_nif.c:1644). -/
def nif_fbink_mtk_toggle_pen_mode (E : Native) (a0 a1 : Term) : NifRun :=
  match enif_get_int a0, enif_get_int a1 with
  | some fbfd, some toggle =>
    let rv := E.rv
    { ret := .term (make_ok_or_error rv),
      calls := [{ entry := "fbink_mtk_toggle_pen_mode",
                  args := [.int fbfd, .bool (toggle != 0)] }] }
  | _, _ => enif_make_badarg

/-- `nif_fbink_input_scan` (fbink_nif.c:1660). The array `dev_terms` comes from
`enif_alloc` and is written without a check: with a failed allocation and at least one
device the call does not return. -/
def nif_fbink_input_scan (X : FBInkCallTypes) (E : Native) (a0 a1 a2 : Term) : NifRun :=
  match enif_get_uint a0, enif_get_uint a1, enif_get_uint a2 with
  | some match_types, some exclude_types, some settings =>
    let call : NativeCall :=
      { entry := "fbink_input_scan",
        args := [.int (X.INPUT_DEVICE_TYPE_T match_types),
          .int (X.INPUT_DEVICE_TYPE_T exclude_types),
          .int (X.INPUT_SETTINGS_TYPE_T settings)] }
    match E.devices with
    | none => { ret := .term (make_ok (list_term [])), calls := [call] }
    | some devices =>
      let dev_count := devices.length
      if ¬ E.alloc_ok ∧ dev_count > 0 then { ret := .crash, calls := [call] }
      else
        let dev_terms := devices.map (fun dev =>
          let dev_map := enif_make_new_map
          let dev_map := map_put_stmt dev_map atom_type (enif_make_uint dev.type)
          let dev_map := map_put_stmt dev_map atom_fd (enif_make_int dev.fd)
          let dev_map := map_put_stmt dev_map atom_matched
            (if dev.matched then atom_true else atom_false)
          let dev_map := map_put_stmt dev_map atom_name (enif_make_string dev.name)
          let dev_map := map_put_stmt dev_map atom_path (enif_make_string dev.path)
          dev_map)
        let result := enif_make_list_from_array dev_terms dev_count
        { ret := .term (make_ok result), calls := [call] }
  | _, _, _ => enif_make_badarg

/-- `nif_fbink_input_check` (fbink_nif.c:1707). The native entry point gets `filepath`
as a pointer alone and receives the string that ends at the buffer's first NUL. -/
def nif_fbink_input_check (X : FBInkCallTypes) (E : Native) (a0 a1 a2 a3 : Term) :
    NifRun :=
  let got := enif_get_string a0 4096
  let filepath : Option (List Nat) :=
    if got.1 ≤ 0 then
      match enif_inspect_iolist_as_binary a0 with
      | none => none
      | some bin => if bin.length ≥ 4096 then none else some (bin ++ [0])
    else some got.2
  match filepath with
  | none => enif_make_badarg
  | some filepath =>
    match enif_get_uint a1, enif_get_uint a2, enif_get_uint a3 with
    | some match_types, some exclude_types, some settings =>
      let call : NativeCall :=
        { entry := "fbink_input_check",
          args := [.c_str (c_bytes filepath), .int (X.INPUT_DEVICE_TYPE_T match_types),
            .int (X.INPUT_DEVICE_TYPE_T exclude_types),
            .int (X.INPUT_SETTINGS_TYPE_T settings)] }
      match E.device with
      | none => { ret := .term (make_error_string "not_found"), calls := [call] }
      | some dev =>
        let dev_map := enif_make_new_map
        let dev_map := map_put_stmt dev_map atom_type (enif_make_uint dev.type)
        let dev_map := map_put_stmt dev_map atom_fd (enif_make_int dev.fd)
        let dev_map := map_put_stmt dev_map atom_matched
          (if dev.matched then atom_true else atom_false)
        let dev_map := map_put_stmt dev_map atom_name (enif_make_string dev.name)
        let dev_map := map_put_stmt dev_map atom_path (enif_make_string dev.path)
        { ret := .term (make_ok dev_map), calls := [call] }
    | _, _, _ => enif_make_badarg

/-- `nif_fbink_button_scan` (fbink_nif.c:1755). -/
def nif_fbink_button_scan (E : Native) (a0 a1 a2 : Term) : NifRun :=
  match enif_get_int a0, enif_get_int a1, enif_get_int a2 with
  | some fbfd, some press_button, some nosleep =>
    let rv := E.rv
    { ret := .term (make_ok_or_error rv),
      calls := [{ entry := "fbink_button_scan",
                  args := [.int fbfd, .bool (press_button != 0), .bool (nosleep != 0)] }] }
  | _, _, _ => enif_make_badarg

/-- `nif_fbink_wait_for_usbms_processing` (fbink_nif.c:1772). -/
def nif_fbink_wait_for_usbms_processing (E : Native) (a0 a1 : Term) : NifRun :=
  match enif_get_int a0, enif_get_int a1 with
  | some fbfd, some force_unplug =>
    let rv := E.rv
    { ret := .term (make_ok_or_error rv),
      calls := [{ entry := "fbink_wait_for_usbms_processing",
                  args := [.int fbfd, .bool (force_unplug != 0)] }] }
  | _, _ => enif_make_badarg

/-- `nif_fbink_is_fb_quirky` (fbink_nif.c:1788). -/
def nif_fbink_is_fb_quirky (E : Native) : NifRun :=
  let quirky := E.quirky
  { ret := .term (if quirky then atom_true else atom_false),
    calls := [{ entry := "fbink_is_fb_quirky", args := [] }] }

/-- `nif_fbink_pack_pixel_gray` (fbink_nif.c:1799). -/
def nif_fbink_pack_pixel_gray (E : Native) (a0 : Term) : NifRun :=
  match enif_get_uint a0 with
  | none => enif_make_badarg
  | some y =>
    let px := cast_unsigned 32 E.px
    let rv := E.rv
    let call : NativeCall :=
      { entry := "fbink_pack_pixel_gray", args := [.int (cast_uint8 y)] }
    if rv < 0 then { ret := .term (make_error_int rv), calls := [call] }
    else { ret := .term (make_ok (enif_make_uint px)), calls := [call] }

/-- `nif_fbink_pack_pixel_rgba` (fbink_nif.c:1818). -/
def nif_fbink_pack_pixel_rgba (E : Native) (a0 a1 a2 a3 : Term) : NifRun :=
  match enif_get_uint a0, enif_get_uint a1, enif_get_uint a2, enif_get_uint a3 with
  | some r, some g, some b, some a =>
    let px := cast_unsigned 32 E.px
    let rv := E.rv
    let call : NativeCall :=
      { entry := "fbink_pack_pixel_rgba",
        args := [.int (cast_uint8 r), .int (cast_uint8 g), .int (cast_uint8 b),
          .int (cast_uint8 a)] }
    if rv < 0 then { ret := .term (make_error_int rv), calls := [call] }
    else { ret := .term (make_ok (enif_make_uint px)), calls := [call] }
  | _, _, _, _ => enif_make_badarg

/-! ## The function table -/

/-- What the source expects of an argument. The first six kinds are read with a reader
that can fail; the last five are marshalled by functions that accept every term. -/
inductive ArgKind where
  | int
  | uint
  | text
  | binary
  | path
  | dump_resource
  | config
  | ot_config
  | rect
  | optional_rect
  | rect_list
  deriving DecidableEq

/-- Whether a term can be interpreted as an argument of the given kind: a native
`int`, a native `unsigned int`, a binary or iolist, a binary, a path that fits the 4096
byte buffer (a list of bytes with room for the NUL, or a binary or iolist shorter than
the buffer), a live dump resource. The remaining kinds accept every term. -/
def ArgKind.readable (heap : Heap) : ArgKind → Term → Bool
  | .int, t => (enif_get_int t).isSome
  | .uint, t => (enif_get_uint t).isSome
  | .text, t => (enif_inspect_iolist_as_binary t).isSome
  | .binary, t => (enif_inspect_binary t).isSome
  | .path, t =>
    decide (0 < (enif_get_string t 4096).1) ||
      (match enif_inspect_iolist_as_binary t with
       | some bin => decide (bin.length < 4096)
       | none => false)
  | .dump_resource, t => (enif_get_resource heap t).isSome
  | .config, _ => true
  | .ot_config, _ => true
  | .rect, _ => true
  | .optional_rect, _ => true
  | .rect_list, _ => true

/-- The bridged operations: the entries of `nif_funcs`, named after the functions. -/
inductive Nif where
  | fbink_version
  | fbink_target
  | fbink_features
  | fbink_open
  | fbink_close
  | fbink_init
  | fbink_reinit
  | fbink_get_state
  | fbink_state_dump
  | fbink_get_last_rect
  | fbink_get_last_marker
  | fbink_is_fb_quirky
  | fbink_update_verbosity
  | fbink_update_pen_colors
  | fbink_set_fg_pen_gray
  | fbink_set_bg_pen_gray
  | fbink_set_fg_pen_rgba
  | fbink_set_bg_pen_rgba
  | fbink_print
  | fbink_add_ot_font
  | fbink_free_ot_fonts
  | fbink_print_ot
  | fbink_print_progress_bar
  | fbink_print_activity_bar
  | fbink_print_image
  | fbink_print_raw_data
  | fbink_cls
  | fbink_grid_clear
  | fbink_refresh
  | fbink_refresh_rect
  | fbink_grid_refresh
  | fbink_wait_for_submission
  | fbink_wait_for_complete
  | fbink_wait_for_any_complete
  | fbink_dump
  | fbink_region_dump
  | fbink_rect_dump
  | fbink_restore
  | fbink_free_dump_data
  | fbink_get_dump_data
  | fbink_invert_screen
  | fbink_invert_rect
  | fbink_rota_native_to_canonical
  | fbink_rota_canonical_to_native
  | fbink_set_fb_info
  | fbink_fill_rect_gray
  | fbink_fill_rect_rgba
  | fbink_put_pixel_gray
  | fbink_put_pixel_rgba
  | fbink_get_pixel
  | fbink_pack_pixel_gray
  | fbink_pack_pixel_rgba
  | fbink_wakeup_epdc
  | fbink_sunxi_toggle_ntx_pen_mode
  | fbink_sunxi_ntx_enforce_rota
  | fbink_mtk_set_swipe_data
  | fbink_mtk_set_halftone
  | fbink_mtk_toggle_auto_reagl
  | fbink_mtk_toggle_pen_mode
  | fbink_input_scan
  | fbink_input_check
  | fbink_button_scan
  | fbink_wait_for_usbms_processing
  deriving DecidableEq

/-- The kinds of the arguments of each operation, in order; the length is the arity
given in `nif_funcs`. -/
def Nif.expects : Nif → List ArgKind
  | .fbink_version => []
  | .fbink_target => []
  | .fbink_features => []
  | .fbink_open => []
  | .fbink_close => [.int]
  | .fbink_init => [.int, .config]
  | .fbink_reinit => [.int, .config]
  | .fbink_get_state => [.config]
  | .fbink_state_dump => [.config]
  | .fbink_get_last_rect => [.int]
  | .fbink_get_last_marker => []
  | .fbink_is_fb_quirky => []
  | .fbink_update_verbosity => [.config]
  | .fbink_update_pen_colors => [.config]
  | .fbink_set_fg_pen_gray => [.uint, .int, .int]
  | .fbink_set_bg_pen_gray => [.uint, .int, .int]
  | .fbink_set_fg_pen_rgba => [.uint, .uint, .uint, .uint, .int, .int]
  | .fbink_set_bg_pen_rgba => [.uint, .uint, .uint, .uint, .int, .int]
  | .fbink_print => [.int, .text, .config]
  | .fbink_add_ot_font => [.path, .int]
  | .fbink_free_ot_fonts => []
  | .fbink_print_ot => [.int, .text, .ot_config, .config]
  | .fbink_print_progress_bar => [.int, .uint, .config]
  | .fbink_print_activity_bar => [.int, .uint, .config]
  | .fbink_print_image => [.int, .path, .int, .int, .config]
  | .fbink_print_raw_data => [.int, .binary, .int, .int, .int, .int, .config]
  | .fbink_cls => [.int, .config, .optional_rect, .int]
  | .fbink_grid_clear => [.int, .uint, .uint, .config]
  | .fbink_refresh => [.int, .uint, .uint, .uint, .uint, .config]
  | .fbink_refresh_rect => [.int, .rect, .config]
  | .fbink_grid_refresh => [.int, .uint, .uint, .config]
  | .fbink_wait_for_submission => [.int, .uint]
  | .fbink_wait_for_complete => [.int, .uint]
  | .fbink_wait_for_any_complete => [.int]
  | .fbink_dump => [.int]
  | .fbink_region_dump => [.int, .int, .int, .uint, .uint, .config]
  | .fbink_rect_dump => [.int, .rect]
  | .fbink_restore => [.int, .config, .dump_resource]
  | .fbink_free_dump_data => [.dump_resource]
  | .fbink_get_dump_data => [.dump_resource]
  | .fbink_invert_screen => [.int, .config]
  | .fbink_invert_rect => [.int, .rect, .int]
  | .fbink_rota_native_to_canonical => [.uint]
  | .fbink_rota_canonical_to_native => [.uint]
  | .fbink_set_fb_info => [.int, .uint, .uint, .uint, .config]
  | .fbink_fill_rect_gray => [.int, .config, .rect, .int, .uint]
  | .fbink_fill_rect_rgba => [.int, .config, .rect, .int, .uint, .uint, .uint, .uint]
  | .fbink_put_pixel_gray => [.int, .uint, .uint, .uint]
  | .fbink_put_pixel_rgba => [.int, .uint, .uint, .uint, .uint, .uint, .uint]
  | .fbink_get_pixel => [.int, .uint, .uint]
  | .fbink_pack_pixel_gray => [.uint]
  | .fbink_pack_pixel_rgba => [.uint, .uint, .uint, .uint]
  | .fbink_wakeup_epdc => []
  | .fbink_sunxi_toggle_ntx_pen_mode => [.int, .int]
  | .fbink_sunxi_ntx_enforce_rota => [.int, .int, .config]
  | .fbink_mtk_set_swipe_data => [.int, .uint]
  | .fbink_mtk_set_halftone => [.int, .rect_list, .int]
  | .fbink_mtk_toggle_auto_reagl => [.int, .int]
  | .fbink_mtk_toggle_pen_mode => [.int, .int]
  | .fbink_input_scan => [.uint, .uint, .uint]
  | .fbink_input_check => [.path, .uint, .uint, .uint]
  | .fbink_button_scan => [.int, .int, .int]
  | .fbink_wait_for_usbms_processing => [.int, .int]

/-- Dispatch through `nif_funcs`: the operation applied to an argument vector of its
arity, giving the outcome and the resources afterwards. There is no outcome for an
argument vector of another length, which the VM does not pass on. -/
def Nif.run (T : FBInkTypes) (X : FBInkCallTypes) (E : Native) (heap : Heap) :
    Nif → List Term → Option (NifRun × Heap)
  | .fbink_version, [] =>
    some (nif_fbink_version E, heap)
  | .fbink_target, [] =>
    some (nif_fbink_target E, heap)
  | .fbink_features, [] =>
    some (nif_fbink_features E, heap)
  | .fbink_open, [] =>
    some (nif_fbink_open E, heap)
  | .fbink_close, [a0] =>
    some (nif_fbink_close E a0, heap)
  | .fbink_init, [a0, a1] =>
    some (nif_fbink_init T E a0 a1, heap)
  | .fbink_reinit, [a0, a1] =>
    some (nif_fbink_reinit T E a0 a1, heap)
  | .fbink_get_state, [a0] =>
    some (nif_fbink_get_state T E a0, heap)
  | .fbink_state_dump, [a0] =>
    some (nif_fbink_state_dump T a0, heap)
  | .fbink_get_last_rect, [a0] =>
    some (nif_fbink_get_last_rect E a0, heap)
  | .fbink_get_last_marker, [] =>
    some (nif_fbink_get_last_marker E, heap)
  | .fbink_is_fb_quirky, [] =>
    some (nif_fbink_is_fb_quirky E, heap)
  | .fbink_update_verbosity, [a0] =>
    some (nif_fbink_update_verbosity T a0, heap)
  | .fbink_update_pen_colors, [a0] =>
    some (nif_fbink_update_pen_colors T E a0, heap)
  | .fbink_set_fg_pen_gray, [a0, a1, a2] =>
    some (nif_fbink_set_fg_pen_gray E a0 a1 a2, heap)
  | .fbink_set_bg_pen_gray, [a0, a1, a2] =>
    some (nif_fbink_set_bg_pen_gray E a0 a1 a2, heap)
  | .fbink_set_fg_pen_rgba, [a0, a1, a2, a3, a4, a5] =>
    some (nif_fbink_set_fg_pen_rgba E a0 a1 a2 a3 a4 a5, heap)
  | .fbink_set_bg_pen_rgba, [a0, a1, a2, a3, a4, a5] =>
    some (nif_fbink_set_bg_pen_rgba E a0 a1 a2 a3 a4 a5, heap)
  | .fbink_print, [a0, a1, a2] =>
    some (nif_fbink_print T E a0 a1 a2, heap)
  | .fbink_add_ot_font, [a0, a1] =>
    some (nif_fbink_add_ot_font T E a0 a1, heap)
  | .fbink_free_ot_fonts, [] =>
    some (nif_fbink_free_ot_fonts E, heap)
  | .fbink_print_ot, [a0, a1, a2, a3] =>
    some (nif_fbink_print_ot T E a0 a1 a2 a3, heap)
  | .fbink_print_progress_bar, [a0, a1, a2] =>
    some (nif_fbink_print_progress_bar T E a0 a1 a2, heap)
  | .fbink_print_activity_bar, [a0, a1, a2] =>
    some (nif_fbink_print_activity_bar T E a0 a1 a2, heap)
  | .fbink_print_image, [a0, a1, a2, a3, a4] =>
    some (nif_fbink_print_image T E a0 a1 a2 a3 a4, heap)
  | .fbink_print_raw_data, [a0, a1, a2, a3, a4, a5, a6] =>
    some (nif_fbink_print_raw_data T E a0 a1 a2 a3 a4 a5 a6, heap)
  | .fbink_cls, [a0, a1, a2, a3] =>
    some (nif_fbink_cls T E a0 a1 a2 a3, heap)
  | .fbink_grid_clear, [a0, a1, a2, a3] =>
    some (nif_fbink_grid_clear T E a0 a1 a2 a3, heap)
  | .fbink_refresh, [a0, a1, a2, a3, a4, a5] =>
    some (nif_fbink_refresh T E a0 a1 a2 a3 a4 a5, heap)
  | .fbink_refresh_rect, [a0, a1, a2] =>
    some (nif_fbink_refresh_rect T E a0 a1 a2, heap)
  | .fbink_grid_refresh, [a0, a1, a2, a3] =>
    some (nif_fbink_grid_refresh T E a0 a1 a2 a3, heap)
  | .fbink_wait_for_submission, [a0, a1] =>
    some (nif_fbink_wait_for_submission E a0 a1, heap)
  | .fbink_wait_for_complete, [a0, a1] =>
    some (nif_fbink_wait_for_complete E a0 a1, heap)
  | .fbink_wait_for_any_complete, [a0] =>
    some (nif_fbink_wait_for_any_complete E a0, heap)
  | .fbink_dump, [a0] =>
    some (nif_fbink_dump E heap a0)
  | .fbink_region_dump, [a0, a1, a2, a3, a4, a5] =>
    some (nif_fbink_region_dump T E heap a0 a1 a2 a3 a4 a5)
  | .fbink_rect_dump, [a0, a1] =>
    some (nif_fbink_rect_dump E heap a0 a1)
  | .fbink_restore, [a0, a1, a2] =>
    some (nif_fbink_restore T E heap a0 a1 a2)
  | .fbink_free_dump_data, [a0] =>
    some (nif_fbink_free_dump_data heap a0)
  | .fbink_get_dump_data, [a0] =>
    some (nif_fbink_get_dump_data heap a0)
  | .fbink_invert_screen, [a0, a1] =>
    some (nif_fbink_invert_screen T E a0 a1, heap)
  | .fbink_invert_rect, [a0, a1, a2] =>
    some (nif_fbink_invert_rect E a0 a1 a2, heap)
  | .fbink_rota_native_to_canonical, [a0] =>
    some (nif_fbink_rota_native_to_canonical E a0, heap)
  | .fbink_rota_canonical_to_native, [a0] =>
    some (nif_fbink_rota_canonical_to_native E a0, heap)
  | .fbink_set_fb_info, [a0, a1, a2, a3, a4] =>
    some (nif_fbink_set_fb_info T E a0 a1 a2 a3 a4, heap)
  | .fbink_fill_rect_gray, [a0, a1, a2, a3, a4] =>
    some (nif_fbink_fill_rect_gray T E a0 a1 a2 a3 a4, heap)
  | .fbink_fill_rect_rgba, [a0, a1, a2, a3, a4, a5, a6, a7] =>
    some (nif_fbink_fill_rect_rgba T E a0 a1 a2 a3 a4 a5 a6 a7, heap)
  | .fbink_put_pixel_gray, [a0, a1, a2, a3] =>
    some (nif_fbink_put_pixel_gray E a0 a1 a2 a3, heap)
  | .fbink_put_pixel_rgba, [a0, a1, a2, a3, a4, a5, a6] =>
    some (nif_fbink_put_pixel_rgba E a0 a1 a2 a3 a4 a5 a6, heap)
  | .fbink_get_pixel, [a0, a1, a2] =>
    some (nif_fbink_get_pixel E a0 a1 a2, heap)
  | .fbink_pack_pixel_gray, [a0] =>
    some (nif_fbink_pack_pixel_gray E a0, heap)
  | .fbink_pack_pixel_rgba, [a0, a1, a2, a3] =>
    some (nif_fbink_pack_pixel_rgba E a0 a1 a2 a3, heap)
  | .fbink_wakeup_epdc, [] =>
    some (nif_fbink_wakeup_epdc E, heap)
  | .fbink_sunxi_toggle_ntx_pen_mode, [a0, a1] =>
    some (nif_fbink_sunxi_toggle_ntx_pen_mode E a0 a1, heap)
  | .fbink_sunxi_ntx_enforce_rota, [a0, a1, a2] =>
    some (nif_fbink_sunxi_ntx_enforce_rota T X E a0 a1 a2, heap)
  | .fbink_mtk_set_swipe_data, [a0, a1] =>
    some (nif_fbink_mtk_set_swipe_data X E a0 a1, heap)
  | .fbink_mtk_set_halftone, [a0, a1, a2] =>
    some (nif_fbink_mtk_set_halftone X E a0 a1 a2, heap)
  | .fbink_mtk_toggle_auto_reagl, [a0, a1] =>
    some (nif_fbink_mtk_toggle_auto_reagl E a0 a1, heap)
  | .fbink_mtk_toggle_pen_mode, [a0, a1] =>
    some (nif_fbink_mtk_toggle_pen_mode E a0 a1, heap)
  | .fbink_input_scan, [a0, a1, a2] =>
    some (nif_fbink_input_scan X E a0 a1 a2, heap)
  | .fbink_input_check, [a0, a1, a2, a3] =>
    some (nif_fbink_input_check X E a0 a1 a2 a3, heap)
  | .fbink_button_scan, [a0, a1, a2] =>
    some (nif_fbink_button_scan E a0 a1 a2, heap)
  | .fbink_wait_for_usbms_processing, [a0, a1] =>
    some (nif_fbink_wait_for_usbms_processing E a0 a1, heap)
  | _, _ => none

/-- Whether every argument of a call can be interpreted as the kind expected at its
position. -/
def all_readable (heap : Heap) : List ArgKind → List Term → Bool
  | kind :: kinds, t :: ts => kind.readable heap t && all_readable heap kinds ts
  | _, _ => true

/-- Answers of the native library used to evaluate the bridged operations: every status
code is 0, every allocation succeeds, the new resource gets handle 1. -/
def sample_native : Native where
  rv := 0
  version := [118, 49, 0]
  target := 1
  features := 3
  last_marker := 42
  quirky := false
  state := sample_state
  last_rect := FBInkRect.zeroed
  fit := { computed_lines := 2, rendered_lines := 2, bbox := { width := 10, height := 20 },
           truncated := false }
  dump := { data := some [1, 2, 3, 4], stride := 2, size := 4, area := FBInkRect.zeroed,
            clip := FBInkRect.zeroed, rota := 0, bpp := 8, is_full := true }
  pixel_r := 1
  pixel_g := 2
  pixel_b := 3
  pixel_a := 255
  px := 7
  canonical := 1
  native_rota := 2
  devices := none
  device := none
  alloc_ok := true
  new_resource := some 1

/-- The heap with no dump resource. -/
def empty_heap : Heap := fun _ => none

/-- A release of a dump resource: the explicit operation, or the finalizer run by the
VM. -/
inductive Release where
  | explicit
  | finalizer
  deriving DecidableEq

/-- A sequence of release calls on the resource behind `handle`, each applied to the
state the previous one left: the native calls made, in order, and the resources
afterwards. -/
def run_releases (heap : Heap) (handle : Nat) : List Release → List NativeCall × Heap
  | [] => ([], heap)
  | .explicit :: rest =>
    let step := nif_fbink_free_dump_data heap (.resource handle)
    let later := run_releases step.2 handle rest
    (step.1.calls ++ later.1, later.2)
  | .finalizer :: rest =>
    match heap handle with
    | some res =>
      let step := dump_resource_dtor res
      let later := run_releases (Function.update heap handle (some step.1)) handle rest
      (step.2 ++ later.1, later.2)
    | none => run_releases heap handle rest

/-- Modelled from the spec: how many payloads the native release hands to `free` over
a list of native calls, one for each call of `fbink_free_dump_data` on a record whose
payload pointer is present. -/
def payload_frees : List NativeCall → Nat
  | [] => 0
  | call :: rest =>
    (if call.entry = "fbink_free_dump_data" then
      match call.args with
      | [.dump d] => if d.data.isSome then 1 else 0
      | _ => 0
    else 0) + payload_frees rest

/-- The character list of the given bytes: the proper list of their integer terms. -/
def byte_list (bs : List Nat) : Term :=
  list_term (bs.map (fun b : Nat => Term.int (Int.ofNat b)))

/-! ## Operations that keep the native status -/

/-- A native library that answers every call with the status `-22`. -/
def failing_native : Native := { sample_native with rv := -22 }

/-- The resources after a capture into handle `1` followed by an explicit release of
that handle. -/
def released_heap : Heap :=
  (nif_fbink_free_dump_data (nif_fbink_dump sample_native empty_heap (.int 3)).2
    (.resource 1)).2

/-- One input device as the native scan reports it. -/
def sample_device : FBInkInputDevice :=
  { type := 1, fd := 5, matched := true, name := [97], path := [47] }

/-- A native library whose scan finds `sample_device`, with `enif_alloc` failing. -/
def exhausted_native : Native :=
  { sample_native with devices := some [sample_device], alloc_ok := false }

/-! ## Record arguments that are not mappings -/

/-- The empty mapping in place of a term that is not a mapping. -/
def empty_map_unless_map : Term → Term
  | .map entries => .map entries
  | _ => .map []

/-- The arguments of a call, with the empty mapping in every position where the
operation marshals a configuration, an OpenType configuration or a rectangle and the
argument is not a mapping. -/
def with_empty_records : List ArgKind → List Term → List Term
  | .config :: kinds, t :: ts => empty_map_unless_map t :: with_empty_records kinds ts
  | .ot_config :: kinds, t :: ts => empty_map_unless_map t :: with_empty_records kinds ts
  | .rect :: kinds, t :: ts => empty_map_unless_map t :: with_empty_records kinds ts
  | _ :: kinds, t :: ts => t :: with_empty_records kinds ts
  | _, ts => ts

/-! ## Lookup lemmas -/

theorem lookup_eq_none_of_key_absent (key : Term) (entries : List (Term × Term))
    (h : key_absent key entries) : entries.lookup key = none := by
  induction entries with
  | nil => rfl
  | cons e rest ih =>
    obtain ⟨k, v⟩ := e
    have hk : key ≠ k := by
      intro hkey
      exact h v (by rw [hkey]; exact List.mem_cons_self _ _)
    have hrest : key_absent key rest := fun w hw => h w (List.mem_cons_of_mem _ hw)
    have hb : (key == k) = false := by simpa using hk
    simp only [List.lookup, hb]
    exact ih hrest

theorem enif_get_map_value_of_key_absent (key : Term) (entries : List (Term × Term))
    (h : key_absent key entries) : enif_get_map_value (.map entries) key = none := by
  simp only [enif_get_map_value]
  exact lookup_eq_none_of_key_absent key entries h

theorem enif_get_map_value_of_not_map (m key : Term) (h : ∀ entries, m ≠ .map entries) :
    enif_get_map_value m key = none := by
  cases m with
  | map entries => exact absurd rfl (h entries)
  | _ => rfl

theorem enif_get_map_value_of_unmapped (m key : Term)
    (h : (∀ entries, m ≠ .map entries) ∨
      (∃ entries, m = .map entries ∧ key_absent key entries)) :
    enif_get_map_value m key = none := by
  rcases h with h | ⟨entries, rfl, h⟩
  · exact enif_get_map_value_of_not_map m key h
  · exact enif_get_map_value_of_key_absent key entries h

/-! ## Result encoding -/

/-- C1: for every native return code `rv`, `make_ok_or_error` gives the pair
`(ok, rv)` when `rv >= 0` and the pair `(error, rv)` when `rv < 0`, with `rv` carried
unchanged in both. -/
theorem make_ok_or_error_tagged (rv : Int) :
    (0 ≤ rv → make_ok_or_error rv = .tuple [.atom "ok", .int rv]) ∧
    (rv < 0 → make_ok_or_error rv = .tuple [.atom "error", .int rv]) := by
  constructor
  · intro h
    simp [make_ok_or_error, h, enif_make_tuple2, atom_ok, enif_make_int]
  · intro h
    have hn : ¬ (rv ≥ 0) := not_le.mpr h
    simp [make_ok_or_error, hn, make_error_int, enif_make_tuple2, atom_error, enif_make_int]

theorem make_ok_or_error_tagged_witness :
    make_ok_or_error 3 = .tuple [.atom "ok", .int 3] ∧
    make_ok_or_error (-5) = .tuple [.atom "error", .int (-5)] :=
  ⟨(make_ok_or_error_tagged 3).1 (by decide), (make_ok_or_error_tagged (-5)).2 (by decide)⟩

/-! ## Typed field accessors -/

/-- C2: when the first argument is not a mapping, or is a mapping with no entry under
the key, each of `get_bool`, `get_int`, `get_uint` and `get_double` returns exactly the
default it was given. -/
theorem accessors_return_default_when_key_absent (m key : Term) (db : Bool) (di du : Int)
    (dd : Double)
    (h : (∀ entries, m ≠ .map entries) ∨
      (∃ entries, m = .map entries ∧ key_absent key entries)) :
    get_bool m key db = db ∧ get_int m key di = di ∧
    get_uint m key du = du ∧ get_double m key dd = dd := by
  have hv := enif_get_map_value_of_unmapped m key h
  simp [get_bool, get_int, get_uint, get_double, hv]

theorem accessors_return_default_when_key_absent_witness :
    (get_bool (.map [(atom_col, .int 1)]) atom_row true = true ∧
      get_int (.map [(atom_col, .int 1)]) atom_row (-7) = -7 ∧
      get_uint (.map [(atom_col, .int 1)]) atom_row 9 = 9 ∧
      get_double (.map [(atom_col, .int 1)]) atom_row 3 = 3) ∧
    (get_bool (.int 4) atom_row true = true ∧ get_int (.int 4) atom_row (-7) = -7 ∧
      get_uint (.int 4) atom_row 9 = 9 ∧ get_double (.int 4) atom_row 3 = 3) :=
  ⟨accessors_return_default_when_key_absent (.map [(atom_col, .int 1)]) atom_row true (-7) 9 3
      (Or.inr ⟨[(atom_col, .int 1)], rfl, by
        intro value hmem
        simp [atom_row, atom_col] at hmem⟩),
    accessors_return_default_when_key_absent (.int 4) atom_row true (-7) 9 3
      (Or.inl (by intro entries hfalse; cases hfalse))⟩

/-- C3, as stated, fails: the nonzero integer 2147483648 does not fit the native `int`,
so `get_bool` falls back to the default `false` instead of yielding `true`. -/
theorem get_bool_large_integer_counterexample :
    (2147483648 : Int) ≠ 0 ∧
    enif_get_map_value (.map [(atom_is_quiet, .int 2147483648)]) atom_is_quiet
      = some (.int 2147483648) ∧
    get_bool (.map [(atom_is_quiet, .int 2147483648)]) atom_is_quiet false = false := by
  decide

/-- C3, amended: with the key present, the tag `true` yields true, the tag `false`
yields false, the integer 0 yields false, and every nonzero integer that fits the native
32-bit `int` yields true, whatever the default. -/
theorem get_bool_coercion (m key : Term) (d : Bool) :
    (enif_get_map_value m key = some (.atom "true") → get_bool m key d = true) ∧
    (enif_get_map_value m key = some (.atom "false") → get_bool m key d = false) ∧
    (enif_get_map_value m key = some (.int 0) → get_bool m key d = false) ∧
    (∀ v : Int, enif_get_map_value m key = some (.int v) → v ≠ 0 →
      INT_MIN ≤ v → v ≤ INT_MAX → get_bool m key d = true) := by
  refine ⟨?_, ?_, ?_, ?_⟩
  · intro h
    rw [get_bool, h]
    cases d <;> decide
  · intro h
    rw [get_bool, h]
    cases d <;> decide
  · intro h
    rw [get_bool, h]
    cases d <;> decide
  · intro v h hv hlo hhi
    simp [get_bool, h, enif_get_atom, enif_get_int, hlo, hhi, hv]

theorem get_bool_coercion_witness :
    get_bool (.map [(atom_is_quiet, .atom "true")]) atom_is_quiet false = true ∧
    get_bool (.map [(atom_is_quiet, .atom "false")]) atom_is_quiet true = false ∧
    get_bool (.map [(atom_is_quiet, .int 0)]) atom_is_quiet true = false ∧
    get_bool (.map [(atom_is_quiet, .int (-3))]) atom_is_quiet false = true :=
  ⟨(get_bool_coercion (.map [(atom_is_quiet, .atom "true")]) atom_is_quiet false).1
      (by decide),
    (get_bool_coercion (.map [(atom_is_quiet, .atom "false")]) atom_is_quiet true).2.1
      (by decide),
    (get_bool_coercion (.map [(atom_is_quiet, .int 0)]) atom_is_quiet true).2.2.1
      (by decide),
    (get_bool_coercion (.map [(atom_is_quiet, .int (-3))]) atom_is_quiet false).2.2.2 (-3)
      (by decide) (by decide) (by decide) (by decide)⟩

theorem c_string_cons_nonzero (c : Char) (rest : List Char) (hc : c.toNat ≠ 0) :
    c_string (c :: rest) = c.toNat :: c_string rest := by
  simp [c_string, List.takeWhile_cons, hc]

theorem c_string_of_no_nul (buf : List Char) (h : ∀ c ∈ buf, c.toNat ≠ 0) :
    c_string buf = buf.map Char.toNat := by
  induction buf with
  | nil => rfl
  | cons c rest ih =>
    have hc : c.toNat ≠ 0 := h c (List.mem_cons_self _ _)
    have hrest : ∀ d ∈ rest, d.toNat ≠ 0 := fun d hd => h d (List.mem_cons_of_mem _ hd)
    rw [c_string_cons_nonzero c rest hc, ih hrest, List.map_cons]

theorem strcmp_eq_zero (a b : List Char) :
    (strcmp a b == 0) = decide (c_string a = c_string b) := by
  unfold strcmp
  by_cases hs : c_string a = c_string b
  · simp [hs]
  · by_cases hlt : c_string a < c_string b <;> simp [hs, hlt]

theorem char_toNat_map_injective (a b : List Char)
    (h : a.map Char.toNat = b.map Char.toNat) : a = b := by
  induction a generalizing b with
  | nil =>
    cases b with
    | nil => rfl
    | cons d rest => simp at h
  | cons c rest ih =>
    cases b with
    | nil => simp at h
    | cons d rest2 =>
      simp only [List.map_cons, List.cons.injEq] at h
      have hcd : c = d := by
        have h1 : Char.ofNat c.toNat = Char.ofNat d.toNat := by rw [h.1]
        simpa using h1
      rw [hcd, ih rest2 h.2]

/-- C4, as stated, fails. The atom whose characters are `true`, a NUL and `x` is neither
the tag `true`, the tag `false` nor an integer, and with the default `false` that the
call sites supply the accessor answers `true`: `strcmp` stops at the NUL. The atom `nil`
with default `true` gives `false`: the result of the comparison is returned without
looking at the default. -/
theorem get_bool_fallback_counterexample :
    get_bool (.map [(atom_is_quiet, .atom "true\x00x")]) atom_is_quiet false = true ∧
    get_bool (.map [(atom_is_quiet, .atom "nil")]) atom_is_quiet true = false := by
  decide

/-- The atom branch of `get_bool`: for an atom that fits the eight-byte buffer the
result is the outcome of the string comparison, whatever the default. -/
theorem get_bool_of_short_atom (m key : Term) (name : String)
    (h : enif_get_map_value m key = some (.atom name))
    (hlen : name.length ≤ 7) (hlat : ∀ c ∈ name.toList, c.toNat < 256) (d : Bool) :
    get_bool m key d = decide (c_string name.toList = c_string "true".toList) := by
  have hl : name.length + 1 ≤ 8 := by omega
  have hall : (name.toList.all fun c => decide (c.toNat < 256)) = true := by
    simpa using hlat
  simp only [get_bool, h, enif_get_atom, hl, hall, and_self, if_true]
  exact strcmp_eq_zero _ _

/-- C4, amended: `get_bool` on a value under the key that is not an integer. When the
value is not an atom (a float, a binary, a list, …), or is an atom that does not fit
the eight-byte buffer (eight or more characters, such as `undefined`, or a character
outside Latin-1), the accessor returns the supplied default, `true` or `false`. When it
is any other atom than `true` without a NUL character (`nil` for one) and the default
is `false`, as it is at every call site, the accessor returns the default. -/
theorem get_bool_fallback (m key val : Term) (h : enif_get_map_value m key = some val)
    (hint : ∀ v : Int, val ≠ .int v) :
    ((∀ name : String, val ≠ .atom name) → ∀ d : Bool, get_bool m key d = d) ∧
    (∀ name : String, val = .atom name →
      ¬ (name.length ≤ 7 ∧ ∀ c ∈ name.toList, c.toNat < 256) →
      ∀ d : Bool, get_bool m key d = d) ∧
    (∀ name : String, val = .atom name →
      name.length ≤ 7 → (∀ c ∈ name.toList, c.toNat < 256) →
      name ≠ "true" → (∀ c ∈ name.toList, c.toNat ≠ 0) →
      get_bool m key false = false) := by
  have hnoint : enif_get_int val = none := by
    cases val with
    | int v => exact absurd rfl (hint v)
    | _ => rfl
  refine ⟨fun hna d => ?_, fun name hval hno d => ?_, ?_⟩
  · have hnoatom : enif_get_atom val 8 = none := by
      cases val with
      | atom name => exact absurd rfl (hna name)
      | _ => rfl
    simp [get_bool, h, hnoatom, hnoint]
  · subst hval
    have hcond : ¬ (name.length + 1 ≤ 8 ∧
        (name.toList.all fun c => decide (c.toNat < 256)) = true) := by
      rintro ⟨hl, hall⟩
      exact hno ⟨by omega, by simpa using hall⟩
    simp only [get_bool, h, enif_get_atom, hcond, if_false, enif_get_int]
  · intro name hval hlen hlat hne hnul
    subst hval
    rw [get_bool_of_short_atom m key name h hlen hlat false]
    have hneq : c_string name.toList ≠ c_string "true".toList := by
      intro heq
      rw [c_string_of_no_nul _ hnul, c_string_of_no_nul "true".toList (by decide)] at heq
      have hlist := char_toNat_map_injective _ _ heq
      exact hne (String.ext hlist)
    exact decide_eq_false hneq

theorem get_bool_fallback_witness :
    get_bool (.map [(atom_is_quiet, .float 1)]) atom_is_quiet true = true ∧
    get_bool (.map [(atom_is_quiet, .atom "undefined")]) atom_is_quiet true = true ∧
    get_bool (.map [(atom_is_quiet, .atom "nil")]) atom_is_quiet false = false :=
  ⟨(get_bool_fallback (.map [(atom_is_quiet, .float 1)]) atom_is_quiet (.float 1)
      (by decide) (fun _ hv => Term.noConfusion hv)).1
      (fun _ hv => Term.noConfusion hv) true,
   (get_bool_fallback (.map [(atom_is_quiet, .atom "undefined")]) atom_is_quiet
      (.atom "undefined") (by decide) (fun _ hv => Term.noConfusion hv)).2.1
      "undefined" rfl (by decide) true,
   (get_bool_fallback (.map [(atom_is_quiet, .atom "nil")]) atom_is_quiet
      (.atom "nil") (by decide) (fun _ hv => Term.noConfusion hv)).2.2
      "nil" rfl (by decide) (by decide) (by decide) (by decide)⟩

/-- C5: `get_uint` returns the default for every negative integer under the key, of any
magnitude, and returns the value itself for every integer from 0 to the largest native
`unsigned int`. -/
theorem get_uint_coercion (m key : Term) (d v : Int)
    (h : enif_get_map_value m key = some (.int v)) :
    (v < 0 → get_uint m key d = d) ∧
    (0 ≤ v → v ≤ UINT_MAX → get_uint m key d = v) := by
  constructor
  · intro hneg
    have h1 : ¬ (0 ≤ v) := not_le.mpr hneg
    by_cases hr : INT_MIN ≤ v ∧ v ≤ INT_MAX
    · simp [get_uint, h, enif_get_uint, enif_get_int, h1, hr]
    · simp [get_uint, h, enif_get_uint, enif_get_int, h1, hr]
  · intro hlo hhi
    simp [get_uint, h, enif_get_uint, hlo, hhi]

theorem get_uint_coercion_witness :
    get_uint (.map [(atom_fontmult, .int (-1))]) atom_fontmult 7 = 7 ∧
    get_uint (.map [(atom_fontmult, .int 4294967295)]) atom_fontmult 7 = 4294967295 :=
  ⟨(get_uint_coercion (.map [(atom_fontmult, .int (-1))]) atom_fontmult 7 (-1)
      (by decide)).1 (by decide),
    (get_uint_coercion (.map [(atom_fontmult, .int 4294967295)]) atom_fontmult 7 4294967295
      (by decide)).2 (by decide) (by decide)⟩

/-- C6: with a value under the key that the accessor does not accept, `get_int`,
`get_uint` and `get_double` return the default. For `get_int` that is every term other
than an integer fitting the native `int`; for `get_uint` every term other than an
integer fitting the native `unsigned int`; for `get_double` every term that is neither
a float nor an integer fitting the native `int`. Atoms, binaries, lists and mappings
are such terms for all three, floats for the first two. -/
theorem accessors_return_default_on_mismatch (m key val : Term) (di du : Int) (dd : Double)
    (h : enif_get_map_value m key = some val) :
    ((∀ v : Int, val = .int v → v < INT_MIN ∨ INT_MAX < v) → get_int m key di = di) ∧
    ((∀ v : Int, val = .int v → v < 0 ∨ UINT_MAX < v) → get_uint m key du = du) ∧
    ((∀ x : Double, val ≠ .float x) →
      (∀ v : Int, val = .int v → v < INT_MIN ∨ INT_MAX < v) → get_double m key dd = dd) := by
  refine ⟨?_, ?_, ?_⟩
  · intro hval
    cases val with
    | int v =>
      have hr : ¬ (INT_MIN ≤ v ∧ v ≤ INT_MAX) := by
        rcases hval v rfl with hlt | hgt
        · exact fun hc => absurd hc.1 (not_le.mpr hlt)
        · exact fun hc => absurd hc.2 (not_le.mpr hgt)
      simp [get_int, h, enif_get_int, hr]
    | _ => simp [get_int, h, enif_get_int]
  · intro hval
    cases val with
    | int v =>
      have hr : ¬ (0 ≤ v ∧ v ≤ UINT_MAX) := by
        rcases hval v rfl with hlt | hgt
        · exact fun hc => absurd hc.1 (not_le.mpr hlt)
        · exact fun hc => absurd hc.2 (not_le.mpr hgt)
      by_cases hi : INT_MIN ≤ v ∧ v ≤ INT_MAX
      · have hneg : ¬ (0 ≤ v) := by
          intro h0
          apply hr
          refine ⟨h0, ?_⟩
          have h2 := hi.2
          simp only [INT_MAX] at h2
          simp only [UINT_MAX]
          omega
        simp [get_uint, h, enif_get_uint, enif_get_int, hr, hi, hneg]
      · simp [get_uint, h, enif_get_uint, enif_get_int, hr, hi]
    | _ => simp [get_uint, h, enif_get_uint, enif_get_int]
  · intro hfloat hval
    cases val with
    | int v =>
      have hr : ¬ (INT_MIN ≤ v ∧ v ≤ INT_MAX) := by
        rcases hval v rfl with hlt | hgt
        · exact fun hc => absurd hc.1 (not_le.mpr hlt)
        · exact fun hc => absurd hc.2 (not_le.mpr hgt)
      simp [get_double, h, enif_get_double, enif_get_int, hr]
    | float x => exact absurd rfl (hfloat x)
    | _ => simp [get_double, h, enif_get_double, enif_get_int]

theorem accessors_return_default_on_mismatch_witness :
    get_int (.map [(atom_row, .float 2)]) atom_row 5 = 5 ∧
    get_uint (.map [(atom_row, .atom "nil")]) atom_row 6 = 6 ∧
    get_double (.map [(atom_row, .int 4294967296)]) atom_row 7 = 7 :=
  ⟨(accessors_return_default_on_mismatch (.map [(atom_row, .float 2)]) atom_row (.float 2)
      5 6 7 (by decide)).1 (by intro v hv; cases hv),
    (accessors_return_default_on_mismatch (.map [(atom_row, .atom "nil")]) atom_row
      (.atom "nil") 5 6 7 (by decide)).2.1 (by intro v hv; cases hv),
    (accessors_return_default_on_mismatch (.map [(atom_row, .int 4294967296)]) atom_row
      (.int 4294967296) 5 6 7 (by decide)).2.2 (by intro x hx; cases hx)
      (by
        intro v hv
        cases hv
        exact Or.inr (by decide))⟩

/-- C7, as stated, fails: the integer 2147483648 does not fit the native `int`, so
`get_double` returns the default 12 instead of the widened integer. -/
theorem get_double_large_integer_counterexample :
    enif_get_map_value (.map [(atom_size_pt, .int 2147483648)]) atom_size_pt
      = some (.int 2147483648) ∧
    get_double (.map [(atom_size_pt, .int 2147483648)]) atom_size_pt 12 = 12 ∧
    get_double (.map [(atom_size_pt, .int 2147483648)]) atom_size_pt 12
      ≠ ((2147483648 : Int) : Double) := by
  decide

/-- C7, amended: a floating value under the key is returned as it is, and an integer
that fits the native 32-bit `int` is returned widened to a floating value, whatever the
default. -/
theorem get_double_coercion (m key : Term) (d : Double) :
    (∀ x : Double, enif_get_map_value m key = some (.float x) → get_double m key d = x) ∧
    (∀ n : Int, enif_get_map_value m key = some (.int n) → INT_MIN ≤ n → n ≤ INT_MAX →
      get_double m key d = (n : Double)) := by
  constructor
  · intro x h
    simp [get_double, h, enif_get_double]
  · intro n h hlo hhi
    simp [get_double, h, enif_get_double, enif_get_int, hlo, hhi]

theorem get_double_coercion_witness :
    get_double (.map [(atom_size_pt, .float 5)]) atom_size_pt 12 = 5 ∧
    get_double (.map [(atom_size_pt, .int (-9))]) atom_size_pt 12 = ((-9 : Int) : Double) :=
  ⟨(get_double_coercion (.map [(atom_size_pt, .float 5)]) atom_size_pt 12).1 5 (by decide),
    (get_double_coercion (.map [(atom_size_pt, .int (-9))]) atom_size_pt 12).2 (-9)
      (by decide) (by decide) (by decide)⟩

/-! ## Forward marshalling of the configuration record -/

theorem cast_unsigned_zero (bits : Nat) : cast_unsigned bits 0 = 0 := by
  simp [cast_unsigned]

theorem cast_short_zero : cast_short 0 = 0 := by decide

theorem cast_uint8_zero : cast_uint8 0 = 0 := by decide

theorem cast_short_of_fits (v : Int) (hlo : -32768 ≤ v) (hhi : v ≤ 32767) :
    cast_short v = v := by
  simp only [cast_short, cast_signed]
  norm_num
  omega

theorem get_bool_congr (m1 m2 key : Term) (d : Bool)
    (h : enif_get_map_value m1 key = enif_get_map_value m2 key) :
    get_bool m1 key d = get_bool m2 key d := by
  simp only [get_bool, h]

theorem get_int_congr (m1 m2 key : Term) (d : Int)
    (h : enif_get_map_value m1 key = enif_get_map_value m2 key) :
    get_int m1 key d = get_int m2 key d := by
  simp only [get_int, h]

theorem get_uint_congr (m1 m2 key : Term) (d : Int)
    (h : enif_get_map_value m1 key = enif_get_map_value m2 key) :
    get_uint m1 key d = get_uint m2 key d := by
  simp only [get_uint, h]

theorem lookup_map_put_of_ne (key value k : Term) (hk : k ≠ key)
    (entries : List (Term × Term)) :
    (map_put key value entries).lookup k = entries.lookup k := by
  have hb : (k == key) = false := by simpa using hk
  induction entries with
  | nil => simp [map_put, List.lookup, hb]
  | cons e rest ih =>
    obtain ⟨k2, v2⟩ := e
    by_cases h2 : k2 = key
    · subst h2
      simp [map_put, List.lookup, hb]
    · simp only [map_put, h2, if_false, List.lookup]
      rw [ih]

theorem map_to_fbink_config_congr (T : FBInkTypes) (m1 m2 : Term)
    (h : ∀ k ∈ config_keys, enif_get_map_value m1 k = enif_get_map_value m2 k) :
    map_to_fbink_config T m1 = map_to_fbink_config T m2 := by
  simp only [map_to_fbink_config]
  rw [
    get_int_congr m1 m2 atom_row _ (h atom_row (by simp [config_keys])),
    get_int_congr m1 m2 atom_col _ (h atom_col (by simp [config_keys])),
    get_uint_congr m1 m2 atom_fontmult _ (h atom_fontmult (by simp [config_keys])),
    get_uint_congr m1 m2 atom_fontname _ (h atom_fontname (by simp [config_keys])),
    get_bool_congr m1 m2 atom_is_inverted _ (h atom_is_inverted (by simp [config_keys])),
    get_bool_congr m1 m2 atom_is_flashing _ (h atom_is_flashing (by simp [config_keys])),
    get_bool_congr m1 m2 atom_is_cleared _ (h atom_is_cleared (by simp [config_keys])),
    get_bool_congr m1 m2 atom_is_centered _ (h atom_is_centered (by simp [config_keys])),
    get_int_congr m1 m2 atom_hoffset _ (h atom_hoffset (by simp [config_keys])),
    get_int_congr m1 m2 atom_voffset _ (h atom_voffset (by simp [config_keys])),
    get_bool_congr m1 m2 atom_is_halfway _ (h atom_is_halfway (by simp [config_keys])),
    get_bool_congr m1 m2 atom_is_padded _ (h atom_is_padded (by simp [config_keys])),
    get_bool_congr m1 m2 atom_is_rpadded _ (h atom_is_rpadded (by simp [config_keys])),
    get_uint_congr m1 m2 atom_fg_color _ (h atom_fg_color (by simp [config_keys])),
    get_uint_congr m1 m2 atom_bg_color _ (h atom_bg_color (by simp [config_keys])),
    get_bool_congr m1 m2 atom_is_overlay _ (h atom_is_overlay (by simp [config_keys])),
    get_bool_congr m1 m2 atom_is_bgless _ (h atom_is_bgless (by simp [config_keys])),
    get_bool_congr m1 m2 atom_is_fgless _ (h atom_is_fgless (by simp [config_keys])),
    get_bool_congr m1 m2 atom_no_viewport _ (h atom_no_viewport (by simp [config_keys])),
    get_bool_congr m1 m2 atom_is_verbose _ (h atom_is_verbose (by simp [config_keys])),
    get_bool_congr m1 m2 atom_is_quiet _ (h atom_is_quiet (by simp [config_keys])),
    get_bool_congr m1 m2 atom_ignore_alpha _ (h atom_ignore_alpha (by simp [config_keys])),
    get_uint_congr m1 m2 atom_halign _ (h atom_halign (by simp [config_keys])),
    get_uint_congr m1 m2 atom_valign _ (h atom_valign (by simp [config_keys])),
    get_int_congr m1 m2 atom_scaled_width _ (h atom_scaled_width (by simp [config_keys])),
    get_int_congr m1 m2 atom_scaled_height _ (h atom_scaled_height (by simp [config_keys])),
    get_uint_congr m1 m2 atom_wfm_mode _ (h atom_wfm_mode (by simp [config_keys])),
    get_uint_congr m1 m2 atom_dithering_mode _ (h atom_dithering_mode (by simp [config_keys])),
    get_bool_congr m1 m2 atom_sw_dithering _ (h atom_sw_dithering (by simp [config_keys])),
    get_uint_congr m1 m2 atom_cfa_mode _ (h atom_cfa_mode (by simp [config_keys])),
    get_bool_congr m1 m2 atom_is_nightmode _ (h atom_is_nightmode (by simp [config_keys])),
    get_bool_congr m1 m2 atom_no_refresh _ (h atom_no_refresh (by simp [config_keys])),
    get_bool_congr m1 m2 atom_no_merge _ (h atom_no_merge (by simp [config_keys])),
    get_bool_congr m1 m2 atom_is_animated _ (h atom_is_animated (by simp [config_keys])),
    get_uint_congr m1 m2 atom_saturation_boost _ (h atom_saturation_boost (by simp [config_keys])),
    get_bool_congr m1 m2 atom_to_syslog _ (h atom_to_syslog (by simp [config_keys]))]

/-- C8: for every mapping and every field of the configuration record, a mapping with
no entry under the field's key gives the field the value 0 (numeric fields) or false
(boolean fields); the empty mapping gives the all-zero record. -/
theorem map_to_fbink_config_absent_fields (T : FBInkTypes) (entries : List (Term × Term)) :
    (key_absent atom_row entries →
      (map_to_fbink_config T (.map entries)).row = 0) ∧
    (key_absent atom_col entries →
      (map_to_fbink_config T (.map entries)).col = 0) ∧
    (key_absent atom_fontmult entries →
      (map_to_fbink_config T (.map entries)).fontmult = 0) ∧
    (key_absent atom_fontname entries →
      (map_to_fbink_config T (.map entries)).fontname = 0) ∧
    (key_absent atom_is_inverted entries →
      (map_to_fbink_config T (.map entries)).is_inverted = false) ∧
    (key_absent atom_is_flashing entries →
      (map_to_fbink_config T (.map entries)).is_flashing = false) ∧
    (key_absent atom_is_cleared entries →
      (map_to_fbink_config T (.map entries)).is_cleared = false) ∧
    (key_absent atom_is_centered entries →
      (map_to_fbink_config T (.map entries)).is_centered = false) ∧
    (key_absent atom_hoffset entries →
      (map_to_fbink_config T (.map entries)).hoffset = 0) ∧
    (key_absent atom_voffset entries →
      (map_to_fbink_config T (.map entries)).voffset = 0) ∧
    (key_absent atom_is_halfway entries →
      (map_to_fbink_config T (.map entries)).is_halfway = false) ∧
    (key_absent atom_is_padded entries →
      (map_to_fbink_config T (.map entries)).is_padded = false) ∧
    (key_absent atom_is_rpadded entries →
      (map_to_fbink_config T (.map entries)).is_rpadded = false) ∧
    (key_absent atom_fg_color entries →
      (map_to_fbink_config T (.map entries)).fg_color = 0) ∧
    (key_absent atom_bg_color entries →
      (map_to_fbink_config T (.map entries)).bg_color = 0) ∧
    (key_absent atom_is_overlay entries →
      (map_to_fbink_config T (.map entries)).is_overlay = false) ∧
    (key_absent atom_is_bgless entries →
      (map_to_fbink_config T (.map entries)).is_bgless = false) ∧
    (key_absent atom_is_fgless entries →
      (map_to_fbink_config T (.map entries)).is_fgless = false) ∧
    (key_absent atom_no_viewport entries →
      (map_to_fbink_config T (.map entries)).no_viewport = false) ∧
    (key_absent atom_is_verbose entries →
      (map_to_fbink_config T (.map entries)).is_verbose = false) ∧
    (key_absent atom_is_quiet entries →
      (map_to_fbink_config T (.map entries)).is_quiet = false) ∧
    (key_absent atom_ignore_alpha entries →
      (map_to_fbink_config T (.map entries)).ignore_alpha = false) ∧
    (key_absent atom_halign entries →
      (map_to_fbink_config T (.map entries)).halign = 0) ∧
    (key_absent atom_valign entries →
      (map_to_fbink_config T (.map entries)).valign = 0) ∧
    (key_absent atom_scaled_width entries →
      (map_to_fbink_config T (.map entries)).scaled_width = 0) ∧
    (key_absent atom_scaled_height entries →
      (map_to_fbink_config T (.map entries)).scaled_height = 0) ∧
    (key_absent atom_wfm_mode entries →
      (map_to_fbink_config T (.map entries)).wfm_mode = 0) ∧
    (key_absent atom_dithering_mode entries →
      (map_to_fbink_config T (.map entries)).dithering_mode = 0) ∧
    (key_absent atom_sw_dithering entries →
      (map_to_fbink_config T (.map entries)).sw_dithering = false) ∧
    (key_absent atom_cfa_mode entries →
      (map_to_fbink_config T (.map entries)).cfa_mode = 0) ∧
    (key_absent atom_is_nightmode entries →
      (map_to_fbink_config T (.map entries)).is_nightmode = false) ∧
    (key_absent atom_no_refresh entries →
      (map_to_fbink_config T (.map entries)).no_refresh = false) ∧
    (key_absent atom_no_merge entries →
      (map_to_fbink_config T (.map entries)).no_merge = false) ∧
    (key_absent atom_is_animated entries →
      (map_to_fbink_config T (.map entries)).is_animated = false) ∧
    (key_absent atom_saturation_boost entries →
      (map_to_fbink_config T (.map entries)).saturation_boost = 0) ∧
    (key_absent atom_to_syslog entries →
      (map_to_fbink_config T (.map entries)).to_syslog = false) ∧
    map_to_fbink_config T (.map []) = FBInkConfig.zeroed := by
  refine ⟨?_, ?_, ?_, ?_, ?_, ?_, ?_, ?_, ?_, ?_, ?_, ?_, ?_, ?_, ?_, ?_, ?_, ?_, ?_, ?_, ?_, ?_, ?_, ?_, ?_, ?_, ?_, ?_, ?_, ?_, ?_, ?_, ?_, ?_, ?_, ?_, ?_⟩
  · intro h
    simp [map_to_fbink_config, get_int, enif_get_map_value_of_key_absent _ _ h,
      cast_unsigned_zero, cast_short_zero, cast_uint8_zero]
  · intro h
    simp [map_to_fbink_config, get_int, enif_get_map_value_of_key_absent _ _ h,
      cast_unsigned_zero, cast_short_zero, cast_uint8_zero]
  · intro h
    simp [map_to_fbink_config, get_uint, enif_get_map_value_of_key_absent _ _ h,
      cast_unsigned_zero, cast_short_zero, cast_uint8_zero]
  · intro h
    simp [map_to_fbink_config, get_uint, enif_get_map_value_of_key_absent _ _ h,
      cast_unsigned_zero, cast_short_zero, cast_uint8_zero]
  · intro h
    simp [map_to_fbink_config, get_bool, enif_get_map_value_of_key_absent _ _ h,
      cast_unsigned_zero, cast_short_zero, cast_uint8_zero]
  · intro h
    simp [map_to_fbink_config, get_bool, enif_get_map_value_of_key_absent _ _ h,
      cast_unsigned_zero, cast_short_zero, cast_uint8_zero]
  · intro h
    simp [map_to_fbink_config, get_bool, enif_get_map_value_of_key_absent _ _ h,
      cast_unsigned_zero, cast_short_zero, cast_uint8_zero]
  · intro h
    simp [map_to_fbink_config, get_bool, enif_get_map_value_of_key_absent _ _ h,
      cast_unsigned_zero, cast_short_zero, cast_uint8_zero]
  · intro h
    simp [map_to_fbink_config, get_int, enif_get_map_value_of_key_absent _ _ h,
      cast_unsigned_zero, cast_short_zero, cast_uint8_zero]
  · intro h
    simp [map_to_fbink_config, get_int, enif_get_map_value_of_key_absent _ _ h,
      cast_unsigned_zero, cast_short_zero, cast_uint8_zero]
  · intro h
    simp [map_to_fbink_config, get_bool, enif_get_map_value_of_key_absent _ _ h,
      cast_unsigned_zero, cast_short_zero, cast_uint8_zero]
  · intro h
    simp [map_to_fbink_config, get_bool, enif_get_map_value_of_key_absent _ _ h,
      cast_unsigned_zero, cast_short_zero, cast_uint8_zero]
  · intro h
    simp [map_to_fbink_config, get_bool, enif_get_map_value_of_key_absent _ _ h,
      cast_unsigned_zero, cast_short_zero, cast_uint8_zero]
  · intro h
    simp [map_to_fbink_config, get_uint, enif_get_map_value_of_key_absent _ _ h,
      cast_unsigned_zero, cast_short_zero, cast_uint8_zero]
  · intro h
    simp [map_to_fbink_config, get_uint, enif_get_map_value_of_key_absent _ _ h,
      cast_unsigned_zero, cast_short_zero, cast_uint8_zero]
  · intro h
    simp [map_to_fbink_config, get_bool, enif_get_map_value_of_key_absent _ _ h,
      cast_unsigned_zero, cast_short_zero, cast_uint8_zero]
  · intro h
    simp [map_to_fbink_config, get_bool, enif_get_map_value_of_key_absent _ _ h,
      cast_unsigned_zero, cast_short_zero, cast_uint8_zero]
  · intro h
    simp [map_to_fbink_config, get_bool, enif_get_map_value_of_key_absent _ _ h,
      cast_unsigned_zero, cast_short_zero, cast_uint8_zero]
  · intro h
    simp [map_to_fbink_config, get_bool, enif_get_map_value_of_key_absent _ _ h,
      cast_unsigned_zero, cast_short_zero, cast_uint8_zero]
  · intro h
    simp [map_to_fbink_config, get_bool, enif_get_map_value_of_key_absent _ _ h,
      cast_unsigned_zero, cast_short_zero, cast_uint8_zero]
  · intro h
    simp [map_to_fbink_config, get_bool, enif_get_map_value_of_key_absent _ _ h,
      cast_unsigned_zero, cast_short_zero, cast_uint8_zero]
  · intro h
    simp [map_to_fbink_config, get_bool, enif_get_map_value_of_key_absent _ _ h,
      cast_unsigned_zero, cast_short_zero, cast_uint8_zero]
  · intro h
    simp [map_to_fbink_config, get_uint, enif_get_map_value_of_key_absent _ _ h,
      cast_unsigned_zero, cast_short_zero, cast_uint8_zero]
  · intro h
    simp [map_to_fbink_config, get_uint, enif_get_map_value_of_key_absent _ _ h,
      cast_unsigned_zero, cast_short_zero, cast_uint8_zero]
  · intro h
    simp [map_to_fbink_config, get_int, enif_get_map_value_of_key_absent _ _ h,
      cast_unsigned_zero, cast_short_zero, cast_uint8_zero]
  · intro h
    simp [map_to_fbink_config, get_int, enif_get_map_value_of_key_absent _ _ h,
      cast_unsigned_zero, cast_short_zero, cast_uint8_zero]
  · intro h
    simp [map_to_fbink_config, get_uint, enif_get_map_value_of_key_absent _ _ h,
      cast_unsigned_zero, cast_short_zero, cast_uint8_zero]
  · intro h
    simp [map_to_fbink_config, get_uint, enif_get_map_value_of_key_absent _ _ h,
      cast_unsigned_zero, cast_short_zero, cast_uint8_zero]
  · intro h
    simp [map_to_fbink_config, get_bool, enif_get_map_value_of_key_absent _ _ h,
      cast_unsigned_zero, cast_short_zero, cast_uint8_zero]
  · intro h
    simp [map_to_fbink_config, get_uint, enif_get_map_value_of_key_absent _ _ h,
      cast_unsigned_zero, cast_short_zero, cast_uint8_zero]
  · intro h
    simp [map_to_fbink_config, get_bool, enif_get_map_value_of_key_absent _ _ h,
      cast_unsigned_zero, cast_short_zero, cast_uint8_zero]
  · intro h
    simp [map_to_fbink_config, get_bool, enif_get_map_value_of_key_absent _ _ h,
      cast_unsigned_zero, cast_short_zero, cast_uint8_zero]
  · intro h
    simp [map_to_fbink_config, get_bool, enif_get_map_value_of_key_absent _ _ h,
      cast_unsigned_zero, cast_short_zero, cast_uint8_zero]
  · intro h
    simp [map_to_fbink_config, get_bool, enif_get_map_value_of_key_absent _ _ h,
      cast_unsigned_zero, cast_short_zero, cast_uint8_zero]
  · intro h
    simp [map_to_fbink_config, get_uint, enif_get_map_value_of_key_absent _ _ h,
      cast_unsigned_zero, cast_short_zero, cast_uint8_zero]
  · intro h
    simp [map_to_fbink_config, get_bool, enif_get_map_value_of_key_absent _ _ h,
      cast_unsigned_zero, cast_short_zero, cast_uint8_zero]
  · simp [map_to_fbink_config, get_bool, get_int, get_uint, enif_get_map_value,
      List.lookup, cast_unsigned_zero, cast_short_zero, cast_uint8_zero,
      FBInkConfig.zeroed]

theorem map_to_fbink_config_absent_fields_witness :
    (map_to_fbink_config fbink_h (.map [(atom_col, .int 5)])).row = 0 ∧
    (map_to_fbink_config fbink_h (.map [(atom_col, .int 5)])).fontmult = 0 ∧
    (map_to_fbink_config fbink_h (.map [(atom_col, .int 5)])).is_inverted = false :=
  ⟨(map_to_fbink_config_absent_fields fbink_h [(atom_col, .int 5)]).1
      (by intro value hmem; simp [atom_row, atom_col] at hmem),
    (map_to_fbink_config_absent_fields fbink_h [(atom_col, .int 5)]).2.2.1
      (by intro value hmem; simp [atom_fontmult, atom_col] at hmem),
    (map_to_fbink_config_absent_fields fbink_h [(atom_col, .int 5)]).2.2.2.2.1
      (by intro value hmem; simp [atom_is_inverted, atom_col] at hmem)⟩

/-- C9: `map_to_fbink_config` ignores unknown keys. Two terms that give the same answer
(the same value, or absence) for each of the 36 configuration keys produce equal
records; so storing a value under any other key of a mapping, whether the key is new
or already present, leaves the produced record unchanged. -/
theorem map_to_fbink_config_ignores_unknown_keys (T : FBInkTypes) (m1 m2 : Term) :
    ((∀ k ∈ config_keys, enif_get_map_value m1 k = enif_get_map_value m2 k) →
      map_to_fbink_config T m1 = map_to_fbink_config T m2) ∧
    (∀ key value m3 : Term, key ∉ config_keys →
      enif_make_map_put m1 key value = some m3 →
      map_to_fbink_config T m3 = map_to_fbink_config T m1) := by
  constructor
  · exact map_to_fbink_config_congr T m1 m2
  · intro key value m3 hkey hput
    cases m1 with
    | map entries =>
      simp only [enif_make_map_put, Option.some.injEq] at hput
      subst hput
      apply map_to_fbink_config_congr
      intro k hk
      have hne : k ≠ key := fun e => hkey (e ▸ hk)
      simp only [enif_get_map_value]
      exact lookup_map_put_of_ne key value k hne entries
    | _ => simp [enif_make_map_put] at hput

theorem map_to_fbink_config_ignores_unknown_keys_witness :
    map_to_fbink_config fbink_h (.map [(atom_row, .int 5)])
      = map_to_fbink_config fbink_h (.map [(.atom "colour", .int 9), (atom_row, .int 5)]) ∧
    map_to_fbink_config fbink_h (.map [(atom_row, .int 5), (.atom "colour", .int 9)])
      = map_to_fbink_config fbink_h (.map [(atom_row, .int 5)]) :=
  ⟨(map_to_fbink_config_ignores_unknown_keys fbink_h (.map [(atom_row, .int 5)])
      (.map [(.atom "colour", .int 9), (atom_row, .int 5)])).1 (by decide),
    (map_to_fbink_config_ignores_unknown_keys fbink_h (.map [(atom_row, .int 5)])
      (.map [(.atom "colour", .int 9), (atom_row, .int 5)])).2
      (.atom "colour") (.int 9) (.map [(atom_row, .int 5), (.atom "colour", .int 9)])
      (by decide) (by decide)⟩

/-! ## Forward marshalling of the OpenType configuration record -/

/-- C10: margins of `map_to_fbink_ot_config`. A mapping with no `margins` entry gives
top, bottom, left and right all 0. When `margins` holds a sub-mapping, each of the four
fields is the integer found under its own key in the sub-mapping (for integers in the
signed 16-bit range) and is 0 when the sub-mapping has no entry under that key; nothing
is assumed about the other three keys, so each field is settled by its own key alone. -/
theorem map_to_fbink_ot_config_margins (T : FBInkTypes) (entries : List (Term × Term)) :
    (key_absent atom_margins entries →
      (map_to_fbink_ot_config T (.map entries)).margins
        = { top := 0, bottom := 0, left := 0, right := 0 }) ∧
    (∀ sub : List (Term × Term),
      enif_get_map_value (.map entries) atom_margins = some (.map sub) →
      ((∀ v : Int, enif_get_map_value (.map sub) atom_top = some (.int v) →
          -32768 ≤ v → v ≤ 32767 →
          (map_to_fbink_ot_config T (.map entries)).margins.top = v) ∧
        (key_absent atom_top sub →
          (map_to_fbink_ot_config T (.map entries)).margins.top = 0)) ∧
      ((∀ v : Int, enif_get_map_value (.map sub) atom_bottom = some (.int v) →
          -32768 ≤ v → v ≤ 32767 →
          (map_to_fbink_ot_config T (.map entries)).margins.bottom = v) ∧
        (key_absent atom_bottom sub →
          (map_to_fbink_ot_config T (.map entries)).margins.bottom = 0)) ∧
      ((∀ v : Int, enif_get_map_value (.map sub) atom_left = some (.int v) →
          -32768 ≤ v → v ≤ 32767 →
          (map_to_fbink_ot_config T (.map entries)).margins.left = v) ∧
        (key_absent atom_left sub →
          (map_to_fbink_ot_config T (.map entries)).margins.left = 0)) ∧
      ((∀ v : Int, enif_get_map_value (.map sub) atom_right = some (.int v) →
          -32768 ≤ v → v ≤ 32767 →
          (map_to_fbink_ot_config T (.map entries)).margins.right = v) ∧
        (key_absent atom_right sub →
          (map_to_fbink_ot_config T (.map entries)).margins.right = 0))) := by
  have hget : ∀ (sub : List (Term × Term)) (key : Term) (v : Int),
      enif_get_map_value (.map sub) key = some (.int v) → -32768 ≤ v → v ≤ 32767 →
      cast_short (get_int (.map sub) key 0) = v := by
    intro sub key v hv hlo hhi
    have h1 : INT_MIN ≤ v := by simp only [INT_MIN]; omega
    have h2 : v ≤ INT_MAX := by simp only [INT_MAX]; omega
    have hg : get_int (.map sub) key 0 = v := by
      simp [get_int, hv, enif_get_int, h1, h2]
    rw [hg]
    exact cast_short_of_fits v hlo hhi
  have habs : ∀ (sub : List (Term × Term)) (key : Term), key_absent key sub →
      cast_short (get_int (.map sub) key 0) = 0 := by
    intro sub key hk
    simp [get_int, enif_get_map_value_of_key_absent _ _ hk, cast_short_zero]
  constructor
  · intro h
    simp [map_to_fbink_ot_config, enif_get_map_value_of_key_absent _ _ h,
      FBInkOTConfig.zeroed]
  · intro sub hsub
    have hm : (map_to_fbink_ot_config T (.map entries)).margins
        = { top := cast_short (get_int (.map sub) atom_top 0),
            bottom := cast_short (get_int (.map sub) atom_bottom 0),
            left := cast_short (get_int (.map sub) atom_left 0),
            right := cast_short (get_int (.map sub) atom_right 0) } := by
      simp [map_to_fbink_ot_config, hsub]
    rw [hm]
    exact ⟨⟨fun v hv hlo hhi => hget sub atom_top v hv hlo hhi, habs sub atom_top⟩,
      ⟨fun v hv hlo hhi => hget sub atom_bottom v hv hlo hhi, habs sub atom_bottom⟩,
      ⟨fun v hv hlo hhi => hget sub atom_left v hv hlo hhi, habs sub atom_left⟩,
      ⟨fun v hv hlo hhi => hget sub atom_right v hv hlo hhi, habs sub atom_right⟩⟩

theorem map_to_fbink_ot_config_margins_witness :
    (map_to_fbink_ot_config fbink_h (.map [(atom_size_px, .int 12)])).margins
      = { top := 0, bottom := 0, left := 0, right := 0 } ∧
    (map_to_fbink_ot_config fbink_h (.map [(atom_margins,
        .map [(atom_top, .int 10), (atom_bottom, .int (-20)), (atom_left, .int 30)])])).margins.left
      = 30 ∧
    (map_to_fbink_ot_config fbink_h (.map [(atom_margins,
        .map [(atom_top, .int 10), (atom_bottom, .int (-20)), (atom_left, .int 30)])])).margins.right
      = 0 :=
  ⟨(map_to_fbink_ot_config_margins fbink_h [(atom_size_px, .int 12)]).1
      (by intro value hmem; simp [atom_margins, atom_size_px] at hmem),
    ((map_to_fbink_ot_config_margins fbink_h [(atom_margins,
        .map [(atom_top, .int 10), (atom_bottom, .int (-20)), (atom_left, .int 30)])]).2
      [(atom_top, .int 10), (atom_bottom, .int (-20)), (atom_left, .int 30)]
      (by decide)).2.2.1.1 30 (by decide) (by decide) (by decide),
    ((map_to_fbink_ot_config_margins fbink_h [(atom_margins,
        .map [(atom_top, .int 10), (atom_bottom, .int (-20)), (atom_left, .int 30)])]).2
      [(atom_top, .int 10), (atom_bottom, .int (-20)), (atom_left, .int 30)]
      (by decide)).2.2.2.2
      (by intro value hmem; simp [atom_right, atom_top, atom_bottom, atom_left] at hmem)⟩

/-! ## Map construction lemmas -/

theorem lookup_map_put (key value k : Term) (entries : List (Term × Term)) :
    (map_put key value entries).lookup k
      = if k = key then some value else entries.lookup k := by
  induction entries with
  | nil =>
    by_cases hk : k = key
    · subst hk
      simp [map_put, List.lookup]
    · have hb : (k == key) = false := by simpa using hk
      simp [map_put, List.lookup, hb, hk]
  | cons e rest ih =>
    obtain ⟨k2, v2⟩ := e
    by_cases h2 : k2 = key
    · subst h2
      by_cases hk : k = k2
      · subst hk
        simp [map_put, List.lookup]
      · have hb : (k == k2) = false := by simpa using hk
        simp [map_put, List.lookup, hb, hk]
    · simp only [map_put, h2, if_false, List.lookup]
      rw [ih]
      by_cases hk : k = k2
      · subst hk
        have hne : ¬ (k = key) := h2
        simp [hne]
      · have hb : (k == k2) = false := by simpa using hk
        simp [hb]

theorem map_put_stmt_map (entries : List (Term × Term)) (key value : Term) :
    map_put_stmt (.map entries) key value = .map (map_put key value entries) := rfl

theorem enif_get_map_value_map_put (entries : List (Term × Term)) (key value k : Term) :
    enif_get_map_value (.map (map_put key value entries)) k
      = if k = key then some value else enif_get_map_value (.map entries) k := by
  simp only [enif_get_map_value]
  exact lookup_map_put key value k entries

theorem enif_get_map_value_empty (k : Term) : enif_get_map_value (.map []) k = none := rfl

theorem cast_ushort_of_fits (v : Int) (hlo : 0 ≤ v) (hhi : v ≤ 65535) :
    cast_ushort v = v := by
  simp only [cast_ushort, cast_unsigned]
  norm_num
  omega

theorem get_uint_of_uint (m key : Term) (d v : Int)
    (h : enif_get_map_value m key = some (.int v)) (hlo : 0 ≤ v) (hhi : v ≤ UINT_MAX) :
    get_uint m key d = v := by
  simp [get_uint, h, enif_get_uint, hlo, hhi]

/-- C11: rectangle round trip. For every native rectangle whose four fields are 16-bit
unsigned values, marshalling it to a mapping with `fbink_rect_to_map` and back with
`map_to_fbink_rect` gives the same rectangle: left, top, width and height are
reproduced exactly. -/
theorem rect_round_trip (r : FBInkRect)
    (hl : 0 ≤ r.left ∧ r.left ≤ 65535) (ht : 0 ≤ r.top ∧ r.top ≤ 65535)
    (hw : 0 ≤ r.width ∧ r.width ≤ 65535) (hh : 0 ≤ r.height ∧ r.height ≤ 65535) :
    map_to_fbink_rect (fbink_rect_to_map r) = r := by
  have hmax : ∀ v : Int, v ≤ 65535 → v ≤ UINT_MAX := by
    intro v hv
    simp only [UINT_MAX]
    omega
  have e1 : get_uint (fbink_rect_to_map r) atom_left 0 = r.left :=
    get_uint_of_uint _ _ _ _ (by
      simp [fbink_rect_to_map, enif_make_new_map, map_put_stmt_map,
        enif_get_map_value_map_put, enif_make_uint, atom_left, atom_top, atom_width,
        atom_height]) hl.1 (hmax _ hl.2)
  have e2 : get_uint (fbink_rect_to_map r) atom_top 0 = r.top :=
    get_uint_of_uint _ _ _ _ (by
      simp [fbink_rect_to_map, enif_make_new_map, map_put_stmt_map,
        enif_get_map_value_map_put, enif_make_uint, atom_left, atom_top, atom_width,
        atom_height]) ht.1 (hmax _ ht.2)
  have e3 : get_uint (fbink_rect_to_map r) atom_width 0 = r.width :=
    get_uint_of_uint _ _ _ _ (by
      simp [fbink_rect_to_map, enif_make_new_map, map_put_stmt_map,
        enif_get_map_value_map_put, enif_make_uint, atom_left, atom_top, atom_width,
        atom_height]) hw.1 (hmax _ hw.2)
  have e4 : get_uint (fbink_rect_to_map r) atom_height 0 = r.height :=
    get_uint_of_uint _ _ _ _ (by
      simp [fbink_rect_to_map, enif_make_new_map, map_put_stmt_map,
        enif_get_map_value_map_put, enif_make_uint, atom_left, atom_top, atom_width,
        atom_height]) hh.1 (hmax _ hh.2)
  simp only [map_to_fbink_rect, e1, e2, e3, e4]
  rw [cast_ushort_of_fits _ hl.1 hl.2, cast_ushort_of_fits _ ht.1 ht.2,
    cast_ushort_of_fits _ hw.1 hw.2, cast_ushort_of_fits _ hh.1 hh.2]

theorem rect_round_trip_witness :
    map_to_fbink_rect
        (fbink_rect_to_map { left := 0, top := 65535, width := 600, height := 800 })
      = { left := 0, top := 65535, width := 600, height := 800 } :=
  rect_round_trip { left := 0, top := 65535, width := 600, height := 800 }
    (by decide) (by decide) (by decide) (by decide)

/-! ## State snapshot -/

theorem fbink_state_to_map_rotation_map (s : FBInkState) :
    enif_get_map_value (fbink_state_to_map s) atom_rotation_map
      = some (enif_make_list_from_array
          (List.ofFn (fun i : Fin 4 => enif_make_uint (s.rotation_map i))) 4) := by
  simp [fbink_state_to_map, enif_make_new_map, map_put_stmt_map,
    enif_get_map_value_map_put, enif_get_map_value_empty,
    atom_user_hz, atom_font_name, atom_view_width, atom_view_height, atom_screen_width, atom_screen_height, atom_scanline_stride, atom_bpp, atom_inverted_grayscale, atom_device_name, atom_device_codename, atom_device_platform, atom_device_id, atom_pen_fg_color, atom_pen_bg_color, atom_screen_dpi, atom_font_w, atom_font_h, atom_max_cols, atom_max_rows, atom_view_hori_origin, atom_view_vert_origin, atom_view_vert_offset, atom_fontsize_mult, atom_glyph_width, atom_glyph_height, atom_is_perfect_fit, atom_is_mtk, atom_is_sunxi, atom_sunxi_has_fbdamage, atom_sunxi_force_rota, atom_is_kindle_legacy, atom_is_kobo_non_mt, atom_unreliable_wait_for, atom_can_wake_epdc, atom_ntx_boot_rota, atom_ntx_rota_quirk, atom_rotation_map, atom_touch_swap_axes, atom_touch_mirror_x, atom_touch_mirror_y, atom_is_ntx_quirky_landscape, atom_current_rota, atom_can_rotate, atom_can_hw_invert, atom_has_eclipse_wfm, atom_has_color_panel, atom_pixel_format, atom_can_wait_for_submission]

/-- C13: in the mapping `fbink_state_to_map` produces, the `rotation_map` entry is the
list of exactly four unsigned integers whose element number i is the native
`rotation_map[i]`, for i from 0 to 3, in that order. -/
theorem state_rotation_map_entry (s : FBInkState) :
    enif_get_map_value (fbink_state_to_map s) atom_rotation_map
      = some (.cons (.int (s.rotation_map 0)) (.cons (.int (s.rotation_map 1))
          (.cons (.int (s.rotation_map 2)) (.cons (.int (s.rotation_map 3)) .nil)))) := by
  rw [fbink_state_to_map_rotation_map]
  simp [enif_make_list_from_array, List.ofFn_succ, list_term, enif_make_uint]

/-! ## Argument validation

For each bridged operation: the call is rejected with the bad-argument exception, with no
native call made and the resources as they were, when one of its arguments cannot be
read as the kind expected; and it is not rejected when all of them can. -/

theorem nif_fbink_version_rejects_iff (T : FBInkTypes) (X : FBInkCallTypes) (E : Native) (heap : Heap) :
    ∃ run heap1, Nif.run T X E heap .fbink_version [] = some (run, heap1) ∧
      (all_readable heap [] [] = false → run = enif_make_badarg ∧ heap1 = heap) ∧
      (all_readable heap [] [] = true → run.ret ≠ .badarg) := by
  refine ⟨nif_fbink_version E, heap, rfl, ?_, ?_⟩
  · intro hb
    simp [all_readable, ArgKind.readable] at hb
  · intro hb
    simp only [nif_fbink_version]
    simp

theorem nif_fbink_target_rejects_iff (T : FBInkTypes) (X : FBInkCallTypes) (E : Native) (heap : Heap) :
    ∃ run heap1, Nif.run T X E heap .fbink_target [] = some (run, heap1) ∧
      (all_readable heap [] [] = false → run = enif_make_badarg ∧ heap1 = heap) ∧
      (all_readable heap [] [] = true → run.ret ≠ .badarg) := by
  refine ⟨nif_fbink_target E, heap, rfl, ?_, ?_⟩
  · intro hb
    simp [all_readable, ArgKind.readable] at hb
  · intro hb
    simp only [nif_fbink_target]
    simp

theorem nif_fbink_features_rejects_iff (T : FBInkTypes) (X : FBInkCallTypes) (E : Native) (heap : Heap) :
    ∃ run heap1, Nif.run T X E heap .fbink_features [] = some (run, heap1) ∧
      (all_readable heap [] [] = false → run = enif_make_badarg ∧ heap1 = heap) ∧
      (all_readable heap [] [] = true → run.ret ≠ .badarg) := by
  refine ⟨nif_fbink_features E, heap, rfl, ?_, ?_⟩
  · intro hb
    simp [all_readable, ArgKind.readable] at hb
  · intro hb
    simp only [nif_fbink_features]
    simp

theorem nif_fbink_open_rejects_iff (T : FBInkTypes) (X : FBInkCallTypes) (E : Native) (heap : Heap) :
    ∃ run heap1, Nif.run T X E heap .fbink_open [] = some (run, heap1) ∧
      (all_readable heap [] [] = false → run = enif_make_badarg ∧ heap1 = heap) ∧
      (all_readable heap [] [] = true → run.ret ≠ .badarg) := by
  refine ⟨nif_fbink_open E, heap, rfl, ?_, ?_⟩
  · intro hb
    simp [all_readable, ArgKind.readable] at hb
  · intro hb
    simp only [nif_fbink_open]
    split <;> simp

theorem nif_fbink_close_rejects_iff (T : FBInkTypes) (X : FBInkCallTypes) (E : Native) (heap : Heap)
    (a0 : Term) :
    ∃ run heap1, Nif.run T X E heap .fbink_close [a0] = some (run, heap1) ∧
      (all_readable heap [.int] [a0] = false → run = enif_make_badarg ∧ heap1 = heap) ∧
      (all_readable heap [.int] [a0] = true → run.ret ≠ .badarg) := by
  refine ⟨nif_fbink_close E a0, heap, rfl, ?_, ?_⟩
  · intro hb
    simp [all_readable, ArgKind.readable] at hb
    refine ⟨?_, rfl⟩
    unfold nif_fbink_close
    split <;> simp_all [enif_make_badarg]
  · intro hb
    simp [all_readable, ArgKind.readable, Option.isSome_iff_exists] at hb
    obtain ⟨v0, e0⟩ := hb
    simp only [nif_fbink_close, e0]
    simp

theorem nif_fbink_init_rejects_iff (T : FBInkTypes) (X : FBInkCallTypes) (E : Native) (heap : Heap)
    (a0 a1 : Term) :
    ∃ run heap1, Nif.run T X E heap .fbink_init [a0, a1] = some (run, heap1) ∧
      (all_readable heap [.int, .config] [a0, a1] = false → run = enif_make_badarg ∧ heap1 = heap) ∧
      (all_readable heap [.int, .config] [a0, a1] = true → run.ret ≠ .badarg) := by
  refine ⟨nif_fbink_init T E a0 a1, heap, rfl, ?_, ?_⟩
  · intro hb
    simp [all_readable, ArgKind.readable] at hb
    refine ⟨?_, rfl⟩
    unfold nif_fbink_init
    split <;> simp_all [enif_make_badarg]
  · intro hb
    simp [all_readable, ArgKind.readable, Option.isSome_iff_exists] at hb
    obtain ⟨v0, e0⟩ := hb
    simp only [nif_fbink_init, e0]
    simp

theorem nif_fbink_reinit_rejects_iff (T : FBInkTypes) (X : FBInkCallTypes) (E : Native) (heap : Heap)
    (a0 a1 : Term) :
    ∃ run heap1, Nif.run T X E heap .fbink_reinit [a0, a1] = some (run, heap1) ∧
      (all_readable heap [.int, .config] [a0, a1] = false → run = enif_make_badarg ∧ heap1 = heap) ∧
      (all_readable heap [.int, .config] [a0, a1] = true → run.ret ≠ .badarg) := by
  refine ⟨nif_fbink_reinit T E a0 a1, heap, rfl, ?_, ?_⟩
  · intro hb
    simp [all_readable, ArgKind.readable] at hb
    refine ⟨?_, rfl⟩
    unfold nif_fbink_reinit
    split <;> simp_all [enif_make_badarg]
  · intro hb
    simp [all_readable, ArgKind.readable, Option.isSome_iff_exists] at hb
    obtain ⟨v0, e0⟩ := hb
    simp only [nif_fbink_reinit, e0]
    simp

theorem nif_fbink_get_state_rejects_iff (T : FBInkTypes) (X : FBInkCallTypes) (E : Native) (heap : Heap)
    (a0 : Term) :
    ∃ run heap1, Nif.run T X E heap .fbink_get_state [a0] = some (run, heap1) ∧
      (all_readable heap [.config] [a0] = false → run = enif_make_badarg ∧ heap1 = heap) ∧
      (all_readable heap [.config] [a0] = true → run.ret ≠ .badarg) := by
  refine ⟨nif_fbink_get_state T E a0, heap, rfl, ?_, ?_⟩
  · intro hb
    simp [all_readable, ArgKind.readable] at hb
  · intro hb
    simp only [nif_fbink_get_state]
    simp

theorem nif_fbink_state_dump_rejects_iff (T : FBInkTypes) (X : FBInkCallTypes) (E : Native) (heap : Heap)
    (a0 : Term) :
    ∃ run heap1, Nif.run T X E heap .fbink_state_dump [a0] = some (run, heap1) ∧
      (all_readable heap [.config] [a0] = false → run = enif_make_badarg ∧ heap1 = heap) ∧
      (all_readable heap [.config] [a0] = true → run.ret ≠ .badarg) := by
  refine ⟨nif_fbink_state_dump T a0, heap, rfl, ?_, ?_⟩
  · intro hb
    simp [all_readable, ArgKind.readable] at hb
  · intro hb
    simp only [nif_fbink_state_dump]
    simp

theorem nif_fbink_get_last_rect_rejects_iff (T : FBInkTypes) (X : FBInkCallTypes) (E : Native) (heap : Heap)
    (a0 : Term) :
    ∃ run heap1, Nif.run T X E heap .fbink_get_last_rect [a0] = some (run, heap1) ∧
      (all_readable heap [.int] [a0] = false → run = enif_make_badarg ∧ heap1 = heap) ∧
      (all_readable heap [.int] [a0] = true → run.ret ≠ .badarg) := by
  refine ⟨nif_fbink_get_last_rect E a0, heap, rfl, ?_, ?_⟩
  · intro hb
    simp [all_readable, ArgKind.readable] at hb
    refine ⟨?_, rfl⟩
    unfold nif_fbink_get_last_rect
    split <;> simp_all [enif_make_badarg]
  · intro hb
    simp [all_readable, ArgKind.readable, Option.isSome_iff_exists] at hb
    obtain ⟨v0, e0⟩ := hb
    simp only [nif_fbink_get_last_rect, e0]
    simp

theorem nif_fbink_get_last_marker_rejects_iff (T : FBInkTypes) (X : FBInkCallTypes) (E : Native) (heap : Heap) :
    ∃ run heap1, Nif.run T X E heap .fbink_get_last_marker [] = some (run, heap1) ∧
      (all_readable heap [] [] = false → run = enif_make_badarg ∧ heap1 = heap) ∧
      (all_readable heap [] [] = true → run.ret ≠ .badarg) := by
  refine ⟨nif_fbink_get_last_marker E, heap, rfl, ?_, ?_⟩
  · intro hb
    simp [all_readable, ArgKind.readable] at hb
  · intro hb
    simp only [nif_fbink_get_last_marker]
    simp

theorem nif_fbink_is_fb_quirky_rejects_iff (T : FBInkTypes) (X : FBInkCallTypes) (E : Native) (heap : Heap) :
    ∃ run heap1, Nif.run T X E heap .fbink_is_fb_quirky [] = some (run, heap1) ∧
      (all_readable heap [] [] = false → run = enif_make_badarg ∧ heap1 = heap) ∧
      (all_readable heap [] [] = true → run.ret ≠ .badarg) := by
  refine ⟨nif_fbink_is_fb_quirky E, heap, rfl, ?_, ?_⟩
  · intro hb
    simp [all_readable, ArgKind.readable] at hb
  · intro hb
    simp only [nif_fbink_is_fb_quirky]
    split <;> simp

theorem nif_fbink_update_verbosity_rejects_iff (T : FBInkTypes) (X : FBInkCallTypes) (E : Native) (heap : Heap)
    (a0 : Term) :
    ∃ run heap1, Nif.run T X E heap .fbink_update_verbosity [a0] = some (run, heap1) ∧
      (all_readable heap [.config] [a0] = false → run = enif_make_badarg ∧ heap1 = heap) ∧
      (all_readable heap [.config] [a0] = true → run.ret ≠ .badarg) := by
  refine ⟨nif_fbink_update_verbosity T a0, heap, rfl, ?_, ?_⟩
  · intro hb
    simp [all_readable, ArgKind.readable] at hb
  · intro hb
    simp only [nif_fbink_update_verbosity]
    simp

theorem nif_fbink_update_pen_colors_rejects_iff (T : FBInkTypes) (X : FBInkCallTypes) (E : Native) (heap : Heap)
    (a0 : Term) :
    ∃ run heap1, Nif.run T X E heap .fbink_update_pen_colors [a0] = some (run, heap1) ∧
      (all_readable heap [.config] [a0] = false → run = enif_make_badarg ∧ heap1 = heap) ∧
      (all_readable heap [.config] [a0] = true → run.ret ≠ .badarg) := by
  refine ⟨nif_fbink_update_pen_colors T E a0, heap, rfl, ?_, ?_⟩
  · intro hb
    simp [all_readable, ArgKind.readable] at hb
  · intro hb
    simp only [nif_fbink_update_pen_colors]
    simp

theorem nif_fbink_set_fg_pen_gray_rejects_iff (T : FBInkTypes) (X : FBInkCallTypes) (E : Native) (heap : Heap)
    (a0 a1 a2 : Term) :
    ∃ run heap1, Nif.run T X E heap .fbink_set_fg_pen_gray [a0, a1, a2] = some (run, heap1) ∧
      (all_readable heap [.uint, .int, .int] [a0, a1, a2] = false → run = enif_make_badarg ∧ heap1 = heap) ∧
      (all_readable heap [.uint, .int, .int] [a0, a1, a2] = true → run.ret ≠ .badarg) := by
  refine ⟨nif_fbink_set_fg_pen_gray E a0 a1 a2, heap, rfl, ?_, ?_⟩
  · intro hb
    simp [all_readable, ArgKind.readable] at hb
    refine ⟨?_, rfl⟩
    unfold nif_fbink_set_fg_pen_gray
    split <;> simp_all [enif_make_badarg]
  · intro hb
    simp [all_readable, ArgKind.readable, Option.isSome_iff_exists] at hb
    obtain ⟨⟨v0, e0⟩, ⟨v1, e1⟩, ⟨v2, e2⟩⟩ := hb
    simp only [nif_fbink_set_fg_pen_gray, e0, e1, e2]
    simp

theorem nif_fbink_set_bg_pen_gray_rejects_iff (T : FBInkTypes) (X : FBInkCallTypes) (E : Native) (heap : Heap)
    (a0 a1 a2 : Term) :
    ∃ run heap1, Nif.run T X E heap .fbink_set_bg_pen_gray [a0, a1, a2] = some (run, heap1) ∧
      (all_readable heap [.uint, .int, .int] [a0, a1, a2] = false → run = enif_make_badarg ∧ heap1 = heap) ∧
      (all_readable heap [.uint, .int, .int] [a0, a1, a2] = true → run.ret ≠ .badarg) := by
  refine ⟨nif_fbink_set_bg_pen_gray E a0 a1 a2, heap, rfl, ?_, ?_⟩
  · intro hb
    simp [all_readable, ArgKind.readable] at hb
    refine ⟨?_, rfl⟩
    unfold nif_fbink_set_bg_pen_gray
    split <;> simp_all [enif_make_badarg]
  · intro hb
    simp [all_readable, ArgKind.readable, Option.isSome_iff_exists] at hb
    obtain ⟨⟨v0, e0⟩, ⟨v1, e1⟩, ⟨v2, e2⟩⟩ := hb
    simp only [nif_fbink_set_bg_pen_gray, e0, e1, e2]
    simp

theorem nif_fbink_set_fg_pen_rgba_rejects_iff (T : FBInkTypes) (X : FBInkCallTypes) (E : Native) (heap : Heap)
    (a0 a1 a2 a3 a4 a5 : Term) :
    ∃ run heap1, Nif.run T X E heap .fbink_set_fg_pen_rgba [a0, a1, a2, a3, a4, a5] = some (run, heap1) ∧
      (all_readable heap [.uint, .uint, .uint, .uint, .int, .int] [a0, a1, a2, a3, a4, a5] = false → run = enif_make_badarg ∧ heap1 = heap) ∧
      (all_readable heap [.uint, .uint, .uint, .uint, .int, .int] [a0, a1, a2, a3, a4, a5] = true → run.ret ≠ .badarg) := by
  refine ⟨nif_fbink_set_fg_pen_rgba E a0 a1 a2 a3 a4 a5, heap, rfl, ?_, ?_⟩
  · intro hb
    simp [all_readable, ArgKind.readable] at hb
    refine ⟨?_, rfl⟩
    unfold nif_fbink_set_fg_pen_rgba
    split <;> simp_all [enif_make_badarg]
  · intro hb
    simp [all_readable, ArgKind.readable, Option.isSome_iff_exists] at hb
    obtain ⟨⟨v0, e0⟩, ⟨v1, e1⟩, ⟨v2, e2⟩, ⟨v3, e3⟩, ⟨v4, e4⟩, ⟨v5, e5⟩⟩ := hb
    simp only [nif_fbink_set_fg_pen_rgba, e0, e1, e2, e3, e4, e5]
    simp

theorem nif_fbink_set_bg_pen_rgba_rejects_iff (T : FBInkTypes) (X : FBInkCallTypes) (E : Native) (heap : Heap)
    (a0 a1 a2 a3 a4 a5 : Term) :
    ∃ run heap1, Nif.run T X E heap .fbink_set_bg_pen_rgba [a0, a1, a2, a3, a4, a5] = some (run, heap1) ∧
      (all_readable heap [.uint, .uint, .uint, .uint, .int, .int] [a0, a1, a2, a3, a4, a5] = false → run = enif_make_badarg ∧ heap1 = heap) ∧
      (all_readable heap [.uint, .uint, .uint, .uint, .int, .int] [a0, a1, a2, a3, a4, a5] = true → run.ret ≠ .badarg) := by
  refine ⟨nif_fbink_set_bg_pen_rgba E a0 a1 a2 a3 a4 a5, heap, rfl, ?_, ?_⟩
  · intro hb
    simp [all_readable, ArgKind.readable] at hb
    refine ⟨?_, rfl⟩
    unfold nif_fbink_set_bg_pen_rgba
    split <;> simp_all [enif_make_badarg]
  · intro hb
    simp [all_readable, ArgKind.readable, Option.isSome_iff_exists] at hb
    obtain ⟨⟨v0, e0⟩, ⟨v1, e1⟩, ⟨v2, e2⟩, ⟨v3, e3⟩, ⟨v4, e4⟩, ⟨v5, e5⟩⟩ := hb
    simp only [nif_fbink_set_bg_pen_rgba, e0, e1, e2, e3, e4, e5]
    simp

theorem nif_fbink_print_rejects_iff (T : FBInkTypes) (X : FBInkCallTypes) (E : Native) (heap : Heap)
    (a0 a1 a2 : Term) :
    ∃ run heap1, Nif.run T X E heap .fbink_print [a0, a1, a2] = some (run, heap1) ∧
      (all_readable heap [.int, .text, .config] [a0, a1, a2] = false → run = enif_make_badarg ∧ heap1 = heap) ∧
      (all_readable heap [.int, .text, .config] [a0, a1, a2] = true → run.ret ≠ .badarg) := by
  refine ⟨nif_fbink_print T E a0 a1 a2, heap, rfl, ?_, ?_⟩
  · intro hb
    simp [all_readable, ArgKind.readable] at hb
    refine ⟨?_, rfl⟩
    unfold nif_fbink_print
    split <;> simp_all [enif_make_badarg]
  · intro hb
    simp [all_readable, ArgKind.readable, Option.isSome_iff_exists] at hb
    obtain ⟨⟨v0, e0⟩, ⟨v1, e1⟩⟩ := hb
    simp only [nif_fbink_print, e0, e1]
    split <;> simp

theorem nif_fbink_add_ot_font_rejects_iff (T : FBInkTypes) (X : FBInkCallTypes) (E : Native) (heap : Heap)
    (a0 a1 : Term) :
    ∃ run heap1, Nif.run T X E heap .fbink_add_ot_font [a0, a1] = some (run, heap1) ∧
      (all_readable heap [.path, .int] [a0, a1] = false → run = enif_make_badarg ∧ heap1 = heap) ∧
      (all_readable heap [.path, .int] [a0, a1] = true → run.ret ≠ .badarg) := by
  refine ⟨nif_fbink_add_ot_font T E a0 a1, heap, rfl, ?_, ?_⟩
  all_goals
    intro hb
    simp only [all_readable, nif_fbink_add_ot_font] at hb ⊢
    generalize hg : (if (enif_get_string a0 4096).1 ≤ 0 then _ else _ : Option (List Nat)) = file
    have hfile : file = none ↔ ArgKind.readable heap .path a0 = false := by
      rw [← hg]
      simp only [ArgKind.readable]
      by_cases hs : (enif_get_string a0 4096).1 ≤ 0
      · have hs2 : ¬ (0 < (enif_get_string a0 4096).1) := not_lt.mpr hs
        cases hi : enif_inspect_iolist_as_binary a0 with
        | none => simp [hs, hs2]
        | some bin =>
          by_cases hl : bin.length ≥ 4096
          · have hl2 : ¬ (bin.length < 4096) := not_lt.mpr hl
            simp [hs, hs2, hl, hl2]
          · have hl2 : bin.length < 4096 := not_le.mp hl
            simp [hs, hs2, hl2]
      · have hs2 : 0 < (enif_get_string a0 4096).1 := not_le.mp hs
        simp [hs, hs2]
    cases file  <;> cases h1 : enif_get_int a1 <;>
      simp_all [ArgKind.readable, enif_make_badarg] <;> omega

theorem nif_fbink_free_ot_fonts_rejects_iff (T : FBInkTypes) (X : FBInkCallTypes) (E : Native) (heap : Heap) :
    ∃ run heap1, Nif.run T X E heap .fbink_free_ot_fonts [] = some (run, heap1) ∧
      (all_readable heap [] [] = false → run = enif_make_badarg ∧ heap1 = heap) ∧
      (all_readable heap [] [] = true → run.ret ≠ .badarg) := by
  refine ⟨nif_fbink_free_ot_fonts E, heap, rfl, ?_, ?_⟩
  · intro hb
    simp [all_readable, ArgKind.readable] at hb
  · intro hb
    simp only [nif_fbink_free_ot_fonts]
    simp

theorem nif_fbink_print_ot_rejects_iff (T : FBInkTypes) (X : FBInkCallTypes) (E : Native) (heap : Heap)
    (a0 a1 a2 a3 : Term) :
    ∃ run heap1, Nif.run T X E heap .fbink_print_ot [a0, a1, a2, a3] = some (run, heap1) ∧
      (all_readable heap [.int, .text, .ot_config, .config] [a0, a1, a2, a3] = false → run = enif_make_badarg ∧ heap1 = heap) ∧
      (all_readable heap [.int, .text, .ot_config, .config] [a0, a1, a2, a3] = true → run.ret ≠ .badarg) := by
  refine ⟨nif_fbink_print_ot T E a0 a1 a2 a3, heap, rfl, ?_, ?_⟩
  · intro hb
    simp [all_readable, ArgKind.readable] at hb
    refine ⟨?_, rfl⟩
    unfold nif_fbink_print_ot
    split <;> simp_all [enif_make_badarg]
  · intro hb
    simp [all_readable, ArgKind.readable, Option.isSome_iff_exists] at hb
    obtain ⟨⟨v0, e0⟩, ⟨v1, e1⟩⟩ := hb
    simp only [nif_fbink_print_ot, e0, e1]
    repeat' split
    all_goals simp_all [enif_make_badarg]

theorem nif_fbink_print_progress_bar_rejects_iff (T : FBInkTypes) (X : FBInkCallTypes) (E : Native) (heap : Heap)
    (a0 a1 a2 : Term) :
    ∃ run heap1, Nif.run T X E heap .fbink_print_progress_bar [a0, a1, a2] = some (run, heap1) ∧
      (all_readable heap [.int, .uint, .config] [a0, a1, a2] = false → run = enif_make_badarg ∧ heap1 = heap) ∧
      (all_readable heap [.int, .uint, .config] [a0, a1, a2] = true → run.ret ≠ .badarg) := by
  refine ⟨nif_fbink_print_progress_bar T E a0 a1 a2, heap, rfl, ?_, ?_⟩
  · intro hb
    simp [all_readable, ArgKind.readable] at hb
    refine ⟨?_, rfl⟩
    unfold nif_fbink_print_progress_bar
    split <;> simp_all [enif_make_badarg]
  · intro hb
    simp [all_readable, ArgKind.readable, Option.isSome_iff_exists] at hb
    obtain ⟨⟨v0, e0⟩, ⟨v1, e1⟩⟩ := hb
    simp only [nif_fbink_print_progress_bar, e0, e1]
    simp

theorem nif_fbink_print_activity_bar_rejects_iff (T : FBInkTypes) (X : FBInkCallTypes) (E : Native) (heap : Heap)
    (a0 a1 a2 : Term) :
    ∃ run heap1, Nif.run T X E heap .fbink_print_activity_bar [a0, a1, a2] = some (run, heap1) ∧
      (all_readable heap [.int, .uint, .config] [a0, a1, a2] = false → run = enif_make_badarg ∧ heap1 = heap) ∧
      (all_readable heap [.int, .uint, .config] [a0, a1, a2] = true → run.ret ≠ .badarg) := by
  refine ⟨nif_fbink_print_activity_bar T E a0 a1 a2, heap, rfl, ?_, ?_⟩
  · intro hb
    simp [all_readable, ArgKind.readable] at hb
    refine ⟨?_, rfl⟩
    unfold nif_fbink_print_activity_bar
    split <;> simp_all [enif_make_badarg]
  · intro hb
    simp [all_readable, ArgKind.readable, Option.isSome_iff_exists] at hb
    obtain ⟨⟨v0, e0⟩, ⟨v1, e1⟩⟩ := hb
    simp only [nif_fbink_print_activity_bar, e0, e1]
    simp

theorem nif_fbink_print_image_rejects_iff (T : FBInkTypes) (X : FBInkCallTypes) (E : Native) (heap : Heap)
    (a0 a1 a2 a3 a4 : Term) :
    ∃ run heap1, Nif.run T X E heap .fbink_print_image [a0, a1, a2, a3, a4] = some (run, heap1) ∧
      (all_readable heap [.int, .path, .int, .int, .config] [a0, a1, a2, a3, a4] = false → run = enif_make_badarg ∧ heap1 = heap) ∧
      (all_readable heap [.int, .path, .int, .int, .config] [a0, a1, a2, a3, a4] = true → run.ret ≠ .badarg) := by
  refine ⟨nif_fbink_print_image T E a0 a1 a2 a3 a4, heap, rfl, ?_, ?_⟩
  all_goals
    intro hb
    simp only [all_readable, nif_fbink_print_image] at hb ⊢
    cases h0 : enif_get_int a0 with
    | none => simp_all [ArgKind.readable, enif_make_badarg]
    | some fbfd =>
      simp only []
      generalize hg : (if (enif_get_string a1 4096).1 ≤ 0 then _ else _ : Option (List Nat)) = file
      have hfile : file = none ↔ ArgKind.readable heap .path a1 = false := by
        rw [← hg]
        simp only [ArgKind.readable]
        by_cases hs : (enif_get_string a1 4096).1 ≤ 0
        · have hs2 : ¬ (0 < (enif_get_string a1 4096).1) := not_lt.mpr hs
          cases hi : enif_inspect_iolist_as_binary a1 with
          | none => simp [hs, hs2]
          | some bin =>
            by_cases hl : bin.length ≥ 4096
            · have hl2 : ¬ (bin.length < 4096) := not_lt.mpr hl
              simp [hs, hs2, hl, hl2]
            · have hl2 : bin.length < 4096 := not_le.mp hl
              simp [hs, hs2, hl2]
        · have hs2 : 0 < (enif_get_string a1 4096).1 := not_le.mp hs
          simp [hs, hs2]
      clear hg
      cases hp : ArgKind.readable heap .path a1 <;> cases file <;> simp_all
      all_goals
        cases h2 : enif_get_int a2 <;> cases h3 : enif_get_int a3 <;>
          simp_all [ArgKind.readable, enif_make_badarg]

theorem nif_fbink_print_raw_data_rejects_iff (T : FBInkTypes) (X : FBInkCallTypes) (E : Native) (heap : Heap)
    (a0 a1 a2 a3 a4 a5 a6 : Term) :
    ∃ run heap1, Nif.run T X E heap .fbink_print_raw_data [a0, a1, a2, a3, a4, a5, a6] = some (run, heap1) ∧
      (all_readable heap [.int, .binary, .int, .int, .int, .int, .config] [a0, a1, a2, a3, a4, a5, a6] = false → run = enif_make_badarg ∧ heap1 = heap) ∧
      (all_readable heap [.int, .binary, .int, .int, .int, .int, .config] [a0, a1, a2, a3, a4, a5, a6] = true → run.ret ≠ .badarg) := by
  refine ⟨nif_fbink_print_raw_data T E a0 a1 a2 a3 a4 a5 a6, heap, rfl, ?_, ?_⟩
  · intro hb
    simp [all_readable, ArgKind.readable] at hb
    refine ⟨?_, rfl⟩
    unfold nif_fbink_print_raw_data
    repeat' split
    all_goals simp_all [enif_make_badarg]
  · intro hb
    simp [all_readable, ArgKind.readable, Option.isSome_iff_exists] at hb
    obtain ⟨⟨v0, e0⟩, ⟨v1, e1⟩, ⟨v2, e2⟩, ⟨v3, e3⟩, ⟨v4, e4⟩, ⟨v5, e5⟩⟩ := hb
    simp only [nif_fbink_print_raw_data, e0, e1, e2, e3, e4, e5]
    simp

theorem nif_fbink_cls_rejects_iff (T : FBInkTypes) (X : FBInkCallTypes) (E : Native) (heap : Heap)
    (a0 a1 a2 a3 : Term) :
    ∃ run heap1, Nif.run T X E heap .fbink_cls [a0, a1, a2, a3] = some (run, heap1) ∧
      (all_readable heap [.int, .config, .optional_rect, .int] [a0, a1, a2, a3] = false → run = enif_make_badarg ∧ heap1 = heap) ∧
      (all_readable heap [.int, .config, .optional_rect, .int] [a0, a1, a2, a3] = true → run.ret ≠ .badarg) := by
  refine ⟨nif_fbink_cls T E a0 a1 a2 a3, heap, rfl, ?_, ?_⟩
  · intro hb
    simp [all_readable, ArgKind.readable] at hb
    refine ⟨?_, rfl⟩
    unfold nif_fbink_cls
    split <;> simp_all [enif_make_badarg]
  · intro hb
    simp [all_readable, ArgKind.readable, Option.isSome_iff_exists] at hb
    obtain ⟨⟨v0, e0⟩, ⟨v3, e3⟩⟩ := hb
    simp only [nif_fbink_cls, e0, e3]
    simp

theorem nif_fbink_grid_clear_rejects_iff (T : FBInkTypes) (X : FBInkCallTypes) (E : Native) (heap : Heap)
    (a0 a1 a2 a3 : Term) :
    ∃ run heap1, Nif.run T X E heap .fbink_grid_clear [a0, a1, a2, a3] = some (run, heap1) ∧
      (all_readable heap [.int, .uint, .uint, .config] [a0, a1, a2, a3] = false → run = enif_make_badarg ∧ heap1 = heap) ∧
      (all_readable heap [.int, .uint, .uint, .config] [a0, a1, a2, a3] = true → run.ret ≠ .badarg) := by
  refine ⟨nif_fbink_grid_clear T E a0 a1 a2 a3, heap, rfl, ?_, ?_⟩
  · intro hb
    simp [all_readable, ArgKind.readable] at hb
    refine ⟨?_, rfl⟩
    unfold nif_fbink_grid_clear
    split <;> simp_all [enif_make_badarg]
  · intro hb
    simp [all_readable, ArgKind.readable, Option.isSome_iff_exists] at hb
    obtain ⟨⟨v0, e0⟩, ⟨v1, e1⟩, ⟨v2, e2⟩⟩ := hb
    simp only [nif_fbink_grid_clear, e0, e1, e2]
    simp

theorem nif_fbink_refresh_rejects_iff (T : FBInkTypes) (X : FBInkCallTypes) (E : Native) (heap : Heap)
    (a0 a1 a2 a3 a4 a5 : Term) :
    ∃ run heap1, Nif.run T X E heap .fbink_refresh [a0, a1, a2, a3, a4, a5] = some (run, heap1) ∧
      (all_readable heap [.int, .uint, .uint, .uint, .uint, .config] [a0, a1, a2, a3, a4, a5] = false → run = enif_make_badarg ∧ heap1 = heap) ∧
      (all_readable heap [.int, .uint, .uint, .uint, .uint, .config] [a0, a1, a2, a3, a4, a5] = true → run.ret ≠ .badarg) := by
  refine ⟨nif_fbink_refresh T E a0 a1 a2 a3 a4 a5, heap, rfl, ?_, ?_⟩
  · intro hb
    simp [all_readable, ArgKind.readable] at hb
    refine ⟨?_, rfl⟩
    unfold nif_fbink_refresh
    split <;> simp_all [enif_make_badarg]
  · intro hb
    simp [all_readable, ArgKind.readable, Option.isSome_iff_exists] at hb
    obtain ⟨⟨v0, e0⟩, ⟨v1, e1⟩, ⟨v2, e2⟩, ⟨v3, e3⟩, ⟨v4, e4⟩⟩ := hb
    simp only [nif_fbink_refresh, e0, e1, e2, e3, e4]
    simp

theorem nif_fbink_refresh_rect_rejects_iff (T : FBInkTypes) (X : FBInkCallTypes) (E : Native) (heap : Heap)
    (a0 a1 a2 : Term) :
    ∃ run heap1, Nif.run T X E heap .fbink_refresh_rect [a0, a1, a2] = some (run, heap1) ∧
      (all_readable heap [.int, .rect, .config] [a0, a1, a2] = false → run = enif_make_badarg ∧ heap1 = heap) ∧
      (all_readable heap [.int, .rect, .config] [a0, a1, a2] = true → run.ret ≠ .badarg) := by
  refine ⟨nif_fbink_refresh_rect T E a0 a1 a2, heap, rfl, ?_, ?_⟩
  · intro hb
    simp [all_readable, ArgKind.readable] at hb
    refine ⟨?_, rfl⟩
    unfold nif_fbink_refresh_rect
    split <;> simp_all [enif_make_badarg]
  · intro hb
    simp [all_readable, ArgKind.readable, Option.isSome_iff_exists] at hb
    obtain ⟨v0, e0⟩ := hb
    simp only [nif_fbink_refresh_rect, e0]
    simp

theorem nif_fbink_grid_refresh_rejects_iff (T : FBInkTypes) (X : FBInkCallTypes) (E : Native) (heap : Heap)
    (a0 a1 a2 a3 : Term) :
    ∃ run heap1, Nif.run T X E heap .fbink_grid_refresh [a0, a1, a2, a3] = some (run, heap1) ∧
      (all_readable heap [.int, .uint, .uint, .config] [a0, a1, a2, a3] = false → run = enif_make_badarg ∧ heap1 = heap) ∧
      (all_readable heap [.int, .uint, .uint, .config] [a0, a1, a2, a3] = true → run.ret ≠ .badarg) := by
  refine ⟨nif_fbink_grid_refresh T E a0 a1 a2 a3, heap, rfl, ?_, ?_⟩
  · intro hb
    simp [all_readable, ArgKind.readable] at hb
    refine ⟨?_, rfl⟩
    unfold nif_fbink_grid_refresh
    split <;> simp_all [enif_make_badarg]
  · intro hb
    simp [all_readable, ArgKind.readable, Option.isSome_iff_exists] at hb
    obtain ⟨⟨v0, e0⟩, ⟨v1, e1⟩, ⟨v2, e2⟩⟩ := hb
    simp only [nif_fbink_grid_refresh, e0, e1, e2]
    simp

theorem nif_fbink_wait_for_submission_rejects_iff (T : FBInkTypes) (X : FBInkCallTypes) (E : Native) (heap : Heap)
    (a0 a1 : Term) :
    ∃ run heap1, Nif.run T X E heap .fbink_wait_for_submission [a0, a1] = some (run, heap1) ∧
      (all_readable heap [.int, .uint] [a0, a1] = false → run = enif_make_badarg ∧ heap1 = heap) ∧
      (all_readable heap [.int, .uint] [a0, a1] = true → run.ret ≠ .badarg) := by
  refine ⟨nif_fbink_wait_for_submission E a0 a1, heap, rfl, ?_, ?_⟩
  · intro hb
    simp [all_readable, ArgKind.readable] at hb
    refine ⟨?_, rfl⟩
    unfold nif_fbink_wait_for_submission
    split <;> simp_all [enif_make_badarg]
  · intro hb
    simp [all_readable, ArgKind.readable, Option.isSome_iff_exists] at hb
    obtain ⟨⟨v0, e0⟩, ⟨v1, e1⟩⟩ := hb
    simp only [nif_fbink_wait_for_submission, e0, e1]
    simp

theorem nif_fbink_wait_for_complete_rejects_iff (T : FBInkTypes) (X : FBInkCallTypes) (E : Native) (heap : Heap)
    (a0 a1 : Term) :
    ∃ run heap1, Nif.run T X E heap .fbink_wait_for_complete [a0, a1] = some (run, heap1) ∧
      (all_readable heap [.int, .uint] [a0, a1] = false → run = enif_make_badarg ∧ heap1 = heap) ∧
      (all_readable heap [.int, .uint] [a0, a1] = true → run.ret ≠ .badarg) := by
  refine ⟨nif_fbink_wait_for_complete E a0 a1, heap, rfl, ?_, ?_⟩
  · intro hb
    simp [all_readable, ArgKind.readable] at hb
    refine ⟨?_, rfl⟩
    unfold nif_fbink_wait_for_complete
    split <;> simp_all [enif_make_badarg]
  · intro hb
    simp [all_readable, ArgKind.readable, Option.isSome_iff_exists] at hb
    obtain ⟨⟨v0, e0⟩, ⟨v1, e1⟩⟩ := hb
    simp only [nif_fbink_wait_for_complete, e0, e1]
    simp

theorem nif_fbink_wait_for_any_complete_rejects_iff (T : FBInkTypes) (X : FBInkCallTypes) (E : Native) (heap : Heap)
    (a0 : Term) :
    ∃ run heap1, Nif.run T X E heap .fbink_wait_for_any_complete [a0] = some (run, heap1) ∧
      (all_readable heap [.int] [a0] = false → run = enif_make_badarg ∧ heap1 = heap) ∧
      (all_readable heap [.int] [a0] = true → run.ret ≠ .badarg) := by
  refine ⟨nif_fbink_wait_for_any_complete E a0, heap, rfl, ?_, ?_⟩
  · intro hb
    simp [all_readable, ArgKind.readable] at hb
    refine ⟨?_, rfl⟩
    unfold nif_fbink_wait_for_any_complete
    split <;> simp_all [enif_make_badarg]
  · intro hb
    simp [all_readable, ArgKind.readable, Option.isSome_iff_exists] at hb
    obtain ⟨v0, e0⟩ := hb
    simp only [nif_fbink_wait_for_any_complete, e0]
    simp

theorem nif_fbink_dump_rejects_iff (T : FBInkTypes) (X : FBInkCallTypes) (E : Native) (heap : Heap)
    (a0 : Term) :
    ∃ run heap1, Nif.run T X E heap .fbink_dump [a0] = some (run, heap1) ∧
      (all_readable heap [.int] [a0] = false → run = enif_make_badarg ∧ heap1 = heap) ∧
      (all_readable heap [.int] [a0] = true → run.ret ≠ .badarg) := by
  refine ⟨(nif_fbink_dump E heap a0).1, (nif_fbink_dump E heap a0).2, rfl, ?_, ?_⟩
  · intro hb
    simp [all_readable, ArgKind.readable] at hb
    unfold nif_fbink_dump
    split <;> simp_all [enif_make_badarg]
  · intro hb
    simp [all_readable, ArgKind.readable, Option.isSome_iff_exists] at hb
    obtain ⟨v0, e0⟩ := hb
    simp only [nif_fbink_dump, e0]
    repeat' split
    all_goals simp_all [enif_make_badarg]

theorem nif_fbink_region_dump_rejects_iff (T : FBInkTypes) (X : FBInkCallTypes) (E : Native) (heap : Heap)
    (a0 a1 a2 a3 a4 a5 : Term) :
    ∃ run heap1, Nif.run T X E heap .fbink_region_dump [a0, a1, a2, a3, a4, a5] = some (run, heap1) ∧
      (all_readable heap [.int, .int, .int, .uint, .uint, .config] [a0, a1, a2, a3, a4, a5] = false → run = enif_make_badarg ∧ heap1 = heap) ∧
      (all_readable heap [.int, .int, .int, .uint, .uint, .config] [a0, a1, a2, a3, a4, a5] = true → run.ret ≠ .badarg) := by
  refine ⟨(nif_fbink_region_dump T E heap a0 a1 a2 a3 a4 a5).1, (nif_fbink_region_dump T E heap a0 a1 a2 a3 a4 a5).2, rfl, ?_, ?_⟩
  · intro hb
    simp [all_readable, ArgKind.readable] at hb
    unfold nif_fbink_region_dump
    split <;> simp_all [enif_make_badarg]
  · intro hb
    simp [all_readable, ArgKind.readable, Option.isSome_iff_exists] at hb
    obtain ⟨⟨v0, e0⟩, ⟨v1, e1⟩, ⟨v2, e2⟩, ⟨v3, e3⟩, ⟨v4, e4⟩⟩ := hb
    simp only [nif_fbink_region_dump, e0, e1, e2, e3, e4]
    repeat' split
    all_goals simp_all [enif_make_badarg]

theorem nif_fbink_rect_dump_rejects_iff (T : FBInkTypes) (X : FBInkCallTypes) (E : Native) (heap : Heap)
    (a0 a1 : Term) :
    ∃ run heap1, Nif.run T X E heap .fbink_rect_dump [a0, a1] = some (run, heap1) ∧
      (all_readable heap [.int, .rect] [a0, a1] = false → run = enif_make_badarg ∧ heap1 = heap) ∧
      (all_readable heap [.int, .rect] [a0, a1] = true → run.ret ≠ .badarg) := by
  refine ⟨(nif_fbink_rect_dump E heap a0 a1).1, (nif_fbink_rect_dump E heap a0 a1).2, rfl, ?_, ?_⟩
  · intro hb
    simp [all_readable, ArgKind.readable] at hb
    unfold nif_fbink_rect_dump
    split <;> simp_all [enif_make_badarg]
  · intro hb
    simp [all_readable, ArgKind.readable, Option.isSome_iff_exists] at hb
    obtain ⟨v0, e0⟩ := hb
    simp only [nif_fbink_rect_dump, e0]
    repeat' split
    all_goals simp_all [enif_make_badarg]

theorem nif_fbink_restore_rejects_iff (T : FBInkTypes) (X : FBInkCallTypes) (E : Native) (heap : Heap)
    (a0 a1 a2 : Term) :
    ∃ run heap1, Nif.run T X E heap .fbink_restore [a0, a1, a2] = some (run, heap1) ∧
      (all_readable heap [.int, .config, .dump_resource] [a0, a1, a2] = false → run = enif_make_badarg ∧ heap1 = heap) ∧
      (all_readable heap [.int, .config, .dump_resource] [a0, a1, a2] = true → run.ret ≠ .badarg) := by
  refine ⟨(nif_fbink_restore T E heap a0 a1 a2).1, (nif_fbink_restore T E heap a0 a1 a2).2, rfl, ?_, ?_⟩
  · intro hb
    simp [all_readable, ArgKind.readable] at hb
    unfold nif_fbink_restore
    split <;> simp_all [enif_make_badarg]
  · intro hb
    simp [all_readable, ArgKind.readable, Option.isSome_iff_exists] at hb
    obtain ⟨⟨v0, e0⟩, ⟨v2, r2, e2⟩⟩ := hb
    simp only [nif_fbink_restore, e0, e2]
    simp

theorem nif_fbink_free_dump_data_rejects_iff (T : FBInkTypes) (X : FBInkCallTypes) (E : Native) (heap : Heap)
    (a0 : Term) :
    ∃ run heap1, Nif.run T X E heap .fbink_free_dump_data [a0] = some (run, heap1) ∧
      (all_readable heap [.dump_resource] [a0] = false → run = enif_make_badarg ∧ heap1 = heap) ∧
      (all_readable heap [.dump_resource] [a0] = true → run.ret ≠ .badarg) := by
  refine ⟨(nif_fbink_free_dump_data heap a0).1, (nif_fbink_free_dump_data heap a0).2, rfl, ?_, ?_⟩
  · intro hb
    simp [all_readable, ArgKind.readable] at hb
    unfold nif_fbink_free_dump_data
    split <;> simp_all [enif_make_badarg]
  · intro hb
    simp [all_readable, ArgKind.readable, Option.isSome_iff_exists] at hb
    obtain ⟨v0, r0, e0⟩ := hb
    simp only [nif_fbink_free_dump_data, e0]
    simp

theorem nif_fbink_get_dump_data_rejects_iff (T : FBInkTypes) (X : FBInkCallTypes) (E : Native) (heap : Heap)
    (a0 : Term) :
    ∃ run heap1, Nif.run T X E heap .fbink_get_dump_data [a0] = some (run, heap1) ∧
      (all_readable heap [.dump_resource] [a0] = false → run = enif_make_badarg ∧ heap1 = heap) ∧
      (all_readable heap [.dump_resource] [a0] = true → run.ret ≠ .badarg) := by
  refine ⟨(nif_fbink_get_dump_data heap a0).1, (nif_fbink_get_dump_data heap a0).2, rfl, ?_, ?_⟩
  · intro hb
    simp [all_readable, ArgKind.readable] at hb
    unfold nif_fbink_get_dump_data
    split <;> simp_all [enif_make_badarg]
  · intro hb
    simp [all_readable, ArgKind.readable, Option.isSome_iff_exists] at hb
    obtain ⟨v0, r0, e0⟩ := hb
    simp only [nif_fbink_get_dump_data, e0]
    repeat' split
    all_goals simp_all [enif_make_badarg]

theorem nif_fbink_invert_screen_rejects_iff (T : FBInkTypes) (X : FBInkCallTypes) (E : Native) (heap : Heap)
    (a0 a1 : Term) :
    ∃ run heap1, Nif.run T X E heap .fbink_invert_screen [a0, a1] = some (run, heap1) ∧
      (all_readable heap [.int, .config] [a0, a1] = false → run = enif_make_badarg ∧ heap1 = heap) ∧
      (all_readable heap [.int, .config] [a0, a1] = true → run.ret ≠ .badarg) := by
  refine ⟨nif_fbink_invert_screen T E a0 a1, heap, rfl, ?_, ?_⟩
  · intro hb
    simp [all_readable, ArgKind.readable] at hb
    refine ⟨?_, rfl⟩
    unfold nif_fbink_invert_screen
    split <;> simp_all [enif_make_badarg]
  · intro hb
    simp [all_readable, ArgKind.readable, Option.isSome_iff_exists] at hb
    obtain ⟨v0, e0⟩ := hb
    simp only [nif_fbink_invert_screen, e0]
    simp

theorem nif_fbink_invert_rect_rejects_iff (T : FBInkTypes) (X : FBInkCallTypes) (E : Native) (heap : Heap)
    (a0 a1 a2 : Term) :
    ∃ run heap1, Nif.run T X E heap .fbink_invert_rect [a0, a1, a2] = some (run, heap1) ∧
      (all_readable heap [.int, .rect, .int] [a0, a1, a2] = false → run = enif_make_badarg ∧ heap1 = heap) ∧
      (all_readable heap [.int, .rect, .int] [a0, a1, a2] = true → run.ret ≠ .badarg) := by
  refine ⟨nif_fbink_invert_rect E a0 a1 a2, heap, rfl, ?_, ?_⟩
  · intro hb
    simp [all_readable, ArgKind.readable] at hb
    refine ⟨?_, rfl⟩
    unfold nif_fbink_invert_rect
    split <;> simp_all [enif_make_badarg]
  · intro hb
    simp [all_readable, ArgKind.readable, Option.isSome_iff_exists] at hb
    obtain ⟨⟨v0, e0⟩, ⟨v2, e2⟩⟩ := hb
    simp only [nif_fbink_invert_rect, e0, e2]
    simp

theorem nif_fbink_rota_native_to_canonical_rejects_iff (T : FBInkTypes) (X : FBInkCallTypes) (E : Native) (heap : Heap)
    (a0 : Term) :
    ∃ run heap1, Nif.run T X E heap .fbink_rota_native_to_canonical [a0] = some (run, heap1) ∧
      (all_readable heap [.uint] [a0] = false → run = enif_make_badarg ∧ heap1 = heap) ∧
      (all_readable heap [.uint] [a0] = true → run.ret ≠ .badarg) := by
  refine ⟨nif_fbink_rota_native_to_canonical E a0, heap, rfl, ?_, ?_⟩
  · intro hb
    simp [all_readable, ArgKind.readable] at hb
    refine ⟨?_, rfl⟩
    unfold nif_fbink_rota_native_to_canonical
    split <;> simp_all [enif_make_badarg]
  · intro hb
    simp [all_readable, ArgKind.readable, Option.isSome_iff_exists] at hb
    obtain ⟨v0, e0⟩ := hb
    simp only [nif_fbink_rota_native_to_canonical, e0]
    simp

theorem nif_fbink_rota_canonical_to_native_rejects_iff (T : FBInkTypes) (X : FBInkCallTypes) (E : Native) (heap : Heap)
    (a0 : Term) :
    ∃ run heap1, Nif.run T X E heap .fbink_rota_canonical_to_native [a0] = some (run, heap1) ∧
      (all_readable heap [.uint] [a0] = false → run = enif_make_badarg ∧ heap1 = heap) ∧
      (all_readable heap [.uint] [a0] = true → run.ret ≠ .badarg) := by
  refine ⟨nif_fbink_rota_canonical_to_native E a0, heap, rfl, ?_, ?_⟩
  · intro hb
    simp [all_readable, ArgKind.readable] at hb
    refine ⟨?_, rfl⟩
    unfold nif_fbink_rota_canonical_to_native
    split <;> simp_all [enif_make_badarg]
  · intro hb
    simp [all_readable, ArgKind.readable, Option.isSome_iff_exists] at hb
    obtain ⟨v0, e0⟩ := hb
    simp only [nif_fbink_rota_canonical_to_native, e0]
    simp

theorem nif_fbink_set_fb_info_rejects_iff (T : FBInkTypes) (X : FBInkCallTypes) (E : Native) (heap : Heap)
    (a0 a1 a2 a3 a4 : Term) :
    ∃ run heap1, Nif.run T X E heap .fbink_set_fb_info [a0, a1, a2, a3, a4] = some (run, heap1) ∧
      (all_readable heap [.int, .uint, .uint, .uint, .config] [a0, a1, a2, a3, a4] = false → run = enif_make_badarg ∧ heap1 = heap) ∧
      (all_readable heap [.int, .uint, .uint, .uint, .config] [a0, a1, a2, a3, a4] = true → run.ret ≠ .badarg) := by
  refine ⟨nif_fbink_set_fb_info T E a0 a1 a2 a3 a4, heap, rfl, ?_, ?_⟩
  · intro hb
    simp [all_readable, ArgKind.readable] at hb
    refine ⟨?_, rfl⟩
    unfold nif_fbink_set_fb_info
    split <;> simp_all [enif_make_badarg]
  · intro hb
    simp [all_readable, ArgKind.readable, Option.isSome_iff_exists] at hb
    obtain ⟨⟨v0, e0⟩, ⟨v1, e1⟩, ⟨v2, e2⟩, ⟨v3, e3⟩⟩ := hb
    simp only [nif_fbink_set_fb_info, e0, e1, e2, e3]
    simp

theorem nif_fbink_fill_rect_gray_rejects_iff (T : FBInkTypes) (X : FBInkCallTypes) (E : Native) (heap : Heap)
    (a0 a1 a2 a3 a4 : Term) :
    ∃ run heap1, Nif.run T X E heap .fbink_fill_rect_gray [a0, a1, a2, a3, a4] = some (run, heap1) ∧
      (all_readable heap [.int, .config, .rect, .int, .uint] [a0, a1, a2, a3, a4] = false → run = enif_make_badarg ∧ heap1 = heap) ∧
      (all_readable heap [.int, .config, .rect, .int, .uint] [a0, a1, a2, a3, a4] = true → run.ret ≠ .badarg) := by
  refine ⟨nif_fbink_fill_rect_gray T E a0 a1 a2 a3 a4, heap, rfl, ?_, ?_⟩
  · intro hb
    simp [all_readable, ArgKind.readable] at hb
    refine ⟨?_, rfl⟩
    unfold nif_fbink_fill_rect_gray
    split <;> simp_all [enif_make_badarg]
  · intro hb
    simp [all_readable, ArgKind.readable, Option.isSome_iff_exists] at hb
    obtain ⟨⟨v0, e0⟩, ⟨v3, e3⟩, ⟨v4, e4⟩⟩ := hb
    simp only [nif_fbink_fill_rect_gray, e0, e3, e4]
    simp

theorem nif_fbink_fill_rect_rgba_rejects_iff (T : FBInkTypes) (X : FBInkCallTypes) (E : Native) (heap : Heap)
    (a0 a1 a2 a3 a4 a5 a6 a7 : Term) :
    ∃ run heap1, Nif.run T X E heap .fbink_fill_rect_rgba [a0, a1, a2, a3, a4, a5, a6, a7] = some (run, heap1) ∧
      (all_readable heap [.int, .config, .rect, .int, .uint, .uint, .uint, .uint] [a0, a1, a2, a3, a4, a5, a6, a7] = false → run = enif_make_badarg ∧ heap1 = heap) ∧
      (all_readable heap [.int, .config, .rect, .int, .uint, .uint, .uint, .uint] [a0, a1, a2, a3, a4, a5, a6, a7] = true → run.ret ≠ .badarg) := by
  refine ⟨nif_fbink_fill_rect_rgba T E a0 a1 a2 a3 a4 a5 a6 a7, heap, rfl, ?_, ?_⟩
  · intro hb
    simp [all_readable, ArgKind.readable] at hb
    refine ⟨?_, rfl⟩
    unfold nif_fbink_fill_rect_rgba
    split <;> simp_all [enif_make_badarg]
  · intro hb
    simp [all_readable, ArgKind.readable, Option.isSome_iff_exists] at hb
    obtain ⟨⟨v0, e0⟩, ⟨v3, e3⟩, ⟨v4, e4⟩, ⟨v5, e5⟩, ⟨v6, e6⟩, ⟨v7, e7⟩⟩ := hb
    simp only [nif_fbink_fill_rect_rgba, e0, e3, e4, e5, e6, e7]
    simp

theorem nif_fbink_put_pixel_gray_rejects_iff (T : FBInkTypes) (X : FBInkCallTypes) (E : Native) (heap : Heap)
    (a0 a1 a2 a3 : Term) :
    ∃ run heap1, Nif.run T X E heap .fbink_put_pixel_gray [a0, a1, a2, a3] = some (run, heap1) ∧
      (all_readable heap [.int, .uint, .uint, .uint] [a0, a1, a2, a3] = false → run = enif_make_badarg ∧ heap1 = heap) ∧
      (all_readable heap [.int, .uint, .uint, .uint] [a0, a1, a2, a3] = true → run.ret ≠ .badarg) := by
  refine ⟨nif_fbink_put_pixel_gray E a0 a1 a2 a3, heap, rfl, ?_, ?_⟩
  · intro hb
    simp [all_readable, ArgKind.readable] at hb
    refine ⟨?_, rfl⟩
    unfold nif_fbink_put_pixel_gray
    split <;> simp_all [enif_make_badarg]
  · intro hb
    simp [all_readable, ArgKind.readable, Option.isSome_iff_exists] at hb
    obtain ⟨⟨v0, e0⟩, ⟨v1, e1⟩, ⟨v2, e2⟩, ⟨v3, e3⟩⟩ := hb
    simp only [nif_fbink_put_pixel_gray, e0, e1, e2, e3]
    simp

theorem nif_fbink_put_pixel_rgba_rejects_iff (T : FBInkTypes) (X : FBInkCallTypes) (E : Native) (heap : Heap)
    (a0 a1 a2 a3 a4 a5 a6 : Term) :
    ∃ run heap1, Nif.run T X E heap .fbink_put_pixel_rgba [a0, a1, a2, a3, a4, a5, a6] = some (run, heap1) ∧
      (all_readable heap [.int, .uint, .uint, .uint, .uint, .uint, .uint] [a0, a1, a2, a3, a4, a5, a6] = false → run = enif_make_badarg ∧ heap1 = heap) ∧
      (all_readable heap [.int, .uint, .uint, .uint, .uint, .uint, .uint] [a0, a1, a2, a3, a4, a5, a6] = true → run.ret ≠ .badarg) := by
  refine ⟨nif_fbink_put_pixel_rgba E a0 a1 a2 a3 a4 a5 a6, heap, rfl, ?_, ?_⟩
  · intro hb
    simp [all_readable, ArgKind.readable] at hb
    refine ⟨?_, rfl⟩
    unfold nif_fbink_put_pixel_rgba
    split <;> simp_all [enif_make_badarg]
  · intro hb
    simp [all_readable, ArgKind.readable, Option.isSome_iff_exists] at hb
    obtain ⟨⟨v0, e0⟩, ⟨v1, e1⟩, ⟨v2, e2⟩, ⟨v3, e3⟩, ⟨v4, e4⟩, ⟨v5, e5⟩, ⟨v6, e6⟩⟩ := hb
    simp only [nif_fbink_put_pixel_rgba, e0, e1, e2, e3, e4, e5, e6]
    simp

theorem nif_fbink_get_pixel_rejects_iff (T : FBInkTypes) (X : FBInkCallTypes) (E : Native) (heap : Heap)
    (a0 a1 a2 : Term) :
    ∃ run heap1, Nif.run T X E heap .fbink_get_pixel [a0, a1, a2] = some (run, heap1) ∧
      (all_readable heap [.int, .uint, .uint] [a0, a1, a2] = false → run = enif_make_badarg ∧ heap1 = heap) ∧
      (all_readable heap [.int, .uint, .uint] [a0, a1, a2] = true → run.ret ≠ .badarg) := by
  refine ⟨nif_fbink_get_pixel E a0 a1 a2, heap, rfl, ?_, ?_⟩
  · intro hb
    simp [all_readable, ArgKind.readable] at hb
    refine ⟨?_, rfl⟩
    unfold nif_fbink_get_pixel
    split <;> simp_all [enif_make_badarg]
  · intro hb
    simp [all_readable, ArgKind.readable, Option.isSome_iff_exists] at hb
    obtain ⟨⟨v0, e0⟩, ⟨v1, e1⟩, ⟨v2, e2⟩⟩ := hb
    simp only [nif_fbink_get_pixel, e0, e1, e2]
    split <;> simp

theorem nif_fbink_pack_pixel_gray_rejects_iff (T : FBInkTypes) (X : FBInkCallTypes) (E : Native) (heap : Heap)
    (a0 : Term) :
    ∃ run heap1, Nif.run T X E heap .fbink_pack_pixel_gray [a0] = some (run, heap1) ∧
      (all_readable heap [.uint] [a0] = false → run = enif_make_badarg ∧ heap1 = heap) ∧
      (all_readable heap [.uint] [a0] = true → run.ret ≠ .badarg) := by
  refine ⟨nif_fbink_pack_pixel_gray E a0, heap, rfl, ?_, ?_⟩
  · intro hb
    simp [all_readable, ArgKind.readable] at hb
    refine ⟨?_, rfl⟩
    unfold nif_fbink_pack_pixel_gray
    split <;> simp_all [enif_make_badarg]
  · intro hb
    simp [all_readable, ArgKind.readable, Option.isSome_iff_exists] at hb
    obtain ⟨v0, e0⟩ := hb
    simp only [nif_fbink_pack_pixel_gray, e0]
    split <;> simp

theorem nif_fbink_pack_pixel_rgba_rejects_iff (T : FBInkTypes) (X : FBInkCallTypes) (E : Native) (heap : Heap)
    (a0 a1 a2 a3 : Term) :
    ∃ run heap1, Nif.run T X E heap .fbink_pack_pixel_rgba [a0, a1, a2, a3] = some (run, heap1) ∧
      (all_readable heap [.uint, .uint, .uint, .uint] [a0, a1, a2, a3] = false → run = enif_make_badarg ∧ heap1 = heap) ∧
      (all_readable heap [.uint, .uint, .uint, .uint] [a0, a1, a2, a3] = true → run.ret ≠ .badarg) := by
  refine ⟨nif_fbink_pack_pixel_rgba E a0 a1 a2 a3, heap, rfl, ?_, ?_⟩
  · intro hb
    simp [all_readable, ArgKind.readable] at hb
    refine ⟨?_, rfl⟩
    unfold nif_fbink_pack_pixel_rgba
    split <;> simp_all [enif_make_badarg]
  · intro hb
    simp [all_readable, ArgKind.readable, Option.isSome_iff_exists] at hb
    obtain ⟨⟨v0, e0⟩, ⟨v1, e1⟩, ⟨v2, e2⟩, ⟨v3, e3⟩⟩ := hb
    simp only [nif_fbink_pack_pixel_rgba, e0, e1, e2, e3]
    split <;> simp

theorem nif_fbink_wakeup_epdc_rejects_iff (T : FBInkTypes) (X : FBInkCallTypes) (E : Native) (heap : Heap) :
    ∃ run heap1, Nif.run T X E heap .fbink_wakeup_epdc [] = some (run, heap1) ∧
      (all_readable heap [] [] = false → run = enif_make_badarg ∧ heap1 = heap) ∧
      (all_readable heap [] [] = true → run.ret ≠ .badarg) := by
  refine ⟨nif_fbink_wakeup_epdc E, heap, rfl, ?_, ?_⟩
  · intro hb
    simp [all_readable, ArgKind.readable] at hb
  · intro hb
    simp only [nif_fbink_wakeup_epdc]
    simp

theorem nif_fbink_sunxi_toggle_ntx_pen_mode_rejects_iff (T : FBInkTypes) (X : FBInkCallTypes) (E : Native) (heap : Heap)
    (a0 a1 : Term) :
    ∃ run heap1, Nif.run T X E heap .fbink_sunxi_toggle_ntx_pen_mode [a0, a1] = some (run, heap1) ∧
      (all_readable heap [.int, .int] [a0, a1] = false → run = enif_make_badarg ∧ heap1 = heap) ∧
      (all_readable heap [.int, .int] [a0, a1] = true → run.ret ≠ .badarg) := by
  refine ⟨nif_fbink_sunxi_toggle_ntx_pen_mode E a0 a1, heap, rfl, ?_, ?_⟩
  · intro hb
    simp [all_readable, ArgKind.readable] at hb
    refine ⟨?_, rfl⟩
    unfold nif_fbink_sunxi_toggle_ntx_pen_mode
    split <;> simp_all [enif_make_badarg]
  · intro hb
    simp [all_readable, ArgKind.readable, Option.isSome_iff_exists] at hb
    obtain ⟨⟨v0, e0⟩, ⟨v1, e1⟩⟩ := hb
    simp only [nif_fbink_sunxi_toggle_ntx_pen_mode, e0, e1]
    simp

theorem nif_fbink_sunxi_ntx_enforce_rota_rejects_iff (T : FBInkTypes) (X : FBInkCallTypes) (E : Native) (heap : Heap)
    (a0 a1 a2 : Term) :
    ∃ run heap1, Nif.run T X E heap .fbink_sunxi_ntx_enforce_rota [a0, a1, a2] = some (run, heap1) ∧
      (all_readable heap [.int, .int, .config] [a0, a1, a2] = false → run = enif_make_badarg ∧ heap1 = heap) ∧
      (all_readable heap [.int, .int, .config] [a0, a1, a2] = true → run.ret ≠ .badarg) := by
  refine ⟨nif_fbink_sunxi_ntx_enforce_rota T X E a0 a1 a2, heap, rfl, ?_, ?_⟩
  · intro hb
    simp [all_readable, ArgKind.readable] at hb
    refine ⟨?_, rfl⟩
    unfold nif_fbink_sunxi_ntx_enforce_rota
    split <;> simp_all [enif_make_badarg]
  · intro hb
    simp [all_readable, ArgKind.readable, Option.isSome_iff_exists] at hb
    obtain ⟨⟨v0, e0⟩, ⟨v1, e1⟩⟩ := hb
    simp only [nif_fbink_sunxi_ntx_enforce_rota, e0, e1]
    simp

theorem nif_fbink_mtk_set_swipe_data_rejects_iff (T : FBInkTypes) (X : FBInkCallTypes) (E : Native) (heap : Heap)
    (a0 a1 : Term) :
    ∃ run heap1, Nif.run T X E heap .fbink_mtk_set_swipe_data [a0, a1] = some (run, heap1) ∧
      (all_readable heap [.int, .uint] [a0, a1] = false → run = enif_make_badarg ∧ heap1 = heap) ∧
      (all_readable heap [.int, .uint] [a0, a1] = true → run.ret ≠ .badarg) := by
  refine ⟨nif_fbink_mtk_set_swipe_data X E a0 a1, heap, rfl, ?_, ?_⟩
  · intro hb
    simp [all_readable, ArgKind.readable] at hb
    refine ⟨?_, rfl⟩
    unfold nif_fbink_mtk_set_swipe_data
    split <;> simp_all [enif_make_badarg]
  · intro hb
    simp [all_readable, ArgKind.readable, Option.isSome_iff_exists] at hb
    obtain ⟨⟨v0, e0⟩, ⟨v1, e1⟩⟩ := hb
    simp only [nif_fbink_mtk_set_swipe_data, e0, e1]
    simp

theorem nif_fbink_mtk_set_halftone_rejects_iff (T : FBInkTypes) (X : FBInkCallTypes) (E : Native) (heap : Heap)
    (a0 a1 a2 : Term) :
    ∃ run heap1, Nif.run T X E heap .fbink_mtk_set_halftone [a0, a1, a2] = some (run, heap1) ∧
      (all_readable heap [.int, .rect_list, .int] [a0, a1, a2] = false → run = enif_make_badarg ∧ heap1 = heap) ∧
      (all_readable heap [.int, .rect_list, .int] [a0, a1, a2] = true → run.ret ≠ .badarg) := by
  refine ⟨nif_fbink_mtk_set_halftone X E a0 a1 a2, heap, rfl, ?_, ?_⟩
  · intro hb
    simp [all_readable, ArgKind.readable] at hb
    refine ⟨?_, rfl⟩
    unfold nif_fbink_mtk_set_halftone
    split <;> simp_all [enif_make_badarg]
  · intro hb
    simp [all_readable, ArgKind.readable, Option.isSome_iff_exists] at hb
    obtain ⟨⟨v0, e0⟩, ⟨v2, e2⟩⟩ := hb
    simp only [nif_fbink_mtk_set_halftone, e0, e2]
    simp

theorem nif_fbink_mtk_toggle_auto_reagl_rejects_iff (T : FBInkTypes) (X : FBInkCallTypes) (E : Native) (heap : Heap)
    (a0 a1 : Term) :
    ∃ run heap1, Nif.run T X E heap .fbink_mtk_toggle_auto_reagl [a0, a1] = some (run, heap1) ∧
      (all_readable heap [.int, .int] [a0, a1] = false → run = enif_make_badarg ∧ heap1 = heap) ∧
      (all_readable heap [.int, .int] [a0, a1] = true → run.ret ≠ .badarg) := by
  refine ⟨nif_fbink_mtk_toggle_auto_reagl E a0 a1, heap, rfl, ?_, ?_⟩
  · intro hb
    simp [all_readable, ArgKind.readable] at hb
    refine ⟨?_, rfl⟩
    unfold nif_fbink_mtk_toggle_auto_reagl
    split <;> simp_all [enif_make_badarg]
  · intro hb
    simp [all_readable, ArgKind.readable, Option.isSome_iff_exists] at hb
    obtain ⟨⟨v0, e0⟩, ⟨v1, e1⟩⟩ := hb
    simp only [nif_fbink_mtk_toggle_auto_reagl, e0, e1]
    simp

theorem nif_fbink_mtk_toggle_pen_mode_rejects_iff (T : FBInkTypes) (X : FBInkCallTypes) (E : Native) (heap : Heap)
    (a0 a1 : Term) :
    ∃ run heap1, Nif.run T X E heap .fbink_mtk_toggle_pen_mode [a0, a1] = some (run, heap1) ∧
      (all_readable heap [.int, .int] [a0, a1] = false → run = enif_make_badarg ∧ heap1 = heap) ∧
      (all_readable heap [.int, .int] [a0, a1] = true → run.ret ≠ .badarg) := by
  refine ⟨nif_fbink_mtk_toggle_pen_mode E a0 a1, heap, rfl, ?_, ?_⟩
  · intro hb
    simp [all_readable, ArgKind.readable] at hb
    refine ⟨?_, rfl⟩
    unfold nif_fbink_mtk_toggle_pen_mode
    split <;> simp_all [enif_make_badarg]
  · intro hb
    simp [all_readable, ArgKind.readable, Option.isSome_iff_exists] at hb
    obtain ⟨⟨v0, e0⟩, ⟨v1, e1⟩⟩ := hb
    simp only [nif_fbink_mtk_toggle_pen_mode, e0, e1]
    simp

theorem nif_fbink_input_scan_rejects_iff (T : FBInkTypes) (X : FBInkCallTypes) (E : Native) (heap : Heap)
    (a0 a1 a2 : Term) :
    ∃ run heap1, Nif.run T X E heap .fbink_input_scan [a0, a1, a2] = some (run, heap1) ∧
      (all_readable heap [.uint, .uint, .uint] [a0, a1, a2] = false → run = enif_make_badarg ∧ heap1 = heap) ∧
      (all_readable heap [.uint, .uint, .uint] [a0, a1, a2] = true → run.ret ≠ .badarg) := by
  refine ⟨nif_fbink_input_scan X E a0 a1 a2, heap, rfl, ?_, ?_⟩
  · intro hb
    simp [all_readable, ArgKind.readable] at hb
    refine ⟨?_, rfl⟩
    unfold nif_fbink_input_scan
    split <;> simp_all [enif_make_badarg]
  · intro hb
    simp [all_readable, ArgKind.readable, Option.isSome_iff_exists] at hb
    obtain ⟨⟨v0, e0⟩, ⟨v1, e1⟩, ⟨v2, e2⟩⟩ := hb
    simp only [nif_fbink_input_scan, e0, e1, e2]
    repeat' split
    all_goals simp_all [enif_make_badarg]

theorem nif_fbink_input_check_rejects_iff (T : FBInkTypes) (X : FBInkCallTypes) (E : Native) (heap : Heap)
    (a0 a1 a2 a3 : Term) :
    ∃ run heap1, Nif.run T X E heap .fbink_input_check [a0, a1, a2, a3] = some (run, heap1) ∧
      (all_readable heap [.path, .uint, .uint, .uint] [a0, a1, a2, a3] = false → run = enif_make_badarg ∧ heap1 = heap) ∧
      (all_readable heap [.path, .uint, .uint, .uint] [a0, a1, a2, a3] = true → run.ret ≠ .badarg) := by
  refine ⟨nif_fbink_input_check X E a0 a1 a2 a3, heap, rfl, ?_, ?_⟩
  all_goals
    intro hb
    simp only [all_readable, nif_fbink_input_check] at hb ⊢
    generalize hg : (if (enif_get_string a0 4096).1 ≤ 0 then _ else _ : Option (List Nat)) = file
    have hfile : file = none ↔ ArgKind.readable heap .path a0 = false := by
      rw [← hg]
      simp only [ArgKind.readable]
      by_cases hs : (enif_get_string a0 4096).1 ≤ 0
      · have hs2 : ¬ (0 < (enif_get_string a0 4096).1) := not_lt.mpr hs
        cases hi : enif_inspect_iolist_as_binary a0 with
        | none => simp [hs, hs2]
        | some bin =>
          by_cases hl : bin.length ≥ 4096
          · have hl2 : ¬ (bin.length < 4096) := not_lt.mpr hl
            simp [hs, hs2, hl, hl2]
          · have hl2 : bin.length < 4096 := not_le.mp hl
            simp [hs, hs2, hl2]
      · have hs2 : 0 < (enif_get_string a0 4096).1 := not_le.mp hs
        simp [hs, hs2]
    clear hg
    cases hp : ArgKind.readable heap .path a0 <;> cases file <;> simp_all
    all_goals
      cases h1 : enif_get_uint a1 <;> cases h2 : enif_get_uint a2 <;>
        cases h3 : enif_get_uint a3 <;> cases hd : E.device <;>
          simp_all [ArgKind.readable, enif_make_badarg]

theorem nif_fbink_button_scan_rejects_iff (T : FBInkTypes) (X : FBInkCallTypes) (E : Native) (heap : Heap)
    (a0 a1 a2 : Term) :
    ∃ run heap1, Nif.run T X E heap .fbink_button_scan [a0, a1, a2] = some (run, heap1) ∧
      (all_readable heap [.int, .int, .int] [a0, a1, a2] = false → run = enif_make_badarg ∧ heap1 = heap) ∧
      (all_readable heap [.int, .int, .int] [a0, a1, a2] = true → run.ret ≠ .badarg) := by
  refine ⟨nif_fbink_button_scan E a0 a1 a2, heap, rfl, ?_, ?_⟩
  · intro hb
    simp [all_readable, ArgKind.readable] at hb
    refine ⟨?_, rfl⟩
    unfold nif_fbink_button_scan
    split <;> simp_all [enif_make_badarg]
  · intro hb
    simp [all_readable, ArgKind.readable, Option.isSome_iff_exists] at hb
    obtain ⟨⟨v0, e0⟩, ⟨v1, e1⟩, ⟨v2, e2⟩⟩ := hb
    simp only [nif_fbink_button_scan, e0, e1, e2]
    simp

theorem nif_fbink_wait_for_usbms_processing_rejects_iff (T : FBInkTypes) (X : FBInkCallTypes) (E : Native) (heap : Heap)
    (a0 a1 : Term) :
    ∃ run heap1, Nif.run T X E heap .fbink_wait_for_usbms_processing [a0, a1] = some (run, heap1) ∧
      (all_readable heap [.int, .int] [a0, a1] = false → run = enif_make_badarg ∧ heap1 = heap) ∧
      (all_readable heap [.int, .int] [a0, a1] = true → run.ret ≠ .badarg) := by
  refine ⟨nif_fbink_wait_for_usbms_processing E a0 a1, heap, rfl, ?_, ?_⟩
  · intro hb
    simp [all_readable, ArgKind.readable] at hb
    refine ⟨?_, rfl⟩
    unfold nif_fbink_wait_for_usbms_processing
    split <;> simp_all [enif_make_badarg]
  · intro hb
    simp [all_readable, ArgKind.readable, Option.isSome_iff_exists] at hb
    obtain ⟨⟨v0, e0⟩, ⟨v1, e1⟩⟩ := hb
    simp only [nif_fbink_wait_for_usbms_processing, e0, e1]
    simp

theorem all_readable_eq_false_iff (heap : Heap) (kinds : List ArgKind) (ts : List Term) :
    all_readable heap kinds ts = false ↔
      ∃ (i : Nat) (kind : ArgKind) (t : Term),
        kinds[i]? = some kind ∧ ts[i]? = some t ∧ kind.readable heap t = false := by
  induction kinds generalizing ts with
  | nil => simp [all_readable]
  | cons k ks ih =>
    cases ts with
    | nil => simp [all_readable]
    | cons t rest =>
      simp only [all_readable, Bool.and_eq_false_iff, ih]
      constructor
      · rintro (h | ⟨i, kind, u, hk, hu, hr⟩)
        · exact ⟨0, k, t, by simp, by simp, h⟩
        · exact ⟨i + 1, kind, u, by simpa using hk, by simpa using hu, hr⟩
      · rintro ⟨i, kind, u, hk, hu, hr⟩
        cases i with
        | zero =>
          simp only [List.getElem?_cons_zero, Option.some.injEq] at hk hu
          subst hk
          subst hu
          exact Or.inl hr
        | succ j =>
          exact Or.inr ⟨j, kind, u, by simpa using hk, by simpa using hu, hr⟩

theorem all_readable_eq_true_of_forall (heap : Heap) (kinds : List ArgKind) (ts : List Term)
    (h : ∀ (i : Nat) (kind : ArgKind) (t : Term),
      kinds[i]? = some kind → ts[i]? = some t → kind.readable heap t = true) :
    all_readable heap kinds ts = true := by
  cases hall : all_readable heap kinds ts with
  | true => rfl
  | false =>
    obtain ⟨i, kind, t, hk, ht, hr⟩ := (all_readable_eq_false_iff heap kinds ts).mp hall
    rw [h i kind t hk ht] at hr
    cases hr

theorem nif_run_rejects_iff (T : FBInkTypes) (X : FBInkCallTypes) (E : Native) (heap : Heap)
    (nif : Nif) (argv : List Term) (harity : argv.length = nif.expects.length) :
    ∃ run heap1, nif.run T X E heap argv = some (run, heap1) ∧
      (all_readable heap nif.expects argv = false → run = enif_make_badarg ∧ heap1 = heap) ∧
      (all_readable heap nif.expects argv = true → run.ret ≠ .badarg) := by
  cases nif
  case fbink_version =>
    rcases argv with _ | ⟨a0, rest⟩ <;> simp [Nif.expects] at harity
    exact nif_fbink_version_rejects_iff T X E heap
  case fbink_target =>
    rcases argv with _ | ⟨a0, rest⟩ <;> simp [Nif.expects] at harity
    exact nif_fbink_target_rejects_iff T X E heap
  case fbink_features =>
    rcases argv with _ | ⟨a0, rest⟩ <;> simp [Nif.expects] at harity
    exact nif_fbink_features_rejects_iff T X E heap
  case fbink_open =>
    rcases argv with _ | ⟨a0, rest⟩ <;> simp [Nif.expects] at harity
    exact nif_fbink_open_rejects_iff T X E heap
  case fbink_close =>
    rcases argv with _ | ⟨a0, _ | ⟨a1, rest⟩⟩ <;> simp [Nif.expects] at harity
    exact nif_fbink_close_rejects_iff T X E heap a0
  case fbink_init =>
    rcases argv with _ | ⟨a0, _ | ⟨a1, _ | ⟨a2, rest⟩⟩⟩ <;> simp [Nif.expects] at harity
    exact nif_fbink_init_rejects_iff T X E heap a0 a1
  case fbink_reinit =>
    rcases argv with _ | ⟨a0, _ | ⟨a1, _ | ⟨a2, rest⟩⟩⟩ <;> simp [Nif.expects] at harity
    exact nif_fbink_reinit_rejects_iff T X E heap a0 a1
  case fbink_get_state =>
    rcases argv with _ | ⟨a0, _ | ⟨a1, rest⟩⟩ <;> simp [Nif.expects] at harity
    exact nif_fbink_get_state_rejects_iff T X E heap a0
  case fbink_state_dump =>
    rcases argv with _ | ⟨a0, _ | ⟨a1, rest⟩⟩ <;> simp [Nif.expects] at harity
    exact nif_fbink_state_dump_rejects_iff T X E heap a0
  case fbink_get_last_rect =>
    rcases argv with _ | ⟨a0, _ | ⟨a1, rest⟩⟩ <;> simp [Nif.expects] at harity
    exact nif_fbink_get_last_rect_rejects_iff T X E heap a0
  case fbink_get_last_marker =>
    rcases argv with _ | ⟨a0, rest⟩ <;> simp [Nif.expects] at harity
    exact nif_fbink_get_last_marker_rejects_iff T X E heap
  case fbink_is_fb_quirky =>
    rcases argv with _ | ⟨a0, rest⟩ <;> simp [Nif.expects] at harity
    exact nif_fbink_is_fb_quirky_rejects_iff T X E heap
  case fbink_update_verbosity =>
    rcases argv with _ | ⟨a0, _ | ⟨a1, rest⟩⟩ <;> simp [Nif.expects] at harity
    exact nif_fbink_update_verbosity_rejects_iff T X E heap a0
  case fbink_update_pen_colors =>
    rcases argv with _ | ⟨a0, _ | ⟨a1, rest⟩⟩ <;> simp [Nif.expects] at harity
    exact nif_fbink_update_pen_colors_rejects_iff T X E heap a0
  case fbink_set_fg_pen_gray =>
    rcases argv with _ | ⟨a0, _ | ⟨a1, _ | ⟨a2, _ | ⟨a3, rest⟩⟩⟩⟩ <;> simp [Nif.expects] at harity
    exact nif_fbink_set_fg_pen_gray_rejects_iff T X E heap a0 a1 a2
  case fbink_set_bg_pen_gray =>
    rcases argv with _ | ⟨a0, _ | ⟨a1, _ | ⟨a2, _ | ⟨a3, rest⟩⟩⟩⟩ <;> simp [Nif.expects] at harity
    exact nif_fbink_set_bg_pen_gray_rejects_iff T X E heap a0 a1 a2
  case fbink_set_fg_pen_rgba =>
    rcases argv with _ | ⟨a0, _ | ⟨a1, _ | ⟨a2, _ | ⟨a3, _ | ⟨a4, _ | ⟨a5, _ | ⟨a6, rest⟩⟩⟩⟩⟩⟩⟩ <;> simp [Nif.expects] at harity
    exact nif_fbink_set_fg_pen_rgba_rejects_iff T X E heap a0 a1 a2 a3 a4 a5
  case fbink_set_bg_pen_rgba =>
    rcases argv with _ | ⟨a0, _ | ⟨a1, _ | ⟨a2, _ | ⟨a3, _ | ⟨a4, _ | ⟨a5, _ | ⟨a6, rest⟩⟩⟩⟩⟩⟩⟩ <;> simp [Nif.expects] at harity
    exact nif_fbink_set_bg_pen_rgba_rejects_iff T X E heap a0 a1 a2 a3 a4 a5
  case fbink_print =>
    rcases argv with _ | ⟨a0, _ | ⟨a1, _ | ⟨a2, _ | ⟨a3, rest⟩⟩⟩⟩ <;> simp [Nif.expects] at harity
    exact nif_fbink_print_rejects_iff T X E heap a0 a1 a2
  case fbink_add_ot_font =>
    rcases argv with _ | ⟨a0, _ | ⟨a1, _ | ⟨a2, rest⟩⟩⟩ <;> simp [Nif.expects] at harity
    exact nif_fbink_add_ot_font_rejects_iff T X E heap a0 a1
  case fbink_free_ot_fonts =>
    rcases argv with _ | ⟨a0, rest⟩ <;> simp [Nif.expects] at harity
    exact nif_fbink_free_ot_fonts_rejects_iff T X E heap
  case fbink_print_ot =>
    rcases argv with _ | ⟨a0, _ | ⟨a1, _ | ⟨a2, _ | ⟨a3, _ | ⟨a4, rest⟩⟩⟩⟩⟩ <;> simp [Nif.expects] at harity
    exact nif_fbink_print_ot_rejects_iff T X E heap a0 a1 a2 a3
  case fbink_print_progress_bar =>
    rcases argv with _ | ⟨a0, _ | ⟨a1, _ | ⟨a2, _ | ⟨a3, rest⟩⟩⟩⟩ <;> simp [Nif.expects] at harity
    exact nif_fbink_print_progress_bar_rejects_iff T X E heap a0 a1 a2
  case fbink_print_activity_bar =>
    rcases argv with _ | ⟨a0, _ | ⟨a1, _ | ⟨a2, _ | ⟨a3, rest⟩⟩⟩⟩ <;> simp [Nif.expects] at harity
    exact nif_fbink_print_activity_bar_rejects_iff T X E heap a0 a1 a2
  case fbink_print_image =>
    rcases argv with _ | ⟨a0, _ | ⟨a1, _ | ⟨a2, _ | ⟨a3, _ | ⟨a4, _ | ⟨a5, rest⟩⟩⟩⟩⟩⟩ <;> simp [Nif.expects] at harity
    exact nif_fbink_print_image_rejects_iff T X E heap a0 a1 a2 a3 a4
  case fbink_print_raw_data =>
    rcases argv with _ | ⟨a0, _ | ⟨a1, _ | ⟨a2, _ | ⟨a3, _ | ⟨a4, _ | ⟨a5, _ | ⟨a6, _ | ⟨a7, rest⟩⟩⟩⟩⟩⟩⟩⟩ <;> simp [Nif.expects] at harity
    exact nif_fbink_print_raw_data_rejects_iff T X E heap a0 a1 a2 a3 a4 a5 a6
  case fbink_cls =>
    rcases argv with _ | ⟨a0, _ | ⟨a1, _ | ⟨a2, _ | ⟨a3, _ | ⟨a4, rest⟩⟩⟩⟩⟩ <;> simp [Nif.expects] at harity
    exact nif_fbink_cls_rejects_iff T X E heap a0 a1 a2 a3
  case fbink_grid_clear =>
    rcases argv with _ | ⟨a0, _ | ⟨a1, _ | ⟨a2, _ | ⟨a3, _ | ⟨a4, rest⟩⟩⟩⟩⟩ <;> simp [Nif.expects] at harity
    exact nif_fbink_grid_clear_rejects_iff T X E heap a0 a1 a2 a3
  case fbink_refresh =>
    rcases argv with _ | ⟨a0, _ | ⟨a1, _ | ⟨a2, _ | ⟨a3, _ | ⟨a4, _ | ⟨a5, _ | ⟨a6, rest⟩⟩⟩⟩⟩⟩⟩ <;> simp [Nif.expects] at harity
    exact nif_fbink_refresh_rejects_iff T X E heap a0 a1 a2 a3 a4 a5
  case fbink_refresh_rect =>
    rcases argv with _ | ⟨a0, _ | ⟨a1, _ | ⟨a2, _ | ⟨a3, rest⟩⟩⟩⟩ <;> simp [Nif.expects] at harity
    exact nif_fbink_refresh_rect_rejects_iff T X E heap a0 a1 a2
  case fbink_grid_refresh =>
    rcases argv with _ | ⟨a0, _ | ⟨a1, _ | ⟨a2, _ | ⟨a3, _ | ⟨a4, rest⟩⟩⟩⟩⟩ <;> simp [Nif.expects] at harity
    exact nif_fbink_grid_refresh_rejects_iff T X E heap a0 a1 a2 a3
  case fbink_wait_for_submission =>
    rcases argv with _ | ⟨a0, _ | ⟨a1, _ | ⟨a2, rest⟩⟩⟩ <;> simp [Nif.expects] at harity
    exact nif_fbink_wait_for_submission_rejects_iff T X E heap a0 a1
  case fbink_wait_for_complete =>
    rcases argv with _ | ⟨a0, _ | ⟨a1, _ | ⟨a2, rest⟩⟩⟩ <;> simp [Nif.expects] at harity
    exact nif_fbink_wait_for_complete_rejects_iff T X E heap a0 a1
  case fbink_wait_for_any_complete =>
    rcases argv with _ | ⟨a0, _ | ⟨a1, rest⟩⟩ <;> simp [Nif.expects] at harity
    exact nif_fbink_wait_for_any_complete_rejects_iff T X E heap a0
  case fbink_dump =>
    rcases argv with _ | ⟨a0, _ | ⟨a1, rest⟩⟩ <;> simp [Nif.expects] at harity
    exact nif_fbink_dump_rejects_iff T X E heap a0
  case fbink_region_dump =>
    rcases argv with _ | ⟨a0, _ | ⟨a1, _ | ⟨a2, _ | ⟨a3, _ | ⟨a4, _ | ⟨a5, _ | ⟨a6, rest⟩⟩⟩⟩⟩⟩⟩ <;> simp [Nif.expects] at harity
    exact nif_fbink_region_dump_rejects_iff T X E heap a0 a1 a2 a3 a4 a5
  case fbink_rect_dump =>
    rcases argv with _ | ⟨a0, _ | ⟨a1, _ | ⟨a2, rest⟩⟩⟩ <;> simp [Nif.expects] at harity
    exact nif_fbink_rect_dump_rejects_iff T X E heap a0 a1
  case fbink_restore =>
    rcases argv with _ | ⟨a0, _ | ⟨a1, _ | ⟨a2, _ | ⟨a3, rest⟩⟩⟩⟩ <;> simp [Nif.expects] at harity
    exact nif_fbink_restore_rejects_iff T X E heap a0 a1 a2
  case fbink_free_dump_data =>
    rcases argv with _ | ⟨a0, _ | ⟨a1, rest⟩⟩ <;> simp [Nif.expects] at harity
    exact nif_fbink_free_dump_data_rejects_iff T X E heap a0
  case fbink_get_dump_data =>
    rcases argv with _ | ⟨a0, _ | ⟨a1, rest⟩⟩ <;> simp [Nif.expects] at harity
    exact nif_fbink_get_dump_data_rejects_iff T X E heap a0
  case fbink_invert_screen =>
    rcases argv with _ | ⟨a0, _ | ⟨a1, _ | ⟨a2, rest⟩⟩⟩ <;> simp [Nif.expects] at harity
    exact nif_fbink_invert_screen_rejects_iff T X E heap a0 a1
  case fbink_invert_rect =>
    rcases argv with _ | ⟨a0, _ | ⟨a1, _ | ⟨a2, _ | ⟨a3, rest⟩⟩⟩⟩ <;> simp [Nif.expects] at harity
    exact nif_fbink_invert_rect_rejects_iff T X E heap a0 a1 a2
  case fbink_rota_native_to_canonical =>
    rcases argv with _ | ⟨a0, _ | ⟨a1, rest⟩⟩ <;> simp [Nif.expects] at harity
    exact nif_fbink_rota_native_to_canonical_rejects_iff T X E heap a0
  case fbink_rota_canonical_to_native =>
    rcases argv with _ | ⟨a0, _ | ⟨a1, rest⟩⟩ <;> simp [Nif.expects] at harity
    exact nif_fbink_rota_canonical_to_native_rejects_iff T X E heap a0
  case fbink_set_fb_info =>
    rcases argv with _ | ⟨a0, _ | ⟨a1, _ | ⟨a2, _ | ⟨a3, _ | ⟨a4, _ | ⟨a5, rest⟩⟩⟩⟩⟩⟩ <;> simp [Nif.expects] at harity
    exact nif_fbink_set_fb_info_rejects_iff T X E heap a0 a1 a2 a3 a4
  case fbink_fill_rect_gray =>
    rcases argv with _ | ⟨a0, _ | ⟨a1, _ | ⟨a2, _ | ⟨a3, _ | ⟨a4, _ | ⟨a5, rest⟩⟩⟩⟩⟩⟩ <;> simp [Nif.expects] at harity
    exact nif_fbink_fill_rect_gray_rejects_iff T X E heap a0 a1 a2 a3 a4
  case fbink_fill_rect_rgba =>
    rcases argv with _ | ⟨a0, _ | ⟨a1, _ | ⟨a2, _ | ⟨a3, _ | ⟨a4, _ | ⟨a5, _ | ⟨a6, _ | ⟨a7, _ | ⟨a8, rest⟩⟩⟩⟩⟩⟩⟩⟩⟩ <;> simp [Nif.expects] at harity
    exact nif_fbink_fill_rect_rgba_rejects_iff T X E heap a0 a1 a2 a3 a4 a5 a6 a7
  case fbink_put_pixel_gray =>
    rcases argv with _ | ⟨a0, _ | ⟨a1, _ | ⟨a2, _ | ⟨a3, _ | ⟨a4, rest⟩⟩⟩⟩⟩ <;> simp [Nif.expects] at harity
    exact nif_fbink_put_pixel_gray_rejects_iff T X E heap a0 a1 a2 a3
  case fbink_put_pixel_rgba =>
    rcases argv with _ | ⟨a0, _ | ⟨a1, _ | ⟨a2, _ | ⟨a3, _ | ⟨a4, _ | ⟨a5, _ | ⟨a6, _ | ⟨a7, rest⟩⟩⟩⟩⟩⟩⟩⟩ <;> simp [Nif.expects] at harity
    exact nif_fbink_put_pixel_rgba_rejects_iff T X E heap a0 a1 a2 a3 a4 a5 a6
  case fbink_get_pixel =>
    rcases argv with _ | ⟨a0, _ | ⟨a1, _ | ⟨a2, _ | ⟨a3, rest⟩⟩⟩⟩ <;> simp [Nif.expects] at harity
    exact nif_fbink_get_pixel_rejects_iff T X E heap a0 a1 a2
  case fbink_pack_pixel_gray =>
    rcases argv with _ | ⟨a0, _ | ⟨a1, rest⟩⟩ <;> simp [Nif.expects] at harity
    exact nif_fbink_pack_pixel_gray_rejects_iff T X E heap a0
  case fbink_pack_pixel_rgba =>
    rcases argv with _ | ⟨a0, _ | ⟨a1, _ | ⟨a2, _ | ⟨a3, _ | ⟨a4, rest⟩⟩⟩⟩⟩ <;> simp [Nif.expects] at harity
    exact nif_fbink_pack_pixel_rgba_rejects_iff T X E heap a0 a1 a2 a3
  case fbink_wakeup_epdc =>
    rcases argv with _ | ⟨a0, rest⟩ <;> simp [Nif.expects] at harity
    exact nif_fbink_wakeup_epdc_rejects_iff T X E heap
  case fbink_sunxi_toggle_ntx_pen_mode =>
    rcases argv with _ | ⟨a0, _ | ⟨a1, _ | ⟨a2, rest⟩⟩⟩ <;> simp [Nif.expects] at harity
    exact nif_fbink_sunxi_toggle_ntx_pen_mode_rejects_iff T X E heap a0 a1
  case fbink_sunxi_ntx_enforce_rota =>
    rcases argv with _ | ⟨a0, _ | ⟨a1, _ | ⟨a2, _ | ⟨a3, rest⟩⟩⟩⟩ <;> simp [Nif.expects] at harity
    exact nif_fbink_sunxi_ntx_enforce_rota_rejects_iff T X E heap a0 a1 a2
  case fbink_mtk_set_swipe_data =>
    rcases argv with _ | ⟨a0, _ | ⟨a1, _ | ⟨a2, rest⟩⟩⟩ <;> simp [Nif.expects] at harity
    exact nif_fbink_mtk_set_swipe_data_rejects_iff T X E heap a0 a1
  case fbink_mtk_set_halftone =>
    rcases argv with _ | ⟨a0, _ | ⟨a1, _ | ⟨a2, _ | ⟨a3, rest⟩⟩⟩⟩ <;> simp [Nif.expects] at harity
    exact nif_fbink_mtk_set_halftone_rejects_iff T X E heap a0 a1 a2
  case fbink_mtk_toggle_auto_reagl =>
    rcases argv with _ | ⟨a0, _ | ⟨a1, _ | ⟨a2, rest⟩⟩⟩ <;> simp [Nif.expects] at harity
    exact nif_fbink_mtk_toggle_auto_reagl_rejects_iff T X E heap a0 a1
  case fbink_mtk_toggle_pen_mode =>
    rcases argv with _ | ⟨a0, _ | ⟨a1, _ | ⟨a2, rest⟩⟩⟩ <;> simp [Nif.expects] at harity
    exact nif_fbink_mtk_toggle_pen_mode_rejects_iff T X E heap a0 a1
  case fbink_input_scan =>
    rcases argv with _ | ⟨a0, _ | ⟨a1, _ | ⟨a2, _ | ⟨a3, rest⟩⟩⟩⟩ <;> simp [Nif.expects] at harity
    exact nif_fbink_input_scan_rejects_iff T X E heap a0 a1 a2
  case fbink_input_check =>
    rcases argv with _ | ⟨a0, _ | ⟨a1, _ | ⟨a2, _ | ⟨a3, _ | ⟨a4, rest⟩⟩⟩⟩⟩ <;> simp [Nif.expects] at harity
    exact nif_fbink_input_check_rejects_iff T X E heap a0 a1 a2 a3
  case fbink_button_scan =>
    rcases argv with _ | ⟨a0, _ | ⟨a1, _ | ⟨a2, _ | ⟨a3, rest⟩⟩⟩⟩ <;> simp [Nif.expects] at harity
    exact nif_fbink_button_scan_rejects_iff T X E heap a0 a1 a2
  case fbink_wait_for_usbms_processing =>
    rcases argv with _ | ⟨a0, _ | ⟨a1, _ | ⟨a2, rest⟩⟩⟩ <;> simp [Nif.expects] at harity
    exact nif_fbink_wait_for_usbms_processing_rejects_iff T X E heap a0 a1

/-- C14, as stated, fails: `nif_fbink_init` called with the integer 7 in place of the
config mapping is not rejected. The config is marshalled to the all-zero record and
the native `fbink_init` is invoked with it; with the native status 0 the caller gets
the pair `(ok, 0)`. -/
theorem init_integer_config_counterexample :
    (∀ entries, Term.int 7 ≠ .map entries) ∧
    nif_fbink_init fbink_h sample_native (.int 3) (.int 7)
      = { ret := .term (.tuple [.atom "ok", .int 0]),
          calls := [{ entry := "fbink_init",
                      args := [.int 3, .config FBInkConfig.zeroed] }] } :=
  ⟨fun _ h => Term.noConfusion h, by decide⟩

theorem map_to_fbink_rect_of_not_map (t : Term) (h : ∀ entries, t ≠ .map entries) :
    map_to_fbink_rect t = FBInkRect.zeroed := by
  simp [map_to_fbink_rect, get_uint, enif_get_map_value_of_not_map t _ h, FBInkRect.zeroed,
    cast_ushort, cast_unsigned]

theorem map_to_fbink_config_empty_map_unless_map (T : FBInkTypes) (t : Term) :
    map_to_fbink_config T (empty_map_unless_map t) = map_to_fbink_config T t := by
  cases t <;> rfl

theorem map_to_fbink_ot_config_empty_map_unless_map (T : FBInkTypes) (t : Term) :
    map_to_fbink_ot_config T (empty_map_unless_map t) = map_to_fbink_ot_config T t := by
  cases t <;> rfl

theorem map_to_fbink_rect_empty_map_unless_map (t : Term) :
    map_to_fbink_rect (empty_map_unless_map t) = map_to_fbink_rect t := by
  cases t <;> rfl

theorem map_to_fbink_config_of_not_map (T : FBInkTypes) (t : Term)
    (h : ∀ entries, t ≠ .map entries) :
    map_to_fbink_config T t = FBInkConfig.zeroed := by
  have hk : ∀ key, enif_get_map_value t key = none :=
    fun key => enif_get_map_value_of_not_map t key h
  simp [map_to_fbink_config, get_bool, get_int, get_uint, hk, FBInkConfig.zeroed,
    cast_short, cast_signed, cast_uint8, cast_ushort, cast_unsigned]

theorem map_to_fbink_ot_config_of_not_map (T : FBInkTypes) (t : Term)
    (h : ∀ entries, t ≠ .map entries) :
    map_to_fbink_ot_config T t
      = { FBInkOTConfig.zeroed with
          style := cast_unsigned T.FONT_STYLE_T T.FNT_REGULAR,
          size_pt := T.cast_float 0 } := by
  have hk : ∀ key, enif_get_map_value t key = none :=
    fun key => enif_get_map_value_of_not_map t key h
  simp [map_to_fbink_ot_config, get_bool, get_int, get_uint, get_double, hk,
    FBInkOTConfig.zeroed, cast_ushort, cast_unsigned]

theorem nif_fbink_init_with_empty_records (T : FBInkTypes) (X : FBInkCallTypes) (E : Native)
    (heap : Heap) (a0 a1 : Term) :
    Nif.run T X E heap .fbink_init (with_empty_records (Nif.expects .fbink_init) [a0, a1])
      = Nif.run T X E heap .fbink_init [a0, a1] := by
  have h : nif_fbink_init T E a0 (empty_map_unless_map a1)
      = nif_fbink_init T E a0 a1 := by
    simp only [nif_fbink_init, map_to_fbink_config_empty_map_unless_map]
  exact congrArg (fun r => some (r, heap)) h

theorem nif_fbink_reinit_with_empty_records (T : FBInkTypes) (X : FBInkCallTypes) (E : Native)
    (heap : Heap) (a0 a1 : Term) :
    Nif.run T X E heap .fbink_reinit (with_empty_records (Nif.expects .fbink_reinit) [a0, a1])
      = Nif.run T X E heap .fbink_reinit [a0, a1] := by
  have h : nif_fbink_reinit T E a0 (empty_map_unless_map a1)
      = nif_fbink_reinit T E a0 a1 := by
    simp only [nif_fbink_reinit, map_to_fbink_config_empty_map_unless_map]
  exact congrArg (fun r => some (r, heap)) h

theorem nif_fbink_get_state_with_empty_records (T : FBInkTypes) (X : FBInkCallTypes) (E : Native)
    (heap : Heap) (a0 : Term) :
    Nif.run T X E heap .fbink_get_state (with_empty_records (Nif.expects .fbink_get_state) [a0])
      = Nif.run T X E heap .fbink_get_state [a0] := by
  have h : nif_fbink_get_state T E (empty_map_unless_map a0)
      = nif_fbink_get_state T E a0 := by
    simp only [nif_fbink_get_state, map_to_fbink_config_empty_map_unless_map]
  exact congrArg (fun r => some (r, heap)) h

theorem nif_fbink_state_dump_with_empty_records (T : FBInkTypes) (X : FBInkCallTypes) (E : Native)
    (heap : Heap) (a0 : Term) :
    Nif.run T X E heap .fbink_state_dump (with_empty_records (Nif.expects .fbink_state_dump) [a0])
      = Nif.run T X E heap .fbink_state_dump [a0] := by
  have h : nif_fbink_state_dump T (empty_map_unless_map a0)
      = nif_fbink_state_dump T a0 := by
    simp only [nif_fbink_state_dump, map_to_fbink_config_empty_map_unless_map]
  exact congrArg (fun r => some (r, heap)) h

theorem nif_fbink_update_verbosity_with_empty_records (T : FBInkTypes) (X : FBInkCallTypes) (E : Native)
    (heap : Heap) (a0 : Term) :
    Nif.run T X E heap .fbink_update_verbosity (with_empty_records (Nif.expects .fbink_update_verbosity) [a0])
      = Nif.run T X E heap .fbink_update_verbosity [a0] := by
  have h : nif_fbink_update_verbosity T (empty_map_unless_map a0)
      = nif_fbink_update_verbosity T a0 := by
    simp only [nif_fbink_update_verbosity, map_to_fbink_config_empty_map_unless_map]
  exact congrArg (fun r => some (r, heap)) h

theorem nif_fbink_update_pen_colors_with_empty_records (T : FBInkTypes) (X : FBInkCallTypes) (E : Native)
    (heap : Heap) (a0 : Term) :
    Nif.run T X E heap .fbink_update_pen_colors (with_empty_records (Nif.expects .fbink_update_pen_colors) [a0])
      = Nif.run T X E heap .fbink_update_pen_colors [a0] := by
  have h : nif_fbink_update_pen_colors T E (empty_map_unless_map a0)
      = nif_fbink_update_pen_colors T E a0 := by
    simp only [nif_fbink_update_pen_colors, map_to_fbink_config_empty_map_unless_map]
  exact congrArg (fun r => some (r, heap)) h

theorem nif_fbink_print_with_empty_records (T : FBInkTypes) (X : FBInkCallTypes) (E : Native)
    (heap : Heap) (a0 a1 a2 : Term) :
    Nif.run T X E heap .fbink_print (with_empty_records (Nif.expects .fbink_print) [a0, a1, a2])
      = Nif.run T X E heap .fbink_print [a0, a1, a2] := by
  have h : nif_fbink_print T E a0 a1 (empty_map_unless_map a2)
      = nif_fbink_print T E a0 a1 a2 := by
    simp only [nif_fbink_print, map_to_fbink_config_empty_map_unless_map]
  exact congrArg (fun r => some (r, heap)) h

theorem nif_fbink_print_ot_with_empty_records (T : FBInkTypes) (X : FBInkCallTypes) (E : Native)
    (heap : Heap) (a0 a1 a2 a3 : Term) :
    Nif.run T X E heap .fbink_print_ot (with_empty_records (Nif.expects .fbink_print_ot) [a0, a1, a2, a3])
      = Nif.run T X E heap .fbink_print_ot [a0, a1, a2, a3] := by
  have h : nif_fbink_print_ot T E a0 a1 (empty_map_unless_map a2) (empty_map_unless_map a3)
      = nif_fbink_print_ot T E a0 a1 a2 a3 := by
    simp only [nif_fbink_print_ot, map_to_fbink_config_empty_map_unless_map, map_to_fbink_ot_config_empty_map_unless_map]
  exact congrArg (fun r => some (r, heap)) h

theorem nif_fbink_print_progress_bar_with_empty_records (T : FBInkTypes) (X : FBInkCallTypes) (E : Native)
    (heap : Heap) (a0 a1 a2 : Term) :
    Nif.run T X E heap .fbink_print_progress_bar (with_empty_records (Nif.expects .fbink_print_progress_bar) [a0, a1, a2])
      = Nif.run T X E heap .fbink_print_progress_bar [a0, a1, a2] := by
  have h : nif_fbink_print_progress_bar T E a0 a1 (empty_map_unless_map a2)
      = nif_fbink_print_progress_bar T E a0 a1 a2 := by
    simp only [nif_fbink_print_progress_bar, map_to_fbink_config_empty_map_unless_map]
  exact congrArg (fun r => some (r, heap)) h

theorem nif_fbink_print_activity_bar_with_empty_records (T : FBInkTypes) (X : FBInkCallTypes) (E : Native)
    (heap : Heap) (a0 a1 a2 : Term) :
    Nif.run T X E heap .fbink_print_activity_bar (with_empty_records (Nif.expects .fbink_print_activity_bar) [a0, a1, a2])
      = Nif.run T X E heap .fbink_print_activity_bar [a0, a1, a2] := by
  have h : nif_fbink_print_activity_bar T E a0 a1 (empty_map_unless_map a2)
      = nif_fbink_print_activity_bar T E a0 a1 a2 := by
    simp only [nif_fbink_print_activity_bar, map_to_fbink_config_empty_map_unless_map]
  exact congrArg (fun r => some (r, heap)) h

theorem nif_fbink_print_image_with_empty_records (T : FBInkTypes) (X : FBInkCallTypes) (E : Native)
    (heap : Heap) (a0 a1 a2 a3 a4 : Term) :
    Nif.run T X E heap .fbink_print_image (with_empty_records (Nif.expects .fbink_print_image) [a0, a1, a2, a3, a4])
      = Nif.run T X E heap .fbink_print_image [a0, a1, a2, a3, a4] := by
  have h : nif_fbink_print_image T E a0 a1 a2 a3 (empty_map_unless_map a4)
      = nif_fbink_print_image T E a0 a1 a2 a3 a4 := by
    simp only [nif_fbink_print_image, map_to_fbink_config_empty_map_unless_map]
  exact congrArg (fun r => some (r, heap)) h

theorem nif_fbink_print_raw_data_with_empty_records (T : FBInkTypes) (X : FBInkCallTypes) (E : Native)
    (heap : Heap) (a0 a1 a2 a3 a4 a5 a6 : Term) :
    Nif.run T X E heap .fbink_print_raw_data (with_empty_records (Nif.expects .fbink_print_raw_data) [a0, a1, a2, a3, a4, a5, a6])
      = Nif.run T X E heap .fbink_print_raw_data [a0, a1, a2, a3, a4, a5, a6] := by
  have h : nif_fbink_print_raw_data T E a0 a1 a2 a3 a4 a5 (empty_map_unless_map a6)
      = nif_fbink_print_raw_data T E a0 a1 a2 a3 a4 a5 a6 := by
    simp only [nif_fbink_print_raw_data, map_to_fbink_config_empty_map_unless_map]
  exact congrArg (fun r => some (r, heap)) h

theorem nif_fbink_cls_with_empty_records (T : FBInkTypes) (X : FBInkCallTypes) (E : Native)
    (heap : Heap) (a0 a1 a2 a3 : Term) :
    Nif.run T X E heap .fbink_cls (with_empty_records (Nif.expects .fbink_cls) [a0, a1, a2, a3])
      = Nif.run T X E heap .fbink_cls [a0, a1, a2, a3] := by
  have h : nif_fbink_cls T E a0 (empty_map_unless_map a1) a2 a3
      = nif_fbink_cls T E a0 a1 a2 a3 := by
    simp only [nif_fbink_cls, map_to_fbink_config_empty_map_unless_map]
  exact congrArg (fun r => some (r, heap)) h

theorem nif_fbink_grid_clear_with_empty_records (T : FBInkTypes) (X : FBInkCallTypes) (E : Native)
    (heap : Heap) (a0 a1 a2 a3 : Term) :
    Nif.run T X E heap .fbink_grid_clear (with_empty_records (Nif.expects .fbink_grid_clear) [a0, a1, a2, a3])
      = Nif.run T X E heap .fbink_grid_clear [a0, a1, a2, a3] := by
  have h : nif_fbink_grid_clear T E a0 a1 a2 (empty_map_unless_map a3)
      = nif_fbink_grid_clear T E a0 a1 a2 a3 := by
    simp only [nif_fbink_grid_clear, map_to_fbink_config_empty_map_unless_map]
  exact congrArg (fun r => some (r, heap)) h

theorem nif_fbink_refresh_with_empty_records (T : FBInkTypes) (X : FBInkCallTypes) (E : Native)
    (heap : Heap) (a0 a1 a2 a3 a4 a5 : Term) :
    Nif.run T X E heap .fbink_refresh (with_empty_records (Nif.expects .fbink_refresh) [a0, a1, a2, a3, a4, a5])
      = Nif.run T X E heap .fbink_refresh [a0, a1, a2, a3, a4, a5] := by
  have h : nif_fbink_refresh T E a0 a1 a2 a3 a4 (empty_map_unless_map a5)
      = nif_fbink_refresh T E a0 a1 a2 a3 a4 a5 := by
    simp only [nif_fbink_refresh, map_to_fbink_config_empty_map_unless_map]
  exact congrArg (fun r => some (r, heap)) h

theorem nif_fbink_refresh_rect_with_empty_records (T : FBInkTypes) (X : FBInkCallTypes) (E : Native)
    (heap : Heap) (a0 a1 a2 : Term) :
    Nif.run T X E heap .fbink_refresh_rect (with_empty_records (Nif.expects .fbink_refresh_rect) [a0, a1, a2])
      = Nif.run T X E heap .fbink_refresh_rect [a0, a1, a2] := by
  have h : nif_fbink_refresh_rect T E a0 (empty_map_unless_map a1) (empty_map_unless_map a2)
      = nif_fbink_refresh_rect T E a0 a1 a2 := by
    simp only [nif_fbink_refresh_rect, map_to_fbink_config_empty_map_unless_map, map_to_fbink_rect_empty_map_unless_map]
  exact congrArg (fun r => some (r, heap)) h

theorem nif_fbink_grid_refresh_with_empty_records (T : FBInkTypes) (X : FBInkCallTypes) (E : Native)
    (heap : Heap) (a0 a1 a2 a3 : Term) :
    Nif.run T X E heap .fbink_grid_refresh (with_empty_records (Nif.expects .fbink_grid_refresh) [a0, a1, a2, a3])
      = Nif.run T X E heap .fbink_grid_refresh [a0, a1, a2, a3] := by
  have h : nif_fbink_grid_refresh T E a0 a1 a2 (empty_map_unless_map a3)
      = nif_fbink_grid_refresh T E a0 a1 a2 a3 := by
    simp only [nif_fbink_grid_refresh, map_to_fbink_config_empty_map_unless_map]
  exact congrArg (fun r => some (r, heap)) h

theorem nif_fbink_region_dump_with_empty_records (T : FBInkTypes) (X : FBInkCallTypes) (E : Native)
    (heap : Heap) (a0 a1 a2 a3 a4 a5 : Term) :
    Nif.run T X E heap .fbink_region_dump (with_empty_records (Nif.expects .fbink_region_dump) [a0, a1, a2, a3, a4, a5])
      = Nif.run T X E heap .fbink_region_dump [a0, a1, a2, a3, a4, a5] := by
  have h : nif_fbink_region_dump T E heap a0 a1 a2 a3 a4 (empty_map_unless_map a5)
      = nif_fbink_region_dump T E heap a0 a1 a2 a3 a4 a5 := by
    simp only [nif_fbink_region_dump, map_to_fbink_config_empty_map_unless_map]
  exact congrArg some h

theorem nif_fbink_rect_dump_with_empty_records (T : FBInkTypes) (X : FBInkCallTypes) (E : Native)
    (heap : Heap) (a0 a1 : Term) :
    Nif.run T X E heap .fbink_rect_dump (with_empty_records (Nif.expects .fbink_rect_dump) [a0, a1])
      = Nif.run T X E heap .fbink_rect_dump [a0, a1] := by
  have h : nif_fbink_rect_dump E heap a0 (empty_map_unless_map a1)
      = nif_fbink_rect_dump E heap a0 a1 := by
    simp only [nif_fbink_rect_dump, map_to_fbink_rect_empty_map_unless_map]
  exact congrArg some h

theorem nif_fbink_restore_with_empty_records (T : FBInkTypes) (X : FBInkCallTypes) (E : Native)
    (heap : Heap) (a0 a1 a2 : Term) :
    Nif.run T X E heap .fbink_restore (with_empty_records (Nif.expects .fbink_restore) [a0, a1, a2])
      = Nif.run T X E heap .fbink_restore [a0, a1, a2] := by
  have h : nif_fbink_restore T E heap a0 (empty_map_unless_map a1) a2
      = nif_fbink_restore T E heap a0 a1 a2 := by
    simp only [nif_fbink_restore, map_to_fbink_config_empty_map_unless_map]
  exact congrArg some h

theorem nif_fbink_invert_screen_with_empty_records (T : FBInkTypes) (X : FBInkCallTypes) (E : Native)
    (heap : Heap) (a0 a1 : Term) :
    Nif.run T X E heap .fbink_invert_screen (with_empty_records (Nif.expects .fbink_invert_screen) [a0, a1])
      = Nif.run T X E heap .fbink_invert_screen [a0, a1] := by
  have h : nif_fbink_invert_screen T E a0 (empty_map_unless_map a1)
      = nif_fbink_invert_screen T E a0 a1 := by
    simp only [nif_fbink_invert_screen, map_to_fbink_config_empty_map_unless_map]
  exact congrArg (fun r => some (r, heap)) h

theorem nif_fbink_invert_rect_with_empty_records (T : FBInkTypes) (X : FBInkCallTypes) (E : Native)
    (heap : Heap) (a0 a1 a2 : Term) :
    Nif.run T X E heap .fbink_invert_rect (with_empty_records (Nif.expects .fbink_invert_rect) [a0, a1, a2])
      = Nif.run T X E heap .fbink_invert_rect [a0, a1, a2] := by
  have h : nif_fbink_invert_rect E a0 (empty_map_unless_map a1) a2
      = nif_fbink_invert_rect E a0 a1 a2 := by
    simp only [nif_fbink_invert_rect, map_to_fbink_rect_empty_map_unless_map]
  exact congrArg (fun r => some (r, heap)) h

theorem nif_fbink_set_fb_info_with_empty_records (T : FBInkTypes) (X : FBInkCallTypes) (E : Native)
    (heap : Heap) (a0 a1 a2 a3 a4 : Term) :
    Nif.run T X E heap .fbink_set_fb_info (with_empty_records (Nif.expects .fbink_set_fb_info) [a0, a1, a2, a3, a4])
      = Nif.run T X E heap .fbink_set_fb_info [a0, a1, a2, a3, a4] := by
  have h : nif_fbink_set_fb_info T E a0 a1 a2 a3 (empty_map_unless_map a4)
      = nif_fbink_set_fb_info T E a0 a1 a2 a3 a4 := by
    simp only [nif_fbink_set_fb_info, map_to_fbink_config_empty_map_unless_map]
  exact congrArg (fun r => some (r, heap)) h

theorem nif_fbink_fill_rect_gray_with_empty_records (T : FBInkTypes) (X : FBInkCallTypes) (E : Native)
    (heap : Heap) (a0 a1 a2 a3 a4 : Term) :
    Nif.run T X E heap .fbink_fill_rect_gray (with_empty_records (Nif.expects .fbink_fill_rect_gray) [a0, a1, a2, a3, a4])
      = Nif.run T X E heap .fbink_fill_rect_gray [a0, a1, a2, a3, a4] := by
  have h : nif_fbink_fill_rect_gray T E a0 (empty_map_unless_map a1) (empty_map_unless_map a2) a3 a4
      = nif_fbink_fill_rect_gray T E a0 a1 a2 a3 a4 := by
    simp only [nif_fbink_fill_rect_gray, map_to_fbink_config_empty_map_unless_map, map_to_fbink_rect_empty_map_unless_map]
  exact congrArg (fun r => some (r, heap)) h

theorem nif_fbink_fill_rect_rgba_with_empty_records (T : FBInkTypes) (X : FBInkCallTypes) (E : Native)
    (heap : Heap) (a0 a1 a2 a3 a4 a5 a6 a7 : Term) :
    Nif.run T X E heap .fbink_fill_rect_rgba (with_empty_records (Nif.expects .fbink_fill_rect_rgba) [a0, a1, a2, a3, a4, a5, a6, a7])
      = Nif.run T X E heap .fbink_fill_rect_rgba [a0, a1, a2, a3, a4, a5, a6, a7] := by
  have h : nif_fbink_fill_rect_rgba T E a0 (empty_map_unless_map a1) (empty_map_unless_map a2) a3 a4 a5 a6 a7
      = nif_fbink_fill_rect_rgba T E a0 a1 a2 a3 a4 a5 a6 a7 := by
    simp only [nif_fbink_fill_rect_rgba, map_to_fbink_config_empty_map_unless_map, map_to_fbink_rect_empty_map_unless_map]
  exact congrArg (fun r => some (r, heap)) h

theorem nif_fbink_sunxi_ntx_enforce_rota_with_empty_records (T : FBInkTypes) (X : FBInkCallTypes) (E : Native)
    (heap : Heap) (a0 a1 a2 : Term) :
    Nif.run T X E heap .fbink_sunxi_ntx_enforce_rota (with_empty_records (Nif.expects .fbink_sunxi_ntx_enforce_rota) [a0, a1, a2])
      = Nif.run T X E heap .fbink_sunxi_ntx_enforce_rota [a0, a1, a2] := by
  have h : nif_fbink_sunxi_ntx_enforce_rota T X E a0 a1 (empty_map_unless_map a2)
      = nif_fbink_sunxi_ntx_enforce_rota T X E a0 a1 a2 := by
    simp only [nif_fbink_sunxi_ntx_enforce_rota, map_to_fbink_config_empty_map_unless_map]
  exact congrArg (fun r => some (r, heap)) h

theorem nif_run_with_empty_records (T : FBInkTypes) (X : FBInkCallTypes) (E : Native)
    (heap : Heap) (nif : Nif) (argv : List Term)
    (harity : argv.length = nif.expects.length) :
    nif.run T X E heap (with_empty_records nif.expects argv) = nif.run T X E heap argv := by
  cases nif
  case fbink_version =>
    rcases argv with _ | ⟨a0, rest⟩ <;> simp [Nif.expects] at harity
    rfl
  case fbink_target =>
    rcases argv with _ | ⟨a0, rest⟩ <;> simp [Nif.expects] at harity
    rfl
  case fbink_features =>
    rcases argv with _ | ⟨a0, rest⟩ <;> simp [Nif.expects] at harity
    rfl
  case fbink_open =>
    rcases argv with _ | ⟨a0, rest⟩ <;> simp [Nif.expects] at harity
    rfl
  case fbink_close =>
    rcases argv with _ | ⟨a0, _ | ⟨a1, rest⟩⟩ <;> simp [Nif.expects] at harity
    rfl
  case fbink_init =>
    rcases argv with _ | ⟨a0, _ | ⟨a1, _ | ⟨a2, rest⟩⟩⟩ <;> simp [Nif.expects] at harity
    exact nif_fbink_init_with_empty_records T X E heap a0 a1
  case fbink_reinit =>
    rcases argv with _ | ⟨a0, _ | ⟨a1, _ | ⟨a2, rest⟩⟩⟩ <;> simp [Nif.expects] at harity
    exact nif_fbink_reinit_with_empty_records T X E heap a0 a1
  case fbink_get_state =>
    rcases argv with _ | ⟨a0, _ | ⟨a1, rest⟩⟩ <;> simp [Nif.expects] at harity
    exact nif_fbink_get_state_with_empty_records T X E heap a0
  case fbink_state_dump =>
    rcases argv with _ | ⟨a0, _ | ⟨a1, rest⟩⟩ <;> simp [Nif.expects] at harity
    exact nif_fbink_state_dump_with_empty_records T X E heap a0
  case fbink_get_last_rect =>
    rcases argv with _ | ⟨a0, _ | ⟨a1, rest⟩⟩ <;> simp [Nif.expects] at harity
    rfl
  case fbink_get_last_marker =>
    rcases argv with _ | ⟨a0, rest⟩ <;> simp [Nif.expects] at harity
    rfl
  case fbink_is_fb_quirky =>
    rcases argv with _ | ⟨a0, rest⟩ <;> simp [Nif.expects] at harity
    rfl
  case fbink_update_verbosity =>
    rcases argv with _ | ⟨a0, _ | ⟨a1, rest⟩⟩ <;> simp [Nif.expects] at harity
    exact nif_fbink_update_verbosity_with_empty_records T X E heap a0
  case fbink_update_pen_colors =>
    rcases argv with _ | ⟨a0, _ | ⟨a1, rest⟩⟩ <;> simp [Nif.expects] at harity
    exact nif_fbink_update_pen_colors_with_empty_records T X E heap a0
  case fbink_set_fg_pen_gray =>
    rcases argv with _ | ⟨a0, _ | ⟨a1, _ | ⟨a2, _ | ⟨a3, rest⟩⟩⟩⟩ <;> simp [Nif.expects] at harity
    rfl
  case fbink_set_bg_pen_gray =>
    rcases argv with _ | ⟨a0, _ | ⟨a1, _ | ⟨a2, _ | ⟨a3, rest⟩⟩⟩⟩ <;> simp [Nif.expects] at harity
    rfl
  case fbink_set_fg_pen_rgba =>
    rcases argv with _ | ⟨a0, _ | ⟨a1, _ | ⟨a2, _ | ⟨a3, _ | ⟨a4, _ | ⟨a5, _ | ⟨a6, rest⟩⟩⟩⟩⟩⟩⟩ <;> simp [Nif.expects] at harity
    rfl
  case fbink_set_bg_pen_rgba =>
    rcases argv with _ | ⟨a0, _ | ⟨a1, _ | ⟨a2, _ | ⟨a3, _ | ⟨a4, _ | ⟨a5, _ | ⟨a6, rest⟩⟩⟩⟩⟩⟩⟩ <;> simp [Nif.expects] at harity
    rfl
  case fbink_print =>
    rcases argv with _ | ⟨a0, _ | ⟨a1, _ | ⟨a2, _ | ⟨a3, rest⟩⟩⟩⟩ <;> simp [Nif.expects] at harity
    exact nif_fbink_print_with_empty_records T X E heap a0 a1 a2
  case fbink_add_ot_font =>
    rcases argv with _ | ⟨a0, _ | ⟨a1, _ | ⟨a2, rest⟩⟩⟩ <;> simp [Nif.expects] at harity
    rfl
  case fbink_free_ot_fonts =>
    rcases argv with _ | ⟨a0, rest⟩ <;> simp [Nif.expects] at harity
    rfl
  case fbink_print_ot =>
    rcases argv with _ | ⟨a0, _ | ⟨a1, _ | ⟨a2, _ | ⟨a3, _ | ⟨a4, rest⟩⟩⟩⟩⟩ <;> simp [Nif.expects] at harity
    exact nif_fbink_print_ot_with_empty_records T X E heap a0 a1 a2 a3
  case fbink_print_progress_bar =>
    rcases argv with _ | ⟨a0, _ | ⟨a1, _ | ⟨a2, _ | ⟨a3, rest⟩⟩⟩⟩ <;> simp [Nif.expects] at harity
    exact nif_fbink_print_progress_bar_with_empty_records T X E heap a0 a1 a2
  case fbink_print_activity_bar =>
    rcases argv with _ | ⟨a0, _ | ⟨a1, _ | ⟨a2, _ | ⟨a3, rest⟩⟩⟩⟩ <;> simp [Nif.expects] at harity
    exact nif_fbink_print_activity_bar_with_empty_records T X E heap a0 a1 a2
  case fbink_print_image =>
    rcases argv with _ | ⟨a0, _ | ⟨a1, _ | ⟨a2, _ | ⟨a3, _ | ⟨a4, _ | ⟨a5, rest⟩⟩⟩⟩⟩⟩ <;> simp [Nif.expects] at harity
    exact nif_fbink_print_image_with_empty_records T X E heap a0 a1 a2 a3 a4
  case fbink_print_raw_data =>
    rcases argv with _ | ⟨a0, _ | ⟨a1, _ | ⟨a2, _ | ⟨a3, _ | ⟨a4, _ | ⟨a5, _ | ⟨a6, _ | ⟨a7, rest⟩⟩⟩⟩⟩⟩⟩⟩ <;> simp [Nif.expects] at harity
    exact nif_fbink_print_raw_data_with_empty_records T X E heap a0 a1 a2 a3 a4 a5 a6
  case fbink_cls =>
    rcases argv with _ | ⟨a0, _ | ⟨a1, _ | ⟨a2, _ | ⟨a3, _ | ⟨a4, rest⟩⟩⟩⟩⟩ <;> simp [Nif.expects] at harity
    exact nif_fbink_cls_with_empty_records T X E heap a0 a1 a2 a3
  case fbink_grid_clear =>
    rcases argv with _ | ⟨a0, _ | ⟨a1, _ | ⟨a2, _ | ⟨a3, _ | ⟨a4, rest⟩⟩⟩⟩⟩ <;> simp [Nif.expects] at harity
    exact nif_fbink_grid_clear_with_empty_records T X E heap a0 a1 a2 a3
  case fbink_refresh =>
    rcases argv with _ | ⟨a0, _ | ⟨a1, _ | ⟨a2, _ | ⟨a3, _ | ⟨a4, _ | ⟨a5, _ | ⟨a6, rest⟩⟩⟩⟩⟩⟩⟩ <;> simp [Nif.expects] at harity
    exact nif_fbink_refresh_with_empty_records T X E heap a0 a1 a2 a3 a4 a5
  case fbink_refresh_rect =>
    rcases argv with _ | ⟨a0, _ | ⟨a1, _ | ⟨a2, _ | ⟨a3, rest⟩⟩⟩⟩ <;> simp [Nif.expects] at harity
    exact nif_fbink_refresh_rect_with_empty_records T X E heap a0 a1 a2
  case fbink_grid_refresh =>
    rcases argv with _ | ⟨a0, _ | ⟨a1, _ | ⟨a2, _ | ⟨a3, _ | ⟨a4, rest⟩⟩⟩⟩⟩ <;> simp [Nif.expects] at harity
    exact nif_fbink_grid_refresh_with_empty_records T X E heap a0 a1 a2 a3
  case fbink_wait_for_submission =>
    rcases argv with _ | ⟨a0, _ | ⟨a1, _ | ⟨a2, rest⟩⟩⟩ <;> simp [Nif.expects] at harity
    rfl
  case fbink_wait_for_complete =>
    rcases argv with _ | ⟨a0, _ | ⟨a1, _ | ⟨a2, rest⟩⟩⟩ <;> simp [Nif.expects] at harity
    rfl
  case fbink_wait_for_any_complete =>
    rcases argv with _ | ⟨a0, _ | ⟨a1, rest⟩⟩ <;> simp [Nif.expects] at harity
    rfl
  case fbink_dump =>
    rcases argv with _ | ⟨a0, _ | ⟨a1, rest⟩⟩ <;> simp [Nif.expects] at harity
    rfl
  case fbink_region_dump =>
    rcases argv with _ | ⟨a0, _ | ⟨a1, _ | ⟨a2, _ | ⟨a3, _ | ⟨a4, _ | ⟨a5, _ | ⟨a6, rest⟩⟩⟩⟩⟩⟩⟩ <;> simp [Nif.expects] at harity
    exact nif_fbink_region_dump_with_empty_records T X E heap a0 a1 a2 a3 a4 a5
  case fbink_rect_dump =>
    rcases argv with _ | ⟨a0, _ | ⟨a1, _ | ⟨a2, rest⟩⟩⟩ <;> simp [Nif.expects] at harity
    exact nif_fbink_rect_dump_with_empty_records T X E heap a0 a1
  case fbink_restore =>
    rcases argv with _ | ⟨a0, _ | ⟨a1, _ | ⟨a2, _ | ⟨a3, rest⟩⟩⟩⟩ <;> simp [Nif.expects] at harity
    exact nif_fbink_restore_with_empty_records T X E heap a0 a1 a2
  case fbink_free_dump_data =>
    rcases argv with _ | ⟨a0, _ | ⟨a1, rest⟩⟩ <;> simp [Nif.expects] at harity
    rfl
  case fbink_get_dump_data =>
    rcases argv with _ | ⟨a0, _ | ⟨a1, rest⟩⟩ <;> simp [Nif.expects] at harity
    rfl
  case fbink_invert_screen =>
    rcases argv with _ | ⟨a0, _ | ⟨a1, _ | ⟨a2, rest⟩⟩⟩ <;> simp [Nif.expects] at harity
    exact nif_fbink_invert_screen_with_empty_records T X E heap a0 a1
  case fbink_invert_rect =>
    rcases argv with _ | ⟨a0, _ | ⟨a1, _ | ⟨a2, _ | ⟨a3, rest⟩⟩⟩⟩ <;> simp [Nif.expects] at harity
    exact nif_fbink_invert_rect_with_empty_records T X E heap a0 a1 a2
  case fbink_rota_native_to_canonical =>
    rcases argv with _ | ⟨a0, _ | ⟨a1, rest⟩⟩ <;> simp [Nif.expects] at harity
    rfl
  case fbink_rota_canonical_to_native =>
    rcases argv with _ | ⟨a0, _ | ⟨a1, rest⟩⟩ <;> simp [Nif.expects] at harity
    rfl
  case fbink_set_fb_info =>
    rcases argv with _ | ⟨a0, _ | ⟨a1, _ | ⟨a2, _ | ⟨a3, _ | ⟨a4, _ | ⟨a5, rest⟩⟩⟩⟩⟩⟩ <;> simp [Nif.expects] at harity
    exact nif_fbink_set_fb_info_with_empty_records T X E heap a0 a1 a2 a3 a4
  case fbink_fill_rect_gray =>
    rcases argv with _ | ⟨a0, _ | ⟨a1, _ | ⟨a2, _ | ⟨a3, _ | ⟨a4, _ | ⟨a5, rest⟩⟩⟩⟩⟩⟩ <;> simp [Nif.expects] at harity
    exact nif_fbink_fill_rect_gray_with_empty_records T X E heap a0 a1 a2 a3 a4
  case fbink_fill_rect_rgba =>
    rcases argv with _ | ⟨a0, _ | ⟨a1, _ | ⟨a2, _ | ⟨a3, _ | ⟨a4, _ | ⟨a5, _ | ⟨a6, _ | ⟨a7, _ | ⟨a8, rest⟩⟩⟩⟩⟩⟩⟩⟩⟩ <;> simp [Nif.expects] at harity
    exact nif_fbink_fill_rect_rgba_with_empty_records T X E heap a0 a1 a2 a3 a4 a5 a6 a7
  case fbink_put_pixel_gray =>
    rcases argv with _ | ⟨a0, _ | ⟨a1, _ | ⟨a2, _ | ⟨a3, _ | ⟨a4, rest⟩⟩⟩⟩⟩ <;> simp [Nif.expects] at harity
    rfl
  case fbink_put_pixel_rgba =>
    rcases argv with _ | ⟨a0, _ | ⟨a1, _ | ⟨a2, _ | ⟨a3, _ | ⟨a4, _ | ⟨a5, _ | ⟨a6, _ | ⟨a7, rest⟩⟩⟩⟩⟩⟩⟩⟩ <;> simp [Nif.expects] at harity
    rfl
  case fbink_get_pixel =>
    rcases argv with _ | ⟨a0, _ | ⟨a1, _ | ⟨a2, _ | ⟨a3, rest⟩⟩⟩⟩ <;> simp [Nif.expects] at harity
    rfl
  case fbink_pack_pixel_gray =>
    rcases argv with _ | ⟨a0, _ | ⟨a1, rest⟩⟩ <;> simp [Nif.expects] at harity
    rfl
  case fbink_pack_pixel_rgba =>
    rcases argv with _ | ⟨a0, _ | ⟨a1, _ | ⟨a2, _ | ⟨a3, _ | ⟨a4, rest⟩⟩⟩⟩⟩ <;> simp [Nif.expects] at harity
    rfl
  case fbink_wakeup_epdc =>
    rcases argv with _ | ⟨a0, rest⟩ <;> simp [Nif.expects] at harity
    rfl
  case fbink_sunxi_toggle_ntx_pen_mode =>
    rcases argv with _ | ⟨a0, _ | ⟨a1, _ | ⟨a2, rest⟩⟩⟩ <;> simp [Nif.expects] at harity
    rfl
  case fbink_sunxi_ntx_enforce_rota =>
    rcases argv with _ | ⟨a0, _ | ⟨a1, _ | ⟨a2, _ | ⟨a3, rest⟩⟩⟩⟩ <;> simp [Nif.expects] at harity
    exact nif_fbink_sunxi_ntx_enforce_rota_with_empty_records T X E heap a0 a1 a2
  case fbink_mtk_set_swipe_data =>
    rcases argv with _ | ⟨a0, _ | ⟨a1, _ | ⟨a2, rest⟩⟩⟩ <;> simp [Nif.expects] at harity
    rfl
  case fbink_mtk_set_halftone =>
    rcases argv with _ | ⟨a0, _ | ⟨a1, _ | ⟨a2, _ | ⟨a3, rest⟩⟩⟩⟩ <;> simp [Nif.expects] at harity
    rfl
  case fbink_mtk_toggle_auto_reagl =>
    rcases argv with _ | ⟨a0, _ | ⟨a1, _ | ⟨a2, rest⟩⟩⟩ <;> simp [Nif.expects] at harity
    rfl
  case fbink_mtk_toggle_pen_mode =>
    rcases argv with _ | ⟨a0, _ | ⟨a1, _ | ⟨a2, rest⟩⟩⟩ <;> simp [Nif.expects] at harity
    rfl
  case fbink_input_scan =>
    rcases argv with _ | ⟨a0, _ | ⟨a1, _ | ⟨a2, _ | ⟨a3, rest⟩⟩⟩⟩ <;> simp [Nif.expects] at harity
    rfl
  case fbink_input_check =>
    rcases argv with _ | ⟨a0, _ | ⟨a1, _ | ⟨a2, _ | ⟨a3, _ | ⟨a4, rest⟩⟩⟩⟩⟩ <;> simp [Nif.expects] at harity
    rfl
  case fbink_button_scan =>
    rcases argv with _ | ⟨a0, _ | ⟨a1, _ | ⟨a2, _ | ⟨a3, rest⟩⟩⟩⟩ <;> simp [Nif.expects] at harity
    rfl
  case fbink_wait_for_usbms_processing =>
    rcases argv with _ | ⟨a0, _ | ⟨a1, _ | ⟨a2, rest⟩⟩⟩ <;> simp [Nif.expects] at harity
    rfl

/-- C14, amended: argument validation precedes every native call. For every bridged
operation called with as many arguments as its arity, if some argument cannot be read
as the kind expected at its position (a native `int`, a native `unsigned int`, text, a
binary, a path that fits its buffer, a live dump resource) the call is rejected with
the bad-argument exception, no native entry point is invoked and the resources are as
before. If every argument can be read, the call is not rejected. A configuration,
OpenType configuration or rectangle argument can always be read, whatever term it is,
so it is never the reason for a rejection: a term that is not a mapping is marshalled
as the empty mapping is, and the operation gives the same result and makes the same
native calls as with the empty mapping in that position. The record made of a term that
is not a mapping is the all-zero configuration, the all-zero rectangle, and the
OpenType configuration that is all-zero except for `style`, the cast of `FNT_REGULAR`,
and `size_pt`, the cast of zero. So `nif_fbink_init` with a readable descriptor and a
term that is not a mapping in place of the configuration invokes `fbink_init` with the
all-zero configuration, and `nif_fbink_refresh_rect` with a term that is not a mapping
in place of the rectangle invokes `fbink_refresh_rect` with the all-zero rectangle. -/
theorem bad_argument_iff_unreadable (T : FBInkTypes) (X : FBInkCallTypes) (E : Native)
    (heap : Heap) (nif : Nif) (argv : List Term)
    (harity : argv.length = nif.expects.length) :
    (∃ run heap1, nif.run T X E heap argv = some (run, heap1) ∧
      ((∃ (i : Nat) (kind : ArgKind) (t : Term), nif.expects[i]? = some kind ∧ argv[i]? = some t ∧
          kind.readable heap t = false) →
        run.ret = .badarg ∧ run.calls = [] ∧ heap1 = heap) ∧
      ((∀ (i : Nat) (kind : ArgKind) (t : Term), nif.expects[i]? = some kind → argv[i]? = some t →
          kind.readable heap t = true) →
        run.ret ≠ .badarg)) ∧
    (∀ t : Term, ArgKind.readable heap .config t = true ∧
      ArgKind.readable heap .ot_config t = true ∧ ArgKind.readable heap .rect t = true ∧
      ArgKind.readable heap .optional_rect t = true ∧
      ArgKind.readable heap .rect_list t = true) ∧
    nif.run T X E heap (with_empty_records nif.expects argv) = nif.run T X E heap argv ∧
    (∀ t : Term, (∀ entries, t ≠ .map entries) →
      empty_map_unless_map t = .map [] ∧
      map_to_fbink_config T t = FBInkConfig.zeroed ∧
      map_to_fbink_rect t = FBInkRect.zeroed ∧
      map_to_fbink_ot_config T t
        = { FBInkOTConfig.zeroed with
            style := cast_unsigned T.FONT_STYLE_T T.FNT_REGULAR,
            size_pt := T.cast_float 0 }) ∧
    (∀ (a0 a1 : Term) (fbfd : Int), enif_get_int a0 = some fbfd →
      (∀ entries, a1 ≠ .map entries) →
      nif_fbink_init T E a0 a1
        = { ret := .term (make_ok_or_error E.rv),
            calls := [{ entry := "fbink_init",
                        args := [.int fbfd, .config FBInkConfig.zeroed] }] }) ∧
    (∀ (a0 a1 a2 : Term) (fbfd : Int), enif_get_int a0 = some fbfd →
      (∀ entries, a1 ≠ .map entries) →
      nif_fbink_refresh_rect T E a0 a1 a2
        = { ret := .term (make_ok_or_error E.rv),
            calls := [{ entry := "fbink_refresh_rect",
                        args := [.int fbfd, .rect FBInkRect.zeroed,
                          .config (map_to_fbink_config T a2)] }] }) := by
  refine ⟨?_, fun t => ⟨rfl, rfl, rfl, rfl, rfl⟩,
    nif_run_with_empty_records T X E heap nif argv harity, fun t ht => ⟨?_,
      map_to_fbink_config_of_not_map T t ht, map_to_fbink_rect_of_not_map t ht,
      map_to_fbink_ot_config_of_not_map T t ht⟩,
    fun a0 a1 fbfd h0 h1 => by
      simp only [nif_fbink_init, h0, map_to_fbink_config_of_not_map T a1 h1],
    fun a0 a1 a2 fbfd h0 h1 => by
      simp only [nif_fbink_refresh_rect, h0, map_to_fbink_rect_of_not_map a1 h1]⟩
  · obtain ⟨run, heap1, hrun, hbad, hgood⟩ := nif_run_rejects_iff T X E heap nif argv harity
    refine ⟨run, heap1, hrun, ?_, ?_⟩
    · intro hex
      obtain ⟨hr, hh⟩ := hbad ((all_readable_eq_false_iff heap nif.expects argv).mpr hex)
      rw [hr]
      exact ⟨rfl, rfl, hh⟩
    · intro hall
      exact hgood (all_readable_eq_true_of_forall heap nif.expects argv hall)
  · cases t with
    | map entries => exact absurd rfl (ht entries)
    | _ => rfl

theorem bad_argument_iff_unreadable_witness :
    [Term.atom "fd", Term.map []].length = Nif.fbink_init.expects.length ∧
    (∃ run heap1,
      Nif.fbink_init.run fbink_h fbink_call_h sample_native empty_heap
          [Term.atom "fd", Term.map []] = some (run, heap1) ∧
      ((∃ (i : Nat) (kind : ArgKind) (t : Term), Nif.fbink_init.expects[i]? = some kind ∧
          [Term.atom "fd", Term.map []][i]? = some t ∧
          kind.readable empty_heap t = false) →
        run.ret = .badarg ∧ run.calls = [] ∧ heap1 = empty_heap) ∧
      ((∀ (i : Nat) (kind : ArgKind) (t : Term), Nif.fbink_init.expects[i]? = some kind →
          [Term.atom "fd", Term.map []][i]? = some t →
          kind.readable empty_heap t = true) →
        run.ret ≠ .badarg)) ∧
    Nif.fbink_init.run fbink_h fbink_call_h sample_native empty_heap [.int 3, .map []]
      = Nif.fbink_init.run fbink_h fbink_call_h sample_native empty_heap [.int 3, .int 7] ∧
    map_to_fbink_config fbink_h (.int 7) = FBInkConfig.zeroed :=
  ⟨rfl,
   (bad_argument_iff_unreadable fbink_h fbink_call_h sample_native empty_heap
      Nif.fbink_init [Term.atom "fd", Term.map []] rfl).1,
   (bad_argument_iff_unreadable fbink_h fbink_call_h sample_native empty_heap
      Nif.fbink_init [.int 3, .int 7] rfl).2.2.1,
   ((bad_argument_iff_unreadable fbink_h fbink_call_h sample_native empty_heap
      Nif.fbink_init [.int 3, .int 7] rfl).2.2.2.1 (.int 7)
      (fun _ hv => Term.noConfusion hv)).2.1⟩

/-! ## Variable-length transfer -/

theorem enif_inspect_iolist_as_binary_bytes (bs : List Nat) (hb : ∀ b ∈ bs, b ≤ 255) :
    enif_inspect_iolist_as_binary (byte_list bs) = some bs := by
  induction bs with
  | nil => rfl
  | cons b rest ih =>
    have hb0 : b ≤ 255 := hb b (List.mem_cons_self _ _)
    have hrest : ∀ c ∈ rest, c ≤ 255 := fun c hc => hb c (List.mem_cons_of_mem _ hc)
    have h255 : (b : Int) ≤ 255 := by exact_mod_cast hb0
    simp only [byte_list, List.map_cons, list_term, enif_inspect_iolist_as_binary] at ih ⊢
    rw [ih hrest]
    simp [h255]

theorem enif_get_string_loop_fits (size : Nat) (bs : List Nat) (hb : ∀ b ∈ bs, b ≤ 255) :
    ∀ written : List Nat, written.length + bs.length < size →
      enif_get_string_loop size (byte_list bs) written
        = (((written.length + bs.length + 1 : Nat) : Int), written ++ bs ++ [0]) := by
  induction bs with
  | nil =>
    intro written _
    simp [byte_list, list_term, enif_get_string_loop]
  | cons b rest ih =>
    intro written hfit
    have hb0 : b ≤ 255 := hb b (List.mem_cons_self _ _)
    have hrest : ∀ c ∈ rest, c ≤ 255 := fun c hc => hb c (List.mem_cons_of_mem _ hc)
    have h255 : (b : Int) ≤ 255 := by exact_mod_cast hb0
    have hroom : ¬ (written.length + 1 ≥ size) := by
      simp only [List.length_cons] at hfit
      omega
    have hnext : (written ++ [b]).length + rest.length < size := by
      simp only [List.length_cons, List.length_append, List.length_nil] at hfit ⊢
      omega
    have ih2 := ih hrest (written ++ [b]) hnext
    simp only [byte_list, List.map_cons, list_term, enif_get_string_loop] at ih2 ⊢
    simp only [Int.ofNat_eq_coe, Int.natCast_nonneg, h255, and_self, if_true, hroom, if_false,
      Int.toNat_ofNat] at ih2 ⊢
    rw [ih2]
    simp only [List.length_append, List.length_cons, List.length_nil, List.append_assoc,
      List.singleton_append, Prod.mk.injEq, and_true]
    omega

theorem enif_get_string_loop_truncated (size : Nat) (bs : List Nat)
    (hb : ∀ b ∈ bs, b ≤ 255) :
    ∀ written : List Nat, written.length < size → size ≤ written.length + bs.length →
      (enif_get_string_loop size (byte_list bs) written).1
        = -(size : Int) := by
  induction bs with
  | nil =>
    intro written hlt hover
    simp only [List.length_nil] at hover
    omega
  | cons b rest ih =>
    intro written hlt hover
    have hb0 : b ≤ 255 := hb b (List.mem_cons_self _ _)
    have hrest : ∀ c ∈ rest, c ≤ 255 := fun c hc => hb c (List.mem_cons_of_mem _ hc)
    have h255 : (b : Int) ≤ 255 := by exact_mod_cast hb0
    have ih2 := ih hrest (written ++ [b])
    simp only [byte_list, List.map_cons, list_term, enif_get_string_loop] at ih2 ⊢
    simp only [Int.ofNat_eq_coe, Int.natCast_nonneg, h255, and_self, if_true,
      Int.toNat_ofNat] at ih2 ⊢
    by_cases hroom : written.length + 1 ≥ size
    · simp only [hroom, if_true]
    · simp only [hroom, if_false]
      apply ih2
      · simp only [List.length_append, List.length_cons, List.length_nil]
        omega
      · simp only [List.length_append, List.length_cons, List.length_nil] at hover ⊢
        omega

/-- A path given as a binary or as a list of bytes that is too long for the buffer:
`enif_get_string` does not succeed and the iolist has all the bytes. -/
theorem long_path_facts (bs : List Nat) (hb : ∀ b ∈ bs, b ≤ 255) (p : Term)
    (hp : p = .binary bs ∨ p = byte_list bs)
    (hlen : 4096 ≤ bs.length) :
    (enif_get_string p 4096).1 ≤ 0 ∧ enif_inspect_iolist_as_binary p = some bs := by
  rcases hp with rfl | rfl
  · exact ⟨by simp [enif_get_string, enif_get_string_loop], rfl⟩
  · refine ⟨?_, enif_inspect_iolist_as_binary_bytes bs hb⟩
    have h := enif_get_string_loop_truncated 4096 bs hb [] (by simp) (by simpa using hlen)
    simp only [enif_get_string]
    simp only [show ¬ (4096 < 1) by decide, if_false, h]
    decide

/-- A path given as a binary or as a list of bytes that fits the buffer: either it is
read as an iolist, or `enif_get_string` wrote the bytes and the NUL. -/
theorem short_path_facts (bs : List Nat) (hb : ∀ b ∈ bs, b ≤ 255) (p : Term)
    (hp : p = .binary bs ∨ p = byte_list bs)
    (hlen : bs.length ≤ 4095) :
    ((enif_get_string p 4096).1 ≤ 0 ∧ enif_inspect_iolist_as_binary p = some bs) ∨
    (¬ (enif_get_string p 4096).1 ≤ 0 ∧ (enif_get_string p 4096).2 = bs ++ [0]) := by
  rcases hp with rfl | rfl
  · exact Or.inl ⟨by simp [enif_get_string, enif_get_string_loop], rfl⟩
  · right
    have h := enif_get_string_loop_fits 4096 bs hb [] (by simp; omega)
    simp only [enif_get_string]
    simp only [show ¬ (4096 < 1) by decide, if_false, h]
    constructor
    · simp only [List.length_nil, zero_add, not_le]
      exact_mod_cast Nat.succ_pos _
    · simp

theorem c_bytes_cons_zero (rest : List Nat) : c_bytes (0 :: rest) = [] := by
  simp [c_bytes]

theorem c_bytes_cons_nonzero (b : Nat) (rest : List Nat) (hb : b ≠ 0) :
    c_bytes (b :: rest) = b :: c_bytes rest := by
  simp [c_bytes, List.takeWhile_cons, hb]

theorem c_bytes_append_nul (bs : List Nat) : c_bytes (bs ++ [0]) = c_bytes bs := by
  induction bs with
  | nil => rfl
  | cons b rest ih =>
    by_cases hz : b = 0
    · subst hz
      rw [List.cons_append, c_bytes_cons_zero, c_bytes_cons_zero]
    · rw [List.cons_append, c_bytes_cons_nonzero b _ hz, c_bytes_cons_nonzero b _ hz, ih]

theorem c_bytes_of_no_nul (bs : List Nat) (h : ∀ b ∈ bs, b ≠ 0) : c_bytes bs = bs := by
  induction bs with
  | nil => rfl
  | cons b rest ih =>
    have hb : b ≠ 0 := h b (List.mem_cons_self _ _)
    have hrest : ∀ c ∈ rest, c ≠ 0 := fun c hc => h c (List.mem_cons_of_mem _ hc)
    rw [c_bytes_cons_nonzero b _ hb, ih hrest]

theorem c_bytes_cut (pre post : List Nat) (h : ∀ b ∈ pre, b ≠ 0) :
    c_bytes (pre ++ 0 :: post) = pre := by
  induction pre with
  | nil => exact c_bytes_cons_zero post
  | cons b rest ih =>
    have hb : b ≠ 0 := h b (List.mem_cons_self _ _)
    have hrest : ∀ c ∈ rest, c ≠ 0 := fun c hc => h c (List.mem_cons_of_mem _ hc)
    rw [List.cons_append, c_bytes_cons_nonzero b _ hb, ih hrest]

/-- C15, as stated, fails: the four-byte path `/a`, zero byte, `b` is accepted, as a
binary and as a character list, and the native entry point, which takes a bare
NUL-terminated string, receives the two bytes `/a`: the path is cut at the zero byte. -/
theorem path_embedded_nul_counterexample :
    (nif_fbink_add_ot_font fbink_h sample_native (.binary [47, 97, 0, 98]) (.int 0)).calls
      = [{ entry := "fbink_add_ot_font", args := [.c_str [47, 97], .int 0] }] ∧
    (nif_fbink_add_ot_font fbink_h sample_native (byte_list [47, 97, 0, 98]) (.int 0)).calls
      = [{ entry := "fbink_add_ot_font", args := [.c_str [47, 97], .int 0] }] ∧
    (nif_fbink_print_image fbink_h sample_native (.int 3) (.binary [47, 97, 0, 98]) (.int 0)
        (.int 0) (.map [])).calls
      = [{ entry := "fbink_print_image",
           args := [.int 3, .c_str [47, 97], .int 0, .int 0,
             .config (map_to_fbink_config fbink_h (.map []))] }] ∧
    (nif_fbink_input_check fbink_call_h sample_native (.binary [47, 97, 0, 98]) (.int 0)
        (.int 0) (.int 0)).calls
      = [{ entry := "fbink_input_check",
           args := [.c_str [47, 97], .int 0, .int 0, .int 0] }] := by
  refine ⟨rfl, rfl, rfl, rfl⟩

/-- C15, amended: path transfer in `nif_fbink_add_ot_font`, `nif_fbink_print_image` and
`nif_fbink_input_check`. For a path given as a binary or as a character list of bytes:
with 4096 bytes or more the call returns the bad-argument error without invoking the
native entry point, whatever the other arguments; with at most 4095 bytes, and the other
arguments readable, the native entry point is invoked once and receives, as a
NUL-terminated string, the bytes of the path before its first zero byte. For a path
without a zero byte these are exactly the supplied bytes, ended by the terminating zero
byte: no path is cut for its length. A path with a zero byte in it arrives cut at that
byte. -/
theorem path_transfer (T : FBInkTypes) (X : FBInkCallTypes) (E : Native) (bs : List Nat)
    (hb : ∀ b ∈ bs, b ≤ 255) (p : Term) (hp : p = .binary bs ∨ p = byte_list bs) :
    (4096 ≤ bs.length →
      (∀ a1 : Term, nif_fbink_add_ot_font T E p a1 = enif_make_badarg) ∧
      (∀ a0 a2 a3 a4 : Term, nif_fbink_print_image T E a0 p a2 a3 a4 = enif_make_badarg) ∧
      (∀ a1 a2 a3 : Term, nif_fbink_input_check X E p a1 a2 a3 = enif_make_badarg)) ∧
    (bs.length ≤ 4095 →
      (∀ (a1 : Term) (style : Int), enif_get_int a1 = some style →
        (nif_fbink_add_ot_font T E p a1).calls
          = [{ entry := "fbink_add_ot_font",
               args := [.c_str (c_bytes bs), .int (cast_unsigned T.FONT_STYLE_T style)] }]) ∧
      (∀ (a0 a2 a3 a4 : Term) (fbfd x_off y_off : Int), enif_get_int a0 = some fbfd →
        enif_get_int a2 = some x_off → enif_get_int a3 = some y_off →
        (nif_fbink_print_image T E a0 p a2 a3 a4).calls
          = [{ entry := "fbink_print_image",
               args := [.int fbfd, .c_str (c_bytes bs), .int (cast_short x_off),
                 .int (cast_short y_off), .config (map_to_fbink_config T a4)] }]) ∧
      (∀ (a1 a2 a3 : Term) (match_types exclude_types settings : Int),
        enif_get_uint a1 = some match_types → enif_get_uint a2 = some exclude_types →
        enif_get_uint a3 = some settings →
        (nif_fbink_input_check X E p a1 a2 a3).calls
          = [{ entry := "fbink_input_check",
               args := [.c_str (c_bytes bs), .int (X.INPUT_DEVICE_TYPE_T match_types),
                 .int (X.INPUT_DEVICE_TYPE_T exclude_types),
                 .int (X.INPUT_SETTINGS_TYPE_T settings)] }])) ∧
    ((∀ b ∈ bs, b ≠ 0) → c_bytes bs = bs) ∧
    (∀ pre post : List Nat, bs = pre ++ 0 :: post → (∀ b ∈ pre, b ≠ 0) →
      c_bytes bs = pre) := by
  refine ⟨?_, ?_, c_bytes_of_no_nul bs, fun pre post hbs hpre => ?_⟩
  · intro hlen
    obtain ⟨hget, hio⟩ := long_path_facts bs hb p hp hlen
    have hge : bs.length ≥ 4096 := hlen
    refine ⟨?_, ?_, ?_⟩
    · intro a1
      simp [nif_fbink_add_ot_font, hget, hio, hge]
    · intro a0 a2 a3 a4
      cases h0 : enif_get_int a0 <;> simp [nif_fbink_print_image, h0, hget, hio, hge]
    · intro a1 a2 a3
      simp [nif_fbink_input_check, hget, hio, hge]
  · intro hlen
    have hlt : ¬ (bs.length ≥ 4096) := by omega
    have hcut := c_bytes_append_nul bs
    refine ⟨?_, ?_, ?_⟩
    · intro a1 style h1
      rcases short_path_facts bs hb p hp hlen with ⟨hget, hio⟩ | ⟨hget, hbuf⟩
      · simp [nif_fbink_add_ot_font, hget, hio, hlt, h1, hcut]
      · simp [nif_fbink_add_ot_font, hget, hbuf, h1, hcut]
    · intro a0 a2 a3 a4 fbfd x_off y_off h0 h2 h3
      rcases short_path_facts bs hb p hp hlen with ⟨hget, hio⟩ | ⟨hget, hbuf⟩
      · simp [nif_fbink_print_image, hget, hio, hlt, h0, h2, h3, hcut]
      · simp [nif_fbink_print_image, hget, hbuf, h0, h2, h3, hcut]
    · intro a1 a2 a3 match_types exclude_types settings h1 h2 h3
      rcases short_path_facts bs hb p hp hlen with ⟨hget, hio⟩ | ⟨hget, hbuf⟩
      · cases hd : E.device <;>
          simp [nif_fbink_input_check, hget, hio, hlt, h1, h2, h3, hd, hcut]
      · cases hd : E.device <;>
          simp [nif_fbink_input_check, hget, hbuf, h1, h2, h3, hd, hcut]
  · rw [hbs]
    exact c_bytes_cut pre post hpre

theorem path_transfer_witness :
    (nif_fbink_add_ot_font fbink_h sample_native (.binary (List.replicate 5000 47))
        (.int 0) = enif_make_badarg) ∧
    (nif_fbink_add_ot_font fbink_h sample_native (byte_list (List.replicate 5000 47))
        (.int 0) = enif_make_badarg) ∧
    (nif_fbink_add_ot_font fbink_h sample_native (byte_list [47, 102]) (.int 2)).calls
      = [{ entry := "fbink_add_ot_font",
           args := [.c_str [47, 102], .int (cast_unsigned fbink_h.FONT_STYLE_T 2)] }] := by
  have hlong := path_transfer fbink_h fbink_call_h sample_native (List.replicate 5000 47)
    (by intro b hmem; rw [List.eq_of_mem_replicate hmem]; decide)
  have hshort := path_transfer fbink_h fbink_call_h sample_native [47, 102]
    (by decide) (byte_list [47, 102]) (Or.inr rfl)
  refine ⟨((hlong (.binary (List.replicate 5000 47)) (Or.inl rfl)).1
      (by rw [List.length_replicate]; decide)).1 (.int 0),
    ((hlong (byte_list (List.replicate 5000 47)) (Or.inr rfl)).1
      (by rw [List.length_replicate]; decide)).1 (.int 0), ?_⟩
  rw [(hshort.2.1 (by decide)).1 (.int 2) 2 (by decide), hshort.2.2.1 (by decide)]

/-! ## Scratch buffer allocation -/

/-- C16: `nif_fbink_print` and `nif_fbink_print_ot` with a readable descriptor and text.
When the allocation of the scratch buffer fails, the call returns `(error, enomem)` and
the native print entry point is not invoked. When it succeeds, the native entry point
is invoked exactly once, with the text followed by a NUL, and its return code alone
decides the tag: a negative code gives `(error, code)`, any other code gives a tuple
tagged `ok` that carries the code (followed by the fit mapping for `nif_fbink_print_ot`). -/
theorem print_allocation (T : FBInkTypes) (E : Native) (a0 a1 a2 a3 : Term) (fbfd : Int)
    (bin : List Nat) (h0 : enif_get_int a0 = some fbfd)
    (h1 : enif_inspect_iolist_as_binary a1 = some bin) :
    (E.alloc_ok = false →
      nif_fbink_print T E a0 a1 a2
        = { ret := .term (.tuple [.atom "error", .atom "enomem"]), calls := [] } ∧
      nif_fbink_print_ot T E a0 a1 a2 a3
        = { ret := .term (.tuple [.atom "error", .atom "enomem"]), calls := [] }) ∧
    (E.alloc_ok = true →
      (nif_fbink_print T E a0 a1 a2).calls
        = [{ entry := "fbink_print",
             args := [.int fbfd, .bytes (bin ++ [0]), .config (map_to_fbink_config T a2)] }] ∧
      (nif_fbink_print_ot T E a0 a1 a2 a3).calls
        = [{ entry := "fbink_print_ot",
             args := [.int fbfd, .bytes (bin ++ [0]),
               .ot_config (map_to_fbink_ot_config T a2),
               .config (map_to_fbink_config T a3)] }] ∧
      (E.rv < 0 →
        (nif_fbink_print T E a0 a1 a2).ret = .term (.tuple [.atom "error", .int E.rv]) ∧
        (nif_fbink_print_ot T E a0 a1 a2 a3).ret
          = .term (.tuple [.atom "error", .int E.rv])) ∧
      (0 ≤ E.rv →
        (nif_fbink_print T E a0 a1 a2).ret = .term (.tuple [.atom "ok", .int E.rv]) ∧
        (nif_fbink_print_ot T E a0 a1 a2 a3).ret
          = .term (.tuple [.atom "ok", .int E.rv, fbink_ot_fit_to_map E.fit]))) := by
  constructor
  · intro halloc
    simp [nif_fbink_print, nif_fbink_print_ot, h0, h1, halloc, make_error_string,
      make_atom, enif_make_tuple2, atom_error]
  · intro halloc
    refine ⟨?_, ?_, ?_, ?_⟩
    · simp [nif_fbink_print, h0, h1, halloc]
    · by_cases hrv : E.rv < 0 <;> simp [nif_fbink_print_ot, h0, h1, halloc, hrv]
    · intro hrv
      have hn : ¬ (E.rv ≥ 0) := not_le.mpr hrv
      simp [nif_fbink_print, nif_fbink_print_ot, h0, h1, halloc, hrv, hn, make_ok_or_error,
        make_error_int, enif_make_tuple2, enif_make_int, atom_error]
    · intro hrv
      have hn : ¬ (E.rv < 0) := not_lt.mpr hrv
      simp [nif_fbink_print, nif_fbink_print_ot, h0, h1, halloc, hrv, hn, make_ok_or_error,
        enif_make_tuple2, enif_make_tuple3, enif_make_int, atom_ok]

theorem print_allocation_witness :
    nif_fbink_print fbink_h { sample_native with alloc_ok := false } (.int 3)
        (.binary [104, 105]) (.map [])
      = { ret := .term (.tuple [.atom "error", .atom "enomem"]), calls := [] } ∧
    (nif_fbink_print fbink_h sample_native (.int 3) (.binary [104, 105]) (.map [])).calls
      = [{ entry := "fbink_print",
           args := [.int 3, .bytes ([104, 105] ++ [0]),
             .config (map_to_fbink_config fbink_h (.map []))] }] ∧
    (nif_fbink_print_ot fbink_h { sample_native with rv := -1 } (.int 3)
        (.binary [104, 105]) (.map []) (.map [])).ret
      = .term (.tuple [.atom "error", .int (-1)]) :=
  ⟨((print_allocation fbink_h { sample_native with alloc_ok := false } (.int 3)
      (.binary [104, 105]) (.map []) (.map []) 3 [104, 105] rfl rfl).1 rfl).1,
    ((print_allocation fbink_h sample_native (.int 3)
      (.binary [104, 105]) (.map []) (.map []) 3 [104, 105] rfl rfl).2 rfl).1,
    (((print_allocation fbink_h { sample_native with rv := -1 } (.int 3)
      (.binary [104, 105]) (.map []) (.map []) 3 [104, 105] rfl rfl).2 rfl).2.2.1
      (by decide)).2⟩

/-! ## Dump resources -/

theorem enif_get_resource_of_live (heap : Heap) (handle : Nat) (res : DumpResource)
    (hres : heap handle = some res) :
    enif_get_resource heap (.resource handle) = some (handle, res) := by
  simp [enif_get_resource, hres]

theorem fbink_free_dump_data_data (dump : FBInkDump) :
    (fbink_free_dump_data dump).data = none := by
  unfold fbink_free_dump_data
  split
  · rfl
  · next h => exact h

theorem fbink_free_dump_data_of_no_data (dump : FBInkDump) (h : dump.data = none) :
    fbink_free_dump_data dump = dump := by
  simp [fbink_free_dump_data, h]

theorem nif_fbink_free_dump_data_of_live (heap : Heap) (handle : Nat) (res : DumpResource)
    (hres : heap handle = some res) :
    nif_fbink_free_dump_data heap (.resource handle)
      = ({ ret := .term atom_ok,
           calls := [{ entry := "fbink_free_dump_data", args := [.dump res.dump] }] },
         Function.update heap handle (some { dump := fbink_free_dump_data res.dump })) := by
  simp [nif_fbink_free_dump_data, enif_get_resource_of_live heap handle res hres]

theorem run_releases_no_payload (ops : List Release) :
    ∀ (heap : Heap) (handle : Nat) (res : DumpResource), heap handle = some res →
      res.dump.data = none → payload_frees (run_releases heap handle ops).1 = 0 := by
  induction ops with
  | nil =>
    intro heap handle res _ _
    rfl
  | cons op rest ih =>
    intro heap handle res hres hdata
    have hsame : (Function.update heap handle
        (some ({ dump := fbink_free_dump_data res.dump } : DumpResource))) handle
        = some { dump := fbink_free_dump_data res.dump } := Function.update_same _ _ _
    have hnone : (fbink_free_dump_data res.dump).data = none :=
      fbink_free_dump_data_data res.dump
    cases op with
    | explicit =>
      simp only [run_releases, nif_fbink_free_dump_data_of_live heap handle res hres]
      simp [payload_frees, hdata, ih _ handle _ hsame hnone]
    | finalizer =>
      simp only [run_releases, hres, dump_resource_dtor]
      simp [payload_frees, hdata, ih _ handle _ hsame hnone]

theorem run_releases_frees_at_most_once (ops : List Release) (heap : Heap) (handle : Nat)
    (res : DumpResource) (hres : heap handle = some res) :
    payload_frees (run_releases heap handle ops).1 ≤ 1 := by
  cases ops with
  | nil => simp [run_releases, payload_frees]
  | cons op rest =>
    have hsame : (Function.update heap handle
        (some ({ dump := fbink_free_dump_data res.dump } : DumpResource))) handle
        = some { dump := fbink_free_dump_data res.dump } := Function.update_same _ _ _
    have hnone : (fbink_free_dump_data res.dump).data = none :=
      fbink_free_dump_data_data res.dump
    have hrest := run_releases_no_payload rest _ handle _ hsame hnone
    cases op with
    | explicit =>
      simp only [run_releases, nif_fbink_free_dump_data_of_live heap handle res hres]
      simp only [List.cons_append, List.nil_append, payload_frees, if_true]
      split <;> simp [hrest]
    | finalizer =>
      simp only [run_releases, hres, dump_resource_dtor]
      simp only [List.cons_append, List.nil_append, payload_frees, if_true]
      split <;> simp [hrest]

/-- C17: `nif_fbink_get_dump_data` on a live dump resource. When the payload pointer is
absent or the size is 0 the result is `(error, no_data)`, the same term whatever the
record holds, and nothing else happens. When the payload is present and the size is
positive the result is a pair tagged `ok`. -/
theorem get_dump_data_no_data (heap : Heap) (handle : Nat) (res : DumpResource)
    (hres : heap handle = some res) :
    ((res.dump.data = none ∨ res.dump.size = 0) →
      nif_fbink_get_dump_data heap (.resource handle)
        = ({ ret := .term (.tuple [.atom "error", .atom "no_data"]), calls := [] }, heap)) ∧
    (∀ payload : List Nat, res.dump.data = some payload → 0 < res.dump.size →
      ∃ map : Term, (nif_fbink_get_dump_data heap (.resource handle)).1.ret
        = .term (.tuple [.atom "ok", map])) := by
  have hget := enif_get_resource_of_live heap handle res hres
  constructor
  · intro hno
    cases hdata : res.dump.data with
    | none =>
      simp [nif_fbink_get_dump_data, hget, hdata, make_error_string, make_atom,
        enif_make_tuple2, atom_error]
    | some payload =>
      have hsize : res.dump.size = 0 := by
        rcases hno with h | h
        · rw [hdata] at h
          cases h
        · exact h
      simp [nif_fbink_get_dump_data, hget, hdata, hsize, make_error_string, make_atom,
        enif_make_tuple2, atom_error]
  · intro payload hdata hsize
    have hne : ¬ (res.dump.size = 0) := Nat.pos_iff_ne_zero.mp hsize
    simp [nif_fbink_get_dump_data, hget, hdata, hne, make_ok, enif_make_tuple2, atom_ok]

theorem get_dump_data_no_data_witness :
    nif_fbink_get_dump_data
        (Function.update empty_heap 1 (some { dump := FBInkDump.zeroed })) (.resource 1)
      = ({ ret := .term (.tuple [.atom "error", .atom "no_data"]), calls := [] },
         Function.update empty_heap 1 (some { dump := FBInkDump.zeroed })) ∧
    ∃ map : Term,
      (nif_fbink_get_dump_data
        (Function.update empty_heap 1 (some { dump := sample_native.dump }))
        (.resource 1)).1.ret = .term (.tuple [.atom "ok", map]) :=
  ⟨(get_dump_data_no_data (Function.update empty_heap 1 (some { dump := FBInkDump.zeroed }))
      1 { dump := FBInkDump.zeroed } (Function.update_same _ _ _)).1 (Or.inl rfl),
    (get_dump_data_no_data (Function.update empty_heap 1 (some { dump := sample_native.dump }))
      1 { dump := sample_native.dump } (Function.update_same _ _ _)).2 [1, 2, 3, 4] rfl
      (by decide)⟩

/-- C18: release is idempotent, with the native release freeing the payload and clearing
pointer and size exactly when the pointer is present. For a live dump resource in any
state `nif_fbink_free_dump_data` returns `ok`. A second `nif_fbink_free_dump_data`
returns `ok` too and leaves all resources as the first left them, and the finalizer
`dump_resource_dtor` run after the explicit release leaves the resource object as it
is. Along any sequence of release calls on the resource the payload is freed at most
once. -/
theorem release_idempotent (heap : Heap) (handle : Nat) (res : DumpResource)
    (hres : heap handle = some res) :
    (nif_fbink_free_dump_data heap (.resource handle)).1.ret = .term (.atom "ok") ∧
    (nif_fbink_free_dump_data (nif_fbink_free_dump_data heap (.resource handle)).2
      (.resource handle)).1.ret = .term (.atom "ok") ∧
    (nif_fbink_free_dump_data (nif_fbink_free_dump_data heap (.resource handle)).2
      (.resource handle)).2 = (nif_fbink_free_dump_data heap (.resource handle)).2 ∧
    (∀ released : DumpResource,
      (nif_fbink_free_dump_data heap (.resource handle)).2 handle = some released →
      (dump_resource_dtor released).1 = released) ∧
    (∀ ops : List Release, payload_frees (run_releases heap handle ops).1 ≤ 1) := by
  have hfirst := nif_fbink_free_dump_data_of_live heap handle res hres
  have hsame : (Function.update heap handle
      (some ({ dump := fbink_free_dump_data res.dump } : DumpResource))) handle
      = some { dump := fbink_free_dump_data res.dump } := Function.update_same _ _ _
  have hnone : (fbink_free_dump_data res.dump).data = none :=
    fbink_free_dump_data_data res.dump
  have hstable : fbink_free_dump_data (fbink_free_dump_data res.dump)
      = fbink_free_dump_data res.dump := fbink_free_dump_data_of_no_data _ hnone
  have hsecond := nif_fbink_free_dump_data_of_live _ handle _ hsame
  rw [hfirst]
  simp only
  rw [hsecond]
  refine ⟨rfl, rfl, ?_, ?_, ?_⟩
  · simp only [hstable]
    exact Function.update_eq_self_iff.mpr (by rw [hsame])
  · intro released hreleased
    rw [hsame] at hreleased
    cases hreleased
    simp only [dump_resource_dtor, hstable]
  · intro ops
    exact run_releases_frees_at_most_once ops heap handle res hres

theorem release_idempotent_witness :
    (nif_fbink_free_dump_data
      (Function.update empty_heap 1 (some { dump := sample_native.dump }))
      (.resource 1)).1.ret = .term (.atom "ok") ∧
    payload_frees (run_releases
      (Function.update empty_heap 1 (some { dump := sample_native.dump })) 1
      [.explicit, .explicit, .finalizer]).1 ≤ 1 :=
  ⟨(release_idempotent (Function.update empty_heap 1 (some { dump := sample_native.dump }))
      1 { dump := sample_native.dump } (Function.update_same _ _ _)).1,
    (release_idempotent (Function.update empty_heap 1 (some { dump := sample_native.dump }))
      1 { dump := sample_native.dump } (Function.update_same _ _ _)).2.2.2.2
      [.explicit, .explicit, .finalizer]⟩

/-- C19: release then query. For every live dump resource, a populated one in
particular, after `nif_fbink_free_dump_data` a `nif_fbink_get_dump_data` on the same
resource returns `(error, no_data)`, and so it does after a second release. -/
theorem release_then_query (heap : Heap) (handle : Nat) (res : DumpResource)
    (hres : heap handle = some res) :
    (nif_fbink_get_dump_data (nif_fbink_free_dump_data heap (.resource handle)).2
      (.resource handle)).1.ret = .term (.tuple [.atom "error", .atom "no_data"]) ∧
    (nif_fbink_get_dump_data
      (nif_fbink_free_dump_data (nif_fbink_free_dump_data heap (.resource handle)).2
        (.resource handle)).2
      (.resource handle)).1.ret = .term (.tuple [.atom "error", .atom "no_data"]) := by
  have hfirst := nif_fbink_free_dump_data_of_live heap handle res hres
  have hsame : (Function.update heap handle
      (some ({ dump := fbink_free_dump_data res.dump } : DumpResource))) handle
      = some { dump := fbink_free_dump_data res.dump } := Function.update_same _ _ _
  have hnone : (fbink_free_dump_data res.dump).data = none :=
    fbink_free_dump_data_data res.dump
  have hstable : fbink_free_dump_data (fbink_free_dump_data res.dump)
      = fbink_free_dump_data res.dump := fbink_free_dump_data_of_no_data _ hnone
  have hsecond := nif_fbink_free_dump_data_of_live _ handle _ hsame
  have hquery : ∀ h : Heap, h handle = some { dump := fbink_free_dump_data res.dump } →
      (nif_fbink_get_dump_data h (.resource handle)).1.ret
        = .term (.tuple [.atom "error", .atom "no_data"]) := by
    intro h hh
    simp [nif_fbink_get_dump_data, enif_get_resource_of_live h handle _ hh, hnone,
      make_error_string, make_atom, enif_make_tuple2, atom_error]
  rw [hfirst]
  simp only
  rw [hsecond]
  simp only [hstable]
  exact ⟨hquery _ hsame, hquery _ (Function.update_same _ _ _)⟩

theorem release_then_query_witness :
    (nif_fbink_get_dump_data
      (nif_fbink_free_dump_data
        (Function.update empty_heap 1 (some { dump := sample_native.dump }))
        (.resource 1)).2
      (.resource 1)).1.ret = .term (.tuple [.atom "error", .atom "no_data"]) :=
  (release_then_query (Function.update empty_heap 1 (some { dump := sample_native.dump }))
    1 { dump := sample_native.dump } (Function.update_same _ _ _)).1

/-- C20: `nif_fbink_get_dump_data` on a populated resource whose payload holds at least
`size` bytes. The result is `(ok, mapping)`, no native entry point is invoked and all
resources are left as they were. In the mapping, `data` is a binary of exactly `size`
bytes, the first `size` bytes of the payload (the whole payload when it has `size`
bytes); `stride` and `size` are the native values; `area` and `clip` are
`fbink_rect_to_map` of the native rectangles; `rota` and `bpp` are the native values;
`is_full` is the atom `true` or `false` according to the native flag. -/
theorem get_dump_data_populated (heap : Heap) (handle : Nat) (res : DumpResource)
    (payload : List Nat) (hres : heap handle = some res)
    (hdata : res.dump.data = some payload) (hsize : 0 < res.dump.size)
    (hlen : res.dump.size ≤ payload.length) :
    ∃ map : Term,
      nif_fbink_get_dump_data heap (.resource handle)
        = ({ ret := .term (.tuple [.atom "ok", map]), calls := [] }, heap) ∧
      (∃ bytes : List Nat, enif_get_map_value map atom_data = some (.binary bytes) ∧
        bytes.length = res.dump.size ∧ bytes = payload.take res.dump.size ∧
        (payload.length = res.dump.size → bytes = payload)) ∧
      enif_get_map_value map atom_stride = some (.int res.dump.stride) ∧
      enif_get_map_value map atom_size = some (.int res.dump.size) ∧
      enif_get_map_value map atom_area = some (fbink_rect_to_map res.dump.area) ∧
      enif_get_map_value map atom_clip = some (fbink_rect_to_map res.dump.clip) ∧
      enif_get_map_value map atom_rota = some (.int res.dump.rota) ∧
      enif_get_map_value map atom_bpp = some (.int res.dump.bpp) ∧
      enif_get_map_value map atom_is_full
        = some (.atom (if res.dump.is_full then "true" else "false")) := by
  have hget := enif_get_resource_of_live heap handle res hres
  have hne : ¬ (res.dump.size = 0) := Nat.pos_iff_ne_zero.mp hsize
  refine ⟨map_put_stmt (map_put_stmt (map_put_stmt (map_put_stmt (map_put_stmt
    (map_put_stmt (map_put_stmt (map_put_stmt enif_make_new_map
      atom_data (.binary (payload.take res.dump.size)))
      atom_stride (enif_make_uint64 res.dump.stride))
      atom_size (enif_make_uint64 res.dump.size))
      atom_area (fbink_rect_to_map res.dump.area))
      atom_clip (fbink_rect_to_map res.dump.clip))
      atom_rota (enif_make_uint res.dump.rota))
      atom_bpp (enif_make_uint res.dump.bpp))
      atom_is_full (if res.dump.is_full then atom_true else atom_false), ?_, ?_⟩
  · simp only [nif_fbink_get_dump_data, hget, hdata, hne, if_false, make_ok,
      enif_make_tuple2, atom_ok]
  · refine ⟨⟨payload.take res.dump.size, ?_, ?_, rfl, ?_⟩, ?_, ?_, ?_, ?_, ?_, ?_, ?_⟩
    · simp [enif_make_new_map, map_put_stmt_map, enif_get_map_value_map_put,
        enif_get_map_value_empty, atom_data, atom_stride, atom_size, atom_area, atom_clip,
        atom_rota, atom_bpp, atom_is_full]
    · simp [List.length_take, hlen]
    · intro heq
      rw [← heq, List.take_length]
    all_goals
      cases hfull : res.dump.is_full <;>
        simp [enif_make_new_map, map_put_stmt_map, enif_get_map_value_map_put,
          enif_get_map_value_empty, atom_data, atom_stride, atom_size, atom_area, atom_clip,
          atom_rota, atom_bpp, atom_is_full, enif_make_uint64, enif_make_uint, atom_true,
          atom_false]

theorem get_dump_data_populated_witness :
    ∃ map : Term,
      nif_fbink_get_dump_data
          (Function.update empty_heap 1 (some { dump := sample_native.dump })) (.resource 1)
        = ({ ret := .term (.tuple [.atom "ok", map]), calls := [] },
           Function.update empty_heap 1 (some { dump := sample_native.dump })) ∧
      enif_get_map_value map atom_data = some (.binary [1, 2, 3, 4]) ∧
      enif_get_map_value map atom_is_full = some (.atom "true") := by
  obtain ⟨map, hrun, ⟨bytes, hbytes, _, _, hwhole⟩, _, _, _, _, _, _, hfull⟩ :=
    get_dump_data_populated
      (Function.update empty_heap 1 (some { dump := sample_native.dump })) 1
      { dump := sample_native.dump } [1, 2, 3, 4] (Function.update_same _ _ _) rfl
      (by decide) (by decide)
  refine ⟨map, hrun, ?_, hfull⟩
  rw [hbytes, hwhole rfl]

/-! ## Capture operations -/

/-- C21: capture operations. With readable scalar arguments, for `nif_fbink_dump`,
`nif_fbink_region_dump` and `nif_fbink_rect_dump`: when the wrapper cannot be allocated
the result is `(error, enomem)`, no native entry point is invoked and no resource
appears. Otherwise the native capture is invoked once and receives the all-zero dump
record; when it returns `rv < 0` the result is `(error, rv)`, the wrapper goes through
its finalizer (the native release is called on its record) and the resources are as
before; when it returns `rv >= 0` the result is `(ok, handle)` and the handle refers to
a resource holding the dump the native call wrote. -/
theorem capture_outcomes (T : FBInkTypes) (E : Native) (heap : Heap)
    (a0 a1 a2 a3 a4 a5 r : Term) (fbfd x_off y_off w h : Int)
    (h0 : enif_get_int a0 = some fbfd) (h1 : enif_get_int a1 = some x_off)
    (h2 : enif_get_int a2 = some y_off) (h3 : enif_get_uint a3 = some w)
    (h4 : enif_get_uint a4 = some h) :
    (E.new_resource = none →
      nif_fbink_dump E heap a0
        = ({ ret := .term (.tuple [.atom "error", .atom "enomem"]), calls := [] }, heap) ∧
      nif_fbink_region_dump T E heap a0 a1 a2 a3 a4 a5
        = ({ ret := .term (.tuple [.atom "error", .atom "enomem"]), calls := [] }, heap) ∧
      nif_fbink_rect_dump E heap a0 r
        = ({ ret := .term (.tuple [.atom "error", .atom "enomem"]), calls := [] }, heap)) ∧
    (∀ handle : Nat, E.new_resource = some handle → E.rv < 0 →
      nif_fbink_dump E heap a0
        = ({ ret := .term (.tuple [.atom "error", .int E.rv]),
             calls := [{ entry := "fbink_dump",
                         args := [.int fbfd, .dump FBInkDump.zeroed] },
                       { entry := "fbink_free_dump_data", args := [.dump E.dump] }] },
           heap) ∧
      nif_fbink_region_dump T E heap a0 a1 a2 a3 a4 a5
        = ({ ret := .term (.tuple [.atom "error", .int E.rv]),
             calls := [{ entry := "fbink_region_dump",
                         args := [.int fbfd, .int (cast_short x_off),
                           .int (cast_short y_off), .int (cast_ushort w),
                           .int (cast_ushort h), .config (map_to_fbink_config T a5),
                           .dump FBInkDump.zeroed] },
                       { entry := "fbink_free_dump_data", args := [.dump E.dump] }] },
           heap) ∧
      nif_fbink_rect_dump E heap a0 r
        = ({ ret := .term (.tuple [.atom "error", .int E.rv]),
             calls := [{ entry := "fbink_rect_dump",
                         args := [.int fbfd, .rect (map_to_fbink_rect r),
                           .dump FBInkDump.zeroed] },
                       { entry := "fbink_free_dump_data", args := [.dump E.dump] }] },
           heap)) ∧
    (∀ handle : Nat, E.new_resource = some handle → 0 ≤ E.rv →
      nif_fbink_dump E heap a0
        = ({ ret := .term (.tuple [.atom "ok", .resource handle]),
             calls := [{ entry := "fbink_dump",
                         args := [.int fbfd, .dump FBInkDump.zeroed] }] },
           Function.update heap handle (some { dump := E.dump })) ∧
      nif_fbink_region_dump T E heap a0 a1 a2 a3 a4 a5
        = ({ ret := .term (.tuple [.atom "ok", .resource handle]),
             calls := [{ entry := "fbink_region_dump",
                         args := [.int fbfd, .int (cast_short x_off),
                           .int (cast_short y_off), .int (cast_ushort w),
                           .int (cast_ushort h), .config (map_to_fbink_config T a5),
                           .dump FBInkDump.zeroed] }] },
           Function.update heap handle (some { dump := E.dump })) ∧
      nif_fbink_rect_dump E heap a0 r
        = ({ ret := .term (.tuple [.atom "ok", .resource handle]),
             calls := [{ entry := "fbink_rect_dump",
                         args := [.int fbfd, .rect (map_to_fbink_rect r),
                           .dump FBInkDump.zeroed] }] },
           Function.update heap handle (some { dump := E.dump })) ∧
      enif_get_resource (Function.update heap handle (some { dump := E.dump }))
        (.resource handle) = some (handle, { dump := E.dump })) := by
  refine ⟨fun hn => ?_, fun handle hn hrv => ?_, fun handle hn hrv => ?_⟩
  · simp [nif_fbink_dump, nif_fbink_region_dump, nif_fbink_rect_dump, h0, h1, h2, h3, h4,
      hn, make_error_string, make_atom, enif_make_tuple2, atom_error]
  · simp [nif_fbink_dump, nif_fbink_region_dump, nif_fbink_rect_dump, h0, h1, h2, h3, h4,
      hn, hrv, make_error_int, enif_make_int, enif_make_tuple2, atom_error,
      dump_resource_dtor]
  · have hnot : ¬ E.rv < 0 := not_lt.mpr hrv
    simp [nif_fbink_dump, nif_fbink_region_dump, nif_fbink_rect_dump, h0, h1, h2, h3, h4,
      hn, hnot, make_ok, enif_make_tuple2, atom_ok, enif_get_resource]

theorem capture_outcomes_witness :
    (nif_fbink_dump sample_native empty_heap (.int 3)).1
      = { ret := .term (.tuple [.atom "ok", .resource 1]),
          calls := [{ entry := "fbink_dump",
                      args := [.int 3, .dump FBInkDump.zeroed] }] } ∧
    enif_get_resource (nif_fbink_dump sample_native empty_heap (.int 3)).2 (.resource 1)
      = some (1, { dump := sample_native.dump }) := by
  have h := (capture_outcomes fbink_h sample_native empty_heap (.int 3) (.int 0) (.int 0)
    (.int 8) (.int 8) (.map []) (.map []) 3 0 0 8 8 (by decide) (by decide) (by decide)
    (by decide) (by decide)).2.2 1 rfl (by decide)
  rw [h.1]
  exact ⟨rfl, h.2.2.2⟩

/-! ## Restore -/

/-- C22, counterexample: a released dump resource (captured, then released through
`nif_fbink_free_dump_data`, so its record has no payload) and an empty one (all-zero
record) are both handed to the native `fbink_restore` by `nif_fbink_restore`, and the
result is the native status `-22` tagged `error`, not a symbolic reason chosen by the
bridge. -/
theorem restore_released_counterexample :
    released_heap 1 = some { dump := { sample_native.dump with data := none, size := 0 } } ∧
    (nif_fbink_restore fbink_h failing_native released_heap (.int 3) (.map [])
        (.resource 1)).1
      = { ret := .term (.tuple [.atom "error", .int (-22)]),
          calls := [{ entry := "fbink_restore",
                      args := [.int 3, .config (map_to_fbink_config fbink_h (.map [])),
                        .dump { sample_native.dump with data := none, size := 0 }] }] } ∧
    (nif_fbink_restore fbink_h failing_native
        (Function.update empty_heap 1 (some { dump := FBInkDump.zeroed }))
        (.int 3) (.map []) (.resource 1)).1
      = { ret := .term (.tuple [.atom "error", .int (-22)]),
          calls := [{ entry := "fbink_restore",
                      args := [.int 3, .config (map_to_fbink_config fbink_h (.map [])),
                        .dump FBInkDump.zeroed] }] } := by
  refine ⟨rfl, rfl, rfl⟩

/-- C22, amended: `nif_fbink_restore` does not look at the state of the dump resource.
For every live dump resource, empty and released ones included, and a readable
descriptor, the native `fbink_restore` is invoked exactly once with the record as it
is, the result is `make_ok_or_error` of the native status (so `(error, rv)` with the
native code when `rv < 0`), and the resources are left as they were. A term that is not
a live dump resource is the only thing rejected locally, with the bad-argument error
and no native call. -/
theorem restore_delegates_state_check (T : FBInkTypes) (E : Native) (heap : Heap)
    (a0 a1 : Term) (fbfd : Int) (handle : Nat) (res : DumpResource)
    (h0 : enif_get_int a0 = some fbfd) (hres : heap handle = some res) :
    nif_fbink_restore T E heap a0 a1 (.resource handle)
      = ({ ret := .term (make_ok_or_error E.rv),
           calls := [{ entry := "fbink_restore",
                       args := [.int fbfd, .config (map_to_fbink_config T a1),
                         .dump res.dump] }] }, heap) ∧
    (E.rv < 0 → (nif_fbink_restore T E heap a0 a1 (.resource handle)).1.ret
      = .term (.tuple [.atom "error", .int E.rv])) ∧
    (∀ a2 : Term, enif_get_resource heap a2 = none →
      nif_fbink_restore T E heap a0 a1 a2 = (enif_make_badarg, heap)) := by
  have hget := enif_get_resource_of_live heap handle res hres
  refine ⟨?_, fun hrv => ?_, fun a2 hn => ?_⟩
  · simp [nif_fbink_restore, h0, hget]
  · have hnot : ¬ (E.rv ≥ 0) := not_le.mpr hrv
    simp [nif_fbink_restore, h0, hget, make_ok_or_error, hnot, make_error_int,
      enif_make_int, enif_make_tuple2, atom_error]
  · simp [nif_fbink_restore, h0, hn]

theorem restore_delegates_state_check_witness :
    (nif_fbink_restore fbink_h sample_native
        (Function.update empty_heap 1 (some { dump := FBInkDump.zeroed }))
        (.int 3) (.map []) (.resource 1)).1
      = { ret := .term (make_ok_or_error 0),
          calls := [{ entry := "fbink_restore",
                      args := [.int 3, .config (map_to_fbink_config fbink_h (.map [])),
                        .dump FBInkDump.zeroed] }] } := by
  have h := (restore_delegates_state_check fbink_h sample_native
    (Function.update empty_heap 1 (some { dump := FBInkDump.zeroed }))
    (.int 3) (.map []) 3 1 { dump := FBInkDump.zeroed } (by decide)
    (Function.update_same _ _ _)).1
  rw [h]
  rfl

/-! ## Propagation of native status codes -/

theorem cast_uint8_range (v : Int) : 0 ≤ cast_uint8 v ∧ cast_uint8 v ≤ 255 := by
  simp only [cast_uint8, cast_unsigned]
  omega

theorem cast_uint8_of_fits (v : Int) (h0 : 0 ≤ v) (h1 : v ≤ 255) : cast_uint8 v = v := by
  simp only [cast_uint8, cast_unsigned]
  omega

/-- C24: `nif_fbink_get_pixel`. With a readable descriptor and coordinates the native
entry point is invoked once. When it returns `rv < 0` the result is `(error, rv)` and
nothing else. Otherwise the result is `(ok, (r, g, b, a))`, where the four elements are
the `uint8_t` outputs of the native call in the order red, green, blue, alpha: each is
in `0..255`, and is the value the native call wrote whenever that value is a byte. -/
theorem get_pixel_result (E : Native) (a0 a1 a2 : Term) (fbfd x y : Int)
    (h0 : enif_get_int a0 = some fbfd) (h1 : enif_get_uint a1 = some x)
    (h2 : enif_get_uint a2 = some y) :
    (E.rv < 0 → nif_fbink_get_pixel E a0 a1 a2
      = { ret := .term (.tuple [.atom "error", .int E.rv]),
          calls := [{ entry := "fbink_get_pixel",
                      args := [.int fbfd, .int (cast_uint16 x), .int (cast_uint16 y)] }] }) ∧
    (0 ≤ E.rv → ∃ r g b a : Int,
      nif_fbink_get_pixel E a0 a1 a2
        = { ret := .term (.tuple [.atom "ok", .tuple [.int r, .int g, .int b, .int a]]),
            calls := [{ entry := "fbink_get_pixel",
                        args := [.int fbfd, .int (cast_uint16 x), .int (cast_uint16 y)] }] } ∧
      (r = cast_uint8 E.pixel_r ∧ g = cast_uint8 E.pixel_g ∧ b = cast_uint8 E.pixel_b ∧
        a = cast_uint8 E.pixel_a) ∧
      (0 ≤ r ∧ r ≤ 255) ∧ (0 ≤ g ∧ g ≤ 255) ∧ (0 ≤ b ∧ b ≤ 255) ∧ (0 ≤ a ∧ a ≤ 255) ∧
      (0 ≤ E.pixel_r ∧ E.pixel_r ≤ 255 → r = E.pixel_r) ∧
      (0 ≤ E.pixel_g ∧ E.pixel_g ≤ 255 → g = E.pixel_g) ∧
      (0 ≤ E.pixel_b ∧ E.pixel_b ≤ 255 → b = E.pixel_b) ∧
      (0 ≤ E.pixel_a ∧ E.pixel_a ≤ 255 → a = E.pixel_a)) := by
  refine ⟨fun hrv => ?_, fun hrv => ?_⟩
  · simp [nif_fbink_get_pixel, h0, h1, h2, hrv, make_error_int, enif_make_int,
      enif_make_tuple2, atom_error]
  · have hnot : ¬ E.rv < 0 := not_lt.mpr hrv
    refine ⟨cast_uint8 E.pixel_r, cast_uint8 E.pixel_g, cast_uint8 E.pixel_b,
      cast_uint8 E.pixel_a, ?_, ⟨rfl, rfl, rfl, rfl⟩, cast_uint8_range _, cast_uint8_range _,
      cast_uint8_range _, cast_uint8_range _, fun h => cast_uint8_of_fits _ h.1 h.2,
      fun h => cast_uint8_of_fits _ h.1 h.2, fun h => cast_uint8_of_fits _ h.1 h.2,
      fun h => cast_uint8_of_fits _ h.1 h.2⟩
    simp [nif_fbink_get_pixel, h0, h1, h2, hnot, make_ok, enif_make_tuple2,
      enif_make_tuple4, enif_make_uint, atom_ok]

theorem get_pixel_result_witness :
    nif_fbink_get_pixel sample_native (.int 3) (.int 10) (.int 20)
      = { ret := .term (.tuple [.atom "ok", .tuple [.int 1, .int 2, .int 3, .int 255]]),
          calls := [{ entry := "fbink_get_pixel",
                      args := [.int 3, .int 10, .int 20] }] } := by
  obtain ⟨r, g, b, a, hrun, _, _, _, _, _, hr, hg, hb, ha⟩ :=
    (get_pixel_result sample_native (.int 3) (.int 10) (.int 20) 3 10 20
      (by decide) (by decide) (by decide)).2 (by decide)
  rw [hrun, hr (by decide), hg (by decide), hb (by decide), ha (by decide)]
  rfl

/-! ## Result shape of the OpenType print -/

/-- C25, counterexample: with the native call returning `0`, `nif_fbink_print_ot`
returns the three-element tuple `(ok, 0, fit mapping)`, which is no two-element tuple
`(ok, value)`. -/
theorem print_ot_three_tuple_counterexample :
    (nif_fbink_print_ot fbink_h sample_native (.int 3) (.binary [72, 105]) (.map [])
        (.map [])).ret
      = .term (.tuple [.atom "ok", .int 0, fbink_ot_fit_to_map sample_native.fit]) ∧
    ∀ value : Term,
      (nif_fbink_print_ot fbink_h sample_native (.int 3) (.binary [72, 105]) (.map [])
        (.map [])).ret ≠ .term (.tuple [.atom "ok", value]) := by
  refine ⟨rfl, fun value h => ?_⟩
  have h3 : (nif_fbink_print_ot fbink_h sample_native (.int 3) (.binary [72, 105])
      (.map []) (.map [])).ret
      = .term (.tuple [.atom "ok", .int 0, fbink_ot_fit_to_map sample_native.fit]) := rfl
  rw [h3] at h
  simp at h

/-- C25, amended: result shape of `nif_fbink_print_ot`. With a readable descriptor and
text and the text buffer allocated, the native entry point is invoked once; when it
returns `rv < 0` the result is the two-element tuple `(error, rv)` with no fit payload;
when it returns `rv >= 0` the result is the three-element tuple `(ok, rv, fit)`, where
`fit` is the mapping `fbink_ot_fit_to_map` makes of the native fit record:
`computed_lines` and `rendered_lines` carry the native counts, `bbox` is a mapping with
the native `width` and `height`, and `truncated` is the atom `true` or `false`. -/
theorem print_ot_shape (T : FBInkTypes) (E : Native) (a0 a1 a2 a3 : Term)
    (fbfd : Int) (bin : List Nat)
    (h0 : enif_get_int a0 = some fbfd) (h1 : enif_inspect_iolist_as_binary a1 = some bin)
    (halloc : E.alloc_ok = true) :
    (E.rv < 0 → nif_fbink_print_ot T E a0 a1 a2 a3
      = { ret := .term (.tuple [.atom "error", .int E.rv]),
          calls := [{ entry := "fbink_print_ot",
                      args := [.int fbfd, .bytes (bin ++ [0]),
                        .ot_config (map_to_fbink_ot_config T a2),
                        .config (map_to_fbink_config T a3)] }] }) ∧
    (0 ≤ E.rv → ∃ fit : Term,
      nif_fbink_print_ot T E a0 a1 a2 a3
        = { ret := .term (.tuple [.atom "ok", .int E.rv, fit]),
            calls := [{ entry := "fbink_print_ot",
                        args := [.int fbfd, .bytes (bin ++ [0]),
                          .ot_config (map_to_fbink_ot_config T a2),
                          .config (map_to_fbink_config T a3)] }] } ∧
      fit = fbink_ot_fit_to_map E.fit ∧
      enif_get_map_value fit atom_computed_lines = some (.int E.fit.computed_lines) ∧
      enif_get_map_value fit atom_rendered_lines = some (.int E.fit.rendered_lines) ∧
      (∃ bbox : Term, enif_get_map_value fit atom_bbox = some bbox ∧
        enif_get_map_value bbox atom_width = some (.int E.fit.bbox.width) ∧
        enif_get_map_value bbox atom_height = some (.int E.fit.bbox.height)) ∧
      enif_get_map_value fit atom_truncated
        = some (.atom (if E.fit.truncated then "true" else "false"))) := by
  refine ⟨fun hrv => ?_, fun hrv => ?_⟩
  · simp [nif_fbink_print_ot, h0, h1, halloc, hrv, make_error_int, enif_make_int,
      enif_make_tuple2, atom_error]
  · have hnot : ¬ E.rv < 0 := not_lt.mpr hrv
    refine ⟨fbink_ot_fit_to_map E.fit, ?_, rfl, ?_, ?_, ⟨map_put_stmt (map_put_stmt
      enif_make_new_map atom_width (enif_make_uint E.fit.bbox.width)) atom_height
      (enif_make_uint E.fit.bbox.height), ?_, ?_, ?_⟩, ?_⟩
    · simp [nif_fbink_print_ot, h0, h1, halloc, hnot, enif_make_tuple3, enif_make_int,
        atom_ok]
    all_goals
      cases htr : E.fit.truncated <;>
        simp [fbink_ot_fit_to_map, htr, enif_make_new_map, map_put_stmt_map,
          enif_get_map_value_map_put, enif_get_map_value_empty, atom_computed_lines,
          atom_rendered_lines, atom_bbox, atom_truncated, atom_width, atom_height,
          enif_make_uint, atom_true, atom_false]

theorem print_ot_shape_witness :
    ∃ fit : Term,
      nif_fbink_print_ot fbink_h sample_native (.int 3) (.binary [72, 105]) (.map [])
          (.map [])
        = { ret := .term (.tuple [.atom "ok", .int 0, fit]),
            calls := [{ entry := "fbink_print_ot",
                        args := [.int 3, .bytes [72, 105, 0],
                          .ot_config (map_to_fbink_ot_config fbink_h (.map [])),
                          .config (map_to_fbink_config fbink_h (.map []))] }] } ∧
      enif_get_map_value fit atom_computed_lines = some (.int 2) ∧
      enif_get_map_value fit atom_truncated = some (.atom "false") := by
  obtain ⟨fit, hrun, _, hc, _, _, ht⟩ :=
    (print_ot_shape fbink_h sample_native (.int 3) (.binary [72, 105]) (.map []) (.map [])
      3 [72, 105] (by decide) rfl rfl).2 (by decide)
  exact ⟨fit, hrun, hc, ht⟩

/-! ## Input devices -/

/-- The mapping both input operations build from a device record (fbink_nif.c:1683 and
1735). -/
theorem input_device_map_fields (dev : FBInkInputDevice) :
    ∃ m : Term,
      m = map_put_stmt (map_put_stmt (map_put_stmt (map_put_stmt (map_put_stmt
        enif_make_new_map atom_type (enif_make_uint dev.type))
        atom_fd (enif_make_int dev.fd))
        atom_matched (if dev.matched then atom_true else atom_false))
        atom_name (enif_make_string dev.name))
        atom_path (enif_make_string dev.path) ∧
      enif_get_map_value m atom_type = some (.int dev.type) ∧
      enif_get_map_value m atom_fd = some (.int dev.fd) ∧
      enif_get_map_value m atom_matched
        = some (.atom (if dev.matched then "true" else "false")) ∧
      enif_get_map_value m atom_name = some (enif_make_string dev.name) ∧
      enif_get_map_value m atom_path = some (enif_make_string dev.path) := by
  refine ⟨_, rfl, ?_⟩
  cases hm : dev.matched <;>
    simp [enif_make_new_map, map_put_stmt_map, enif_get_map_value_map_put,
      enif_get_map_value_empty, atom_type, atom_fd, atom_matched, atom_name, atom_path,
      enif_make_uint, enif_make_int, atom_true, atom_false]

/-- The input operations when the array of terms can be allocated (or is empty). With
readable arguments: `nif_fbink_input_scan` gives `(ok, [])` when the native scan
returns no array, and for an array of `n` descriptors `(ok, sequence)` with exactly `n`
mappings in array order, the i-th carrying `type`, `fd`, `matched` (as `true` or
`false`), `name` and `path` of descriptor i; `nif_fbink_input_check` gives
`(error, not_found)` when the native check returns no descriptor and `(ok, mapping)`
with the same five entries otherwise. -/
theorem input_results_when_allocated (X : FBInkCallTypes) (E : Native) (a0 a1 a2 : Term)
    (match_types exclude_types settings : Int)
    (h0 : enif_get_uint a0 = some match_types) (h1 : enif_get_uint a1 = some exclude_types)
    (h2 : enif_get_uint a2 = some settings) :
    (E.devices = none →
      (nif_fbink_input_scan X E a0 a1 a2).ret = .term (.tuple [.atom "ok", list_term []])) ∧
    (∀ devices : List FBInkInputDevice, E.devices = some devices →
      (E.alloc_ok = true ∨ devices = []) →
      ∃ seq : List Term,
        (nif_fbink_input_scan X E a0 a1 a2).ret
          = .term (.tuple [.atom "ok", list_term seq]) ∧
        seq.length = devices.length ∧
        ∀ (i : Nat) (dev : FBInkInputDevice), devices[i]? = some dev →
          ∃ m : Term, seq[i]? = some m ∧
            enif_get_map_value m atom_type = some (.int dev.type) ∧
            enif_get_map_value m atom_fd = some (.int dev.fd) ∧
            enif_get_map_value m atom_matched
              = some (.atom (if dev.matched then "true" else "false")) ∧
            enif_get_map_value m atom_name = some (enif_make_string dev.name) ∧
            enif_get_map_value m atom_path = some (enif_make_string dev.path)) ∧
    (∀ (p : Term) (filepath : List Nat),
      0 < (enif_get_string p 4096).1 → (enif_get_string p 4096).2 = filepath →
      (E.device = none →
        (nif_fbink_input_check X E p a0 a1 a2).ret
          = .term (.tuple [.atom "error", .atom "not_found"])) ∧
      (∀ dev : FBInkInputDevice, E.device = some dev →
        ∃ m : Term,
          (nif_fbink_input_check X E p a0 a1 a2).ret = .term (.tuple [.atom "ok", m]) ∧
          enif_get_map_value m atom_type = some (.int dev.type) ∧
          enif_get_map_value m atom_fd = some (.int dev.fd) ∧
          enif_get_map_value m atom_matched
            = some (.atom (if dev.matched then "true" else "false")) ∧
          enif_get_map_value m atom_name = some (enif_make_string dev.name) ∧
          enif_get_map_value m atom_path = some (enif_make_string dev.path))) := by
  refine ⟨fun hn => ?_, fun devices hd halloc => ?_, fun p filepath hp hf => ⟨fun hn => ?_,
    fun dev hd => ?_⟩⟩
  · simp [nif_fbink_input_scan, h0, h1, h2, hn, make_ok, enif_make_tuple2, atom_ok]
  · have hno : ¬ (¬ E.alloc_ok = true ∧ devices.length > 0) := by
      rintro ⟨hna, hlen⟩
      rcases halloc with ha | he
      · exact hna ha
      · subst he
        simp at hlen
    refine ⟨devices.map (fun dev =>
      map_put_stmt (map_put_stmt (map_put_stmt (map_put_stmt (map_put_stmt
        enif_make_new_map atom_type (enif_make_uint dev.type))
        atom_fd (enif_make_int dev.fd))
        atom_matched (if dev.matched then atom_true else atom_false))
        atom_name (enif_make_string dev.name))
        atom_path (enif_make_string dev.path)), ?_, by simp, fun i dev hi => ?_⟩
    · simp only [nif_fbink_input_scan, h0, h1, h2, hd, hno, if_false, make_ok,
        enif_make_tuple2, atom_ok, enif_make_list_from_array]
      have htake : ∀ (l : List Term), l.length = devices.length →
          l.take devices.length = l := fun l hl => by rw [← hl, List.take_length]
      rw [htake _ (by simp)]
    · obtain ⟨m, hm, hfields⟩ := input_device_map_fields dev
      refine ⟨m, ?_, hfields⟩
      rw [List.getElem?_map, hi, hm]
      rfl
  · have hpos : ¬ ((enif_get_string p 4096).1 ≤ 0) := not_le.mpr hp
    simp [nif_fbink_input_check, hpos, h0, h1, h2, hn, make_error_string, make_atom,
      enif_make_tuple2, atom_error]
  · have hpos : ¬ ((enif_get_string p 4096).1 ≤ 0) := not_le.mpr hp
    obtain ⟨m, hm, hfields⟩ := input_device_map_fields dev
    refine ⟨m, ?_, hfields⟩
    simp only [nif_fbink_input_check, hpos, if_false, h0, h1, h2, hd, make_ok,
      enif_make_tuple2, atom_ok, hm]

/-- C26: `nif_fbink_input_scan` writes the array it gets from `enif_alloc` without
testing it. With the native scan returning one descriptor and the allocation failing,
the call does not return `(ok, sequence)`: it stores through the null pointer. With the
same descriptor and the allocation succeeding the result is `(ok, [mapping])`. -/
theorem input_scan_unchecked_alloc :
    nif_fbink_input_scan fbink_call_h exhausted_native (.int 0) (.int 0) (.int 0)
      = { ret := .crash,
          calls := [{ entry := "fbink_input_scan", args := [.int 0, .int 0, .int 0] }] } ∧
    (nif_fbink_input_scan fbink_call_h { exhausted_native with alloc_ok := true }
        (.int 0) (.int 0) (.int 0)).ret
      = .term (.tuple [.atom "ok", list_term [.map [
          (.atom "type", .int 1), (.atom "fd", .int 5), (.atom "matched", .atom "true"),
          (.atom "name", list_term [.int 97]), (.atom "path", list_term [.int 47])]]]) := by
  refine ⟨rfl, rfl⟩

/-! ## Halftone exclusion rectangles -/

theorem enif_get_list_length_list_term (elems : List Term) :
    enif_get_list_length (list_term elems) = some elems.length := by
  induction elems with
  | nil => rfl
  | cons e rest ih => simp [list_term, enif_get_list_length, ih]

/-- C27: exclusion rectangles of `nif_fbink_mtk_set_halftone`. With a readable
descriptor and halftone size, for every proper list of `k` terms the native call
receives a two-entry array whose entry `i` is `map_to_fbink_rect` of the list's element
`i` when `i < min k 2` and the all-zero rectangle otherwise; elements after the second
change nothing and raise no error. For an argument that is no proper list (an atom, an
integer, a mapping, an improper list, …) both entries are the all-zero rectangle. The
result is `make_ok_or_error` of the native status in every case. -/
theorem halftone_exclude_regions (X : FBInkCallTypes) (E : Native) (a0 a2 : Term)
    (fbfd halftone_size : Int)
    (h0 : enif_get_int a0 = some fbfd) (h2 : enif_get_int a2 = some halftone_size) :
    (∀ elems : List Term, ∃ regions : List FBInkRect,
      nif_fbink_mtk_set_halftone X E a0 (list_term elems) a2
        = { ret := .term (make_ok_or_error E.rv),
            calls := [{ entry := "fbink_mtk_set_halftone",
                        args := [.int fbfd, .rects regions,
                          .int (X.MTK_HALFTONE_MODE_INDEX_T halftone_size)] }] } ∧
      regions.length = 2 ∧
      (∀ (i : Nat) (t : Term), i < min elems.length 2 → elems[i]? = some t →
        regions[i]? = some (map_to_fbink_rect t)) ∧
      (∀ i : Nat, min elems.length 2 ≤ i → i < 2 →
        regions[i]? = some FBInkRect.zeroed)) ∧
    (∀ (e0 e1 : Term) (rest : List Term),
      nif_fbink_mtk_set_halftone X E a0 (list_term (e0 :: e1 :: rest)) a2
        = nif_fbink_mtk_set_halftone X E a0 (list_term [e0, e1]) a2) ∧
    (∀ a1 : Term, enif_get_list_length a1 = none →
      nif_fbink_mtk_set_halftone X E a0 a1 a2
        = { ret := .term (make_ok_or_error E.rv),
            calls := [{ entry := "fbink_mtk_set_halftone",
                        args := [.int fbfd, .rects [FBInkRect.zeroed, FBInkRect.zeroed],
                          .int (X.MTK_HALFTONE_MODE_INDEX_T halftone_size)] }] }) ∧
    (∀ a1 : Term, a1 ≠ .nil → (∀ hd tl, a1 ≠ .cons hd tl) →
      enif_get_list_length a1 = none) := by
  refine ⟨fun elems => ?_, fun e0 e1 rest => ?_, fun a1 hn => ?_, fun a1 hnil hcons => ?_⟩
  · rcases elems with _ | ⟨e0, _ | ⟨e1, rest⟩⟩
    · refine ⟨[FBInkRect.zeroed, FBInkRect.zeroed], ?_, rfl, ?_, ?_⟩
      · simp [nif_fbink_mtk_set_halftone, h0, h2, list_term, enif_get_list_length]
      · intro i t hi
        simp at hi
      · intro i _ hi
        interval_cases i <;> rfl
    · refine ⟨[map_to_fbink_rect e0, FBInkRect.zeroed], ?_, rfl, ?_, ?_⟩
      · simp [nif_fbink_mtk_set_halftone, h0, h2, list_term, enif_get_list_length,
          enif_get_list_cell]
      · intro i t hi ht
        simp at hi
        subst hi
        simp at ht
        simp [ht]
      · intro i hlo hi
        simp at hlo
        have : i = 1 := by omega
        subst this
        rfl
    · refine ⟨[map_to_fbink_rect e0, map_to_fbink_rect e1], ?_, rfl, ?_, ?_⟩
      · have hlen := enif_get_list_length_list_term rest
        simp [nif_fbink_mtk_set_halftone, h0, h2, list_term, enif_get_list_length,
          enif_get_list_cell, hlen]
      · intro i t hi ht
        simp at hi
        have hlt : i < 2 := by omega
        interval_cases i
        · simp at ht
          simp [ht]
        · simp at ht
          simp [ht]
      · intro i hlo hi
        simp at hlo
        omega
  · have hlen := enif_get_list_length_list_term rest
    simp [nif_fbink_mtk_set_halftone, h0, h2, list_term, enif_get_list_length,
      enif_get_list_cell, hlen]
  · simp [nif_fbink_mtk_set_halftone, h0, h2, hn]
  · cases a1 with
    | nil => exact absurd rfl hnil
    | cons hd tl => exact absurd rfl (hcons hd tl)
    | _ => rfl

theorem halftone_exclude_regions_witness :
    nif_fbink_mtk_set_halftone fbink_call_h sample_native (.int 3)
        (list_term [.map [(.atom "left", .int 1), (.atom "width", .int 65537)], .int 9,
          .map [(.atom "left", .int 7)]]) (.int 1)
      = nif_fbink_mtk_set_halftone fbink_call_h sample_native (.int 3)
        (list_term [.map [(.atom "left", .int 1), (.atom "width", .int 65537)], .int 9])
        (.int 1) ∧
    nif_fbink_mtk_set_halftone fbink_call_h sample_native (.int 3) (.atom "nil") (.int 1)
      = { ret := .term (make_ok_or_error 0),
          calls := [{ entry := "fbink_mtk_set_halftone",
                      args := [.int 3, .rects [FBInkRect.zeroed, FBInkRect.zeroed],
                        .int (fbink_call_h.MTK_HALFTONE_MODE_INDEX_T 1)] }] } := by
  have h := halftone_exclude_regions fbink_call_h sample_native (.int 3) (.int 1) 3 1
    (by decide) (by decide)
  exact ⟨h.2.1 _ _ _, h.2.2.1 (.atom "nil") rfl⟩

/-! ## Scalar validation of the pixel write -/

theorem enif_get_int_eq_none_iff (t : Term) :
    enif_get_int t = none ↔ ¬ ∃ v : Int, t = .int v ∧ -2147483648 ≤ v ∧ v ≤ 2147483647 := by
  cases t with
  | int v =>
    by_cases h : INT_MIN ≤ v ∧ v ≤ INT_MAX
    · have h2 := h
      simp only [INT_MIN, INT_MAX] at h2
      simp [enif_get_int, h, h2]
    · have h2 := h
      simp only [INT_MIN, INT_MAX] at h2
      simp only [enif_get_int, h, if_false, true_iff]
      rintro ⟨w, hw, hr⟩
      cases hw
      exact h2 hr
  | _ => simp [enif_get_int]

theorem enif_get_uint_eq_none_iff (t : Term) :
    enif_get_uint t = none ↔ ¬ ∃ v : Int, t = .int v ∧ 0 ≤ v ∧ v < 4294967296 := by
  cases t with
  | int v =>
    by_cases h : 0 ≤ v ∧ v ≤ UINT_MAX
    · have h2 : 0 ≤ v ∧ v < 4294967296 := by
        simp only [UINT_MAX] at h
        omega
      simp [enif_get_uint, h, h2]
    · have h2 : ¬ (0 ≤ v ∧ v < 4294967296) := by
        simp only [UINT_MAX] at h
        omega
      simp only [enif_get_uint, h, if_false, true_iff]
      rintro ⟨w, hw, hr⟩
      cases hw
      exact h2 hr
  | _ => simp [enif_get_uint]

/-- C28: scalar validation of `nif_fbink_put_pixel_rgba`. If any of the seven arguments
is not an integer of the kind expected at its position (the descriptor an integer in
`-2^31 .. 2^31-1`; x, y, r, g, b, a integers in `0 .. 2^32-1`) the result is the
bad-argument error and no native entry point is invoked. Otherwise the native
`fbink_put_pixel_rgba` is invoked exactly once, with the coordinates converted to
`uint16_t` and the components to `uint8_t`, and the result is `make_ok_or_error` of its
return code. -/
theorem put_pixel_rgba_validation (E : Native) (a0 a1 a2 a3 a4 a5 a6 : Term) :
    ((¬ (∃ v : Int, a0 = .int v ∧ -2147483648 ≤ v ∧ v ≤ 2147483647) ∨
      ¬ (∃ v : Int, a1 = .int v ∧ 0 ≤ v ∧ v < 4294967296) ∨
      ¬ (∃ v : Int, a2 = .int v ∧ 0 ≤ v ∧ v < 4294967296) ∨
      ¬ (∃ v : Int, a3 = .int v ∧ 0 ≤ v ∧ v < 4294967296) ∨
      ¬ (∃ v : Int, a4 = .int v ∧ 0 ≤ v ∧ v < 4294967296) ∨
      ¬ (∃ v : Int, a5 = .int v ∧ 0 ≤ v ∧ v < 4294967296) ∨
      ¬ (∃ v : Int, a6 = .int v ∧ 0 ≤ v ∧ v < 4294967296)) →
      nif_fbink_put_pixel_rgba E a0 a1 a2 a3 a4 a5 a6 = { ret := .badarg, calls := [] }) ∧
    (∀ fbfd x y r g b a : Int,
      a0 = .int fbfd → -2147483648 ≤ fbfd ∧ fbfd ≤ 2147483647 →
      a1 = .int x → 0 ≤ x ∧ x < 4294967296 →
      a2 = .int y → 0 ≤ y ∧ y < 4294967296 →
      a3 = .int r → 0 ≤ r ∧ r < 4294967296 →
      a4 = .int g → 0 ≤ g ∧ g < 4294967296 →
      a5 = .int b → 0 ≤ b ∧ b < 4294967296 →
      a6 = .int a → 0 ≤ a ∧ a < 4294967296 →
      nif_fbink_put_pixel_rgba E a0 a1 a2 a3 a4 a5 a6
        = { ret := .term (make_ok_or_error E.rv),
            calls := [{ entry := "fbink_put_pixel_rgba",
                        args := [.int fbfd, .int (cast_uint16 x), .int (cast_uint16 y),
                          .int (cast_uint8 r), .int (cast_uint8 g), .int (cast_uint8 b),
                          .int (cast_uint8 a)] }] }) := by
  refine ⟨fun hbad => ?_, ?_⟩
  · rw [← enif_get_int_eq_none_iff, ← enif_get_uint_eq_none_iff, ← enif_get_uint_eq_none_iff,
      ← enif_get_uint_eq_none_iff, ← enif_get_uint_eq_none_iff, ← enif_get_uint_eq_none_iff,
      ← enif_get_uint_eq_none_iff] at hbad
    unfold nif_fbink_put_pixel_rgba
    split
    · simp_all
    · rfl
  · intro fbfd x y r g b a e0 r0 e1 r1 e2 r2 e3 r3 e4 r4 e5 r5 e6 r6
    subst e0 e1 e2 e3 e4 e5 e6
    have hu : ∀ v : Int, 0 ≤ v ∧ v < 4294967296 → enif_get_uint (.int v) = some v := by
      intro v hv
      have : 0 ≤ v ∧ v ≤ UINT_MAX := by
        simp only [UINT_MAX]
        omega
      simp [enif_get_uint, this]
    have hi : enif_get_int (.int fbfd) = some fbfd := by
      have : INT_MIN ≤ fbfd ∧ fbfd ≤ INT_MAX := by
        simp only [INT_MIN, INT_MAX]
        exact r0
      simp [enif_get_int, this]
    simp only [nif_fbink_put_pixel_rgba, hi, hu x r1, hu y r2, hu r r3, hu g r4, hu b r5,
      hu a r6]

theorem put_pixel_rgba_validation_witness :
    nif_fbink_put_pixel_rgba sample_native (.int 3) (.int 10) (.int 20) (.int 255)
        (.int (-1)) (.int 0) (.int 255) = { ret := .badarg, calls := [] } ∧
    nif_fbink_put_pixel_rgba sample_native (.int 3) (.int 10) (.int 20) (.int 255)
        (.int 128) (.int 0) (.int 255)
      = { ret := .term (make_ok_or_error 0),
          calls := [{ entry := "fbink_put_pixel_rgba",
                      args := [.int 3, .int (cast_uint16 10), .int (cast_uint16 20),
                        .int (cast_uint8 255), .int (cast_uint8 128), .int (cast_uint8 0),
                        .int (cast_uint8 255)] }] } :=
  ⟨(put_pixel_rgba_validation sample_native (.int 3) (.int 10) (.int 20) (.int 255)
      (.int (-1)) (.int 0) (.int 255)).1
      (Or.inr (Or.inr (Or.inr (Or.inr (Or.inl (by
        rintro ⟨v, hv, h0, _⟩
        cases hv
        exact absurd h0 (by decide))))))),
   (put_pixel_rgba_validation sample_native (.int 3) (.int 10) (.int 20) (.int 255)
      (.int 128) (.int 0) (.int 255)).2 3 10 20 255 128 0 255 rfl (by decide) rfl
      (by decide) rfl (by decide) rfl (by decide) rfl (by decide) rfl (by decide) rfl
      (by decide)⟩

/-! ## Narrow fields -/

/-- C29: narrow fields wrap. For every integer `v` with `0 <= v < 2^32` found under a
rectangle key (`left`, `top`, `width`, `height`), `map_to_fbink_rect` stores
`v mod 65536` in the 16-bit field; found under `fontmult` or `saturation_boost`,
`map_to_fbink_config` stores `v mod 256` in the 8-bit field. The supplied `65536` gives
`0` in a rectangle field and `256` gives `0` in the two 8-bit fields. The stored value
is `v` exactly when `v` fits the field (`v < 65536`, respectively `v < 256`). -/
theorem narrow_fields_wrap (T : FBInkTypes) (map : Term) (v : Int)
    (hlo : 0 ≤ v) (hhi : v < 4294967296) :
    (enif_get_map_value map atom_left = some (.int v) →
      (map_to_fbink_rect map).left = v % 65536) ∧
    (enif_get_map_value map atom_top = some (.int v) →
      (map_to_fbink_rect map).top = v % 65536) ∧
    (enif_get_map_value map atom_width = some (.int v) →
      (map_to_fbink_rect map).width = v % 65536) ∧
    (enif_get_map_value map atom_height = some (.int v) →
      (map_to_fbink_rect map).height = v % 65536) ∧
    (enif_get_map_value map atom_fontmult = some (.int v) →
      (map_to_fbink_config T map).fontmult = v % 256) ∧
    (enif_get_map_value map atom_saturation_boost = some (.int v) →
      (map_to_fbink_config T map).saturation_boost = v % 256) ∧
    (v % 65536 = v ↔ v < 65536) ∧ (v % 256 = v ↔ v < 256) ∧
    (v = 65536 → v % 65536 = 0) ∧ (v = 256 → v % 256 = 0) := by
  have hmax : v ≤ UINT_MAX := by
    simp only [UINT_MAX]
    omega
  refine ⟨fun h => ?_, fun h => ?_, fun h => ?_, fun h => ?_, fun h => ?_, fun h => ?_,
    ⟨fun h => ?_, fun h => ?_⟩, ⟨fun h => ?_, fun h => ?_⟩, fun h => ?_, fun h => ?_⟩
  · simp [map_to_fbink_rect, get_uint_of_uint map _ 0 v h hlo hmax, cast_ushort,
      cast_unsigned]
  · simp [map_to_fbink_rect, get_uint_of_uint map _ 0 v h hlo hmax, cast_ushort,
      cast_unsigned]
  · simp [map_to_fbink_rect, get_uint_of_uint map _ 0 v h hlo hmax, cast_ushort,
      cast_unsigned]
  · simp [map_to_fbink_rect, get_uint_of_uint map _ 0 v h hlo hmax, cast_ushort,
      cast_unsigned]
  · simp [map_to_fbink_config, get_uint_of_uint map _ 0 v h hlo hmax, cast_uint8,
      cast_unsigned]
  · simp [map_to_fbink_config, get_uint_of_uint map _ 0 v h hlo hmax, cast_uint8,
      cast_unsigned]
  · omega
  · omega
  · omega
  · omega
  · omega
  · omega

theorem narrow_fields_wrap_witness :
    (map_to_fbink_rect (.map [(.atom "left", .int 65536)])).left = 0 ∧
    (map_to_fbink_rect (.map [(.atom "width", .int 65537)])).width = 1 ∧
    (map_to_fbink_config fbink_h (.map [(.atom "fontmult", .int 258)])).fontmult = 2 := by
  have h1 := (narrow_fields_wrap fbink_h (.map [(.atom "left", .int 65536)]) 65536
    (by decide) (by decide)).1 rfl
  have h2 := (narrow_fields_wrap fbink_h (.map [(.atom "width", .int 65537)]) 65537
    (by decide) (by decide)).2.2.1 rfl
  have h3 := (narrow_fields_wrap fbink_h (.map [(.atom "fontmult", .int 258)]) 258
    (by decide) (by decide)).2.2.2.2.1 rfl
  exact ⟨h1, h2, h3⟩

/-! ## Optional rectangle of the clear -/

/-- C30: optional rectangle of `nif_fbink_cls`. With a readable descriptor and
`no_rota`, the native clear is invoked once whatever the third argument is, and the
result is `make_ok_or_error` of its status, never the bad-argument error. The call gets
no rectangle (a null pointer) exactly when the third argument is an atom, any atom;
for every other term it gets the rectangle `map_to_fbink_rect` makes of the term, which
is the all-zero rectangle when the term is not a mapping. -/
theorem cls_optional_rect (T : FBInkTypes) (E : Native) (a0 a1 a2 a3 : Term)
    (fbfd no_rota : Int)
    (h0 : enif_get_int a0 = some fbfd) (h3 : enif_get_int a3 = some no_rota) :
    (∃ rect_ptr : Option FBInkRect,
      nif_fbink_cls T E a0 a1 a2 a3
        = { ret := .term (make_ok_or_error E.rv),
            calls := [{ entry := "fbink_cls",
                        args := [.int fbfd, .config (map_to_fbink_config T a1),
                          .rect_ptr rect_ptr, .bool (no_rota != 0)] }] } ∧
      (rect_ptr = none ↔ ∃ name : String, a2 = .atom name) ∧
      ((∀ name : String, a2 ≠ .atom name) → rect_ptr = some (map_to_fbink_rect a2)) ∧
      ((∀ name : String, a2 ≠ .atom name) → (∀ entries, a2 ≠ .map entries) →
        rect_ptr = some FBInkRect.zeroed)) ∧
    (nif_fbink_cls T E a0 a1 a2 a3).ret ≠ .badarg := by
  have hatom : enif_is_atom a2 = true ↔ ∃ name : String, a2 = .atom name := by
    cases a2 <;> simp [enif_is_atom]
  by_cases ha : enif_is_atom a2 = true
  · obtain ⟨name, hname⟩ := hatom.mp ha
    refine ⟨⟨none, ?_, ⟨fun _ => ⟨name, hname⟩, fun _ => rfl⟩, fun h => absurd hname (h name),
      fun h _ => absurd hname (h name)⟩, ?_⟩
    · simp [nif_fbink_cls, h0, h3, ha]
    · simp [nif_fbink_cls, h0, h3, ha]
  · have hno : ∀ name : String, a2 ≠ .atom name := fun name hname => ha (hatom.mpr ⟨name, hname⟩)
    refine ⟨⟨some (map_to_fbink_rect a2), ?_, ⟨fun h => Option.noConfusion h,
      fun ⟨name, hname⟩ => absurd hname (hno name)⟩, fun _ => rfl,
      fun _ hm => by rw [map_to_fbink_rect_of_not_map a2 hm]⟩, ?_⟩
    · simp [nif_fbink_cls, h0, h3, ha]
    · simp [nif_fbink_cls, h0, h3, ha]

theorem cls_optional_rect_witness :
    (nif_fbink_cls fbink_h sample_native (.int 3) (.map []) (.atom "full") (.int 0)).calls
      = [{ entry := "fbink_cls",
           args := [.int 3, .config (map_to_fbink_config fbink_h (.map [])),
             .rect_ptr none, .bool false] }] ∧
    (nif_fbink_cls fbink_h sample_native (.int 3) (.map []) (.int 7) (.int 0)).calls
      = [{ entry := "fbink_cls",
           args := [.int 3, .config (map_to_fbink_config fbink_h (.map [])),
             .rect_ptr (some FBInkRect.zeroed), .bool false] }] := by
  obtain ⟨⟨p1, hrun1, hnone, _, _⟩, _⟩ := cls_optional_rect fbink_h sample_native (.int 3)
    (.map []) (.atom "full") (.int 0) 3 0 (by decide) (by decide)
  obtain ⟨⟨p2, hrun2, _, _, hzero⟩, _⟩ := cls_optional_rect fbink_h sample_native (.int 3)
    (.map []) (.int 7) (.int 0) 3 0 (by decide) (by decide)
  rw [hrun1, hrun2, hnone.mpr ⟨"full", rfl⟩,
    hzero (fun _ h => Term.noConfusion h) (fun _ h => Term.noConfusion h)]
  exact ⟨rfl, rfl⟩

end FbinkNif
